import Mathlib

/-!
LoRaWAN modem command layer (cmd.c, lrw.c).

A shallow embedding of the AT command handlers of `src/cmd.c` and of the
engine adapter of `src/lrw.c`, with theorems about them.

Conventions of the embedding:

* C integers are `Int`/`Nat`; `uint32_t` arithmetic is written with explicit
  `% 2 ^ 32` where a wrap-around can happen.
* A handler is a function `World → World`.  Everything a handler does to the
  outside (text written to the AT interface, requests issued to the LoRaMac
  engine, timer operations, arming the payload reader) is appended to
  `World.trace` in program order.
* Code that is called but is not part of the two source files (the LoRaMac
  engine, the ATCI line interface) is a field of `Env`.  An answer of the
  engine may depend on everything that has happened so far, so each such field
  takes the trace as an argument.  Calls that return nothing (the timer server,
  the output functions) only leave an event in the trace.
-/

namespace LoraModem

/-! ## cmd_errno (cmd.c:22-43) -/

@[reducible] def ERR_UNKNOWN_CMD : Int := -1
@[reducible] def ERR_PARAM_NO : Int := -2
@[reducible] def ERR_PARAM : Int := -3
@[reducible] def ERR_FACNEW_FAILED : Int := -4
@[reducible] def ERR_NO_JOIN : Int := -5
@[reducible] def ERR_JOINED : Int := -6
@[reducible] def ERR_BUSY : Int := -7
@[reducible] def ERR_VERSION : Int := -8
@[reducible] def ERR_MISSING_INFO : Int := -9
@[reducible] def ERR_FLASH_ERROR : Int := -10
@[reducible] def ERR_UPDATE_FAILED : Int := -11
@[reducible] def ERR_PAYLOAD_LONG : Int := -12
@[reducible] def ERR_NO_ABP : Int := -13
@[reducible] def ERR_NO_OTAA : Int := -14
@[reducible] def ERR_BAND : Int := -15
@[reducible] def ERR_POWER : Int := -16
@[reducible] def ERR_UNSUPPORTED : Int := -17
@[reducible] def ERR_DUTYCYCLE : Int := -18
@[reducible] def ERR_NO_CHANNEL : Int := -19
@[reducible] def ERR_TOO_MANY : Int := -20

/-! ## LoRaMacStatus_t

The enumeration is declared in `LoRaMac.h` of the LoRaMac-node library, which
is not among the sources.  The handlers only rely on `LORAMAC_STATUS_OK` being
`0` (they test `rv == 0` and `status <= 0`) and on the other enumerators being
the case labels of one `switch`.  The numbering of the other enumerators is
therefore a parameter. -/

@[reducible] def LORAMAC_STATUS_OK : Int := 0

/-- The numeric values of the `LORAMAC_STATUS_*` enumerators that the two
source files name. -/
structure LoRaMacStatus where
  BUSY : Int
  SERVICE_UNKNOWN : Int
  PARAMETER_INVALID : Int
  FREQUENCY_INVALID : Int
  DATARATE_INVALID : Int
  FREQ_AND_DR_INVALID : Int
  NO_NETWORK_JOINED : Int
  LENGTH_ERROR : Int
  REGION_NOT_SUPPORTED : Int
  DUTYCYCLE_RESTRICTED : Int
  NO_CHANNEL_FOUND : Int
  NO_FREE_CHANNEL_FOUND : Int
  deriving DecidableEq, Repr

namespace LoRaMacStatus

/-- The eleven enumerators that are case labels of the `switch` in
`status2error`, in source order. -/
def recognised (c : LoRaMacStatus) : List Int :=
  [c.BUSY, c.SERVICE_UNKNOWN, c.NO_NETWORK_JOINED, c.DUTYCYCLE_RESTRICTED,
   c.REGION_NOT_SUPPORTED, c.FREQUENCY_INVALID, c.DATARATE_INVALID,
   c.FREQ_AND_DR_INVALID, c.LENGTH_ERROR, c.NO_CHANNEL_FOUND,
   c.NO_FREE_CHANNEL_FOUND]

/-- What C guarantees of the enumerators: the case labels of one `switch` are
pairwise distinct, and every enumerator declared after `LORAMAC_STATUS_OK = 0`
is positive. -/
def WellFormed (c : LoRaMacStatus) : Prop :=
  c.recognised.Nodup ∧ (∀ s ∈ c.recognised, 0 < s) ∧
    0 < c.PARAMETER_INVALID ∧ c.PARAMETER_INVALID ∉ c.recognised

instance (c : LoRaMacStatus) : Decidable c.WellFormed := by
  unfold WellFormed; infer_instance

end LoRaMacStatus

/-- The numbering of `LoRaMacStatus_t` in LoRaMac-node 4.4/4.5 (`LoRaMac.h`):
the enumerators count up from `LORAMAC_STATUS_OK = 0`. -/
def loramacNode : LoRaMacStatus where
  BUSY := 1
  SERVICE_UNKNOWN := 2
  PARAMETER_INVALID := 3
  FREQUENCY_INVALID := 4
  DATARATE_INVALID := 5
  FREQ_AND_DR_INVALID := 6
  NO_NETWORK_JOINED := 7
  LENGTH_ERROR := 8
  REGION_NOT_SUPPORTED := 9
  DUTYCYCLE_RESTRICTED := 11
  NO_CHANNEL_FOUND := 12
  NO_FREE_CHANNEL_FOUND := 13

/-! ## status2error (cmd.c:84-101) -/

/-- `static int status2error(int status)`.  The `switch` is written as the
chain of comparisons in the order of its case labels. -/
def status2error (c : LoRaMacStatus) (status : Int) : Int :=
  if status ≤ 0 then -status
  else if status = c.BUSY then ERR_BUSY
  else if status = c.SERVICE_UNKNOWN then ERR_UNKNOWN_CMD
  else if status = c.NO_NETWORK_JOINED then ERR_NO_JOIN
  else if status = c.DUTYCYCLE_RESTRICTED then ERR_DUTYCYCLE
  else if status = c.REGION_NOT_SUPPORTED then ERR_BAND
  else if status = c.FREQUENCY_INVALID then ERR_UNSUPPORTED
  else if status = c.DATARATE_INVALID then ERR_UNSUPPORTED
  else if status = c.FREQ_AND_DR_INVALID then ERR_UNSUPPORTED
  else if status = c.LENGTH_ERROR then ERR_PAYLOAD_LONG
  else if status = c.NO_CHANNEL_FOUND then ERR_NO_CHANNEL
  else if status = c.NO_FREE_CHANNEL_FOUND then ERR_NO_CHANNEL
  else ERR_PARAM

/-! ## Data model -/

/-- The cursor `atci_param_t` over the argument text of a command: the text,
its length and the current offset. -/
structure atci_param_t where
  txt : List Char
  length : Nat
  offset : Nat
  deriving DecidableEq, Repr

/-- The `Mib_t` enumerators named in cmd.c and lrw.c. -/
inductive Mib
  | MIB_DEVICE_CLASS | MIB_ADR | MIB_NET_ID | MIB_DEV_ADDR | MIB_DEV_EUI
  | MIB_JOIN_EUI | MIB_APP_KEY | MIB_NWK_KEY | MIB_F_NWK_S_INT_KEY
  | MIB_S_NWK_S_INT_KEY | MIB_NWK_S_ENC_KEY | MIB_APP_S_KEY
  | MIB_PUBLIC_NETWORK | MIB_CHANNELS_MASK | MIB_CHANNELS_DEFAULT_MASK
  | MIB_RX2_CHANNEL | MIB_RX2_DEFAULT_CHANNEL | MIB_JOIN_ACCEPT_DELAY_1
  | MIB_JOIN_ACCEPT_DELAY_2 | MIB_RECEIVE_DELAY_1 | MIB_RECEIVE_DELAY_2
  | MIB_CHANNELS_DATARATE | MIB_CHANNELS_DEFAULT_DATARATE
  | MIB_CHANNELS_TX_POWER | MIB_CHANNELS_DEFAULT_TX_POWER
  | MIB_SYSTEM_MAX_RX_ERROR | MIB_LORAWAN_VERSION | MIB_ABP_LORAWAN_VERSION
  | MIB_NVM_CTXS
  deriving DecidableEq, Repr

/-- The member of the union `MibParam_t` that a request carries.  A member that
is a pointer (`uint8_t *` key or EUI, `uint16_t *` channel mask) is represented
by the bytes it points to when the request is issued. -/
inductive MibParam
  | scalar (v : Nat)
  | buffer (bytes : List Nat)
  | rx2 (Frequency Datarate : Nat)
  deriving DecidableEq, Repr

/-- A set request `MibRequestConfirm_t`: the attribute and its value. -/
structure MibRequestConfirm_t where
  type : Mib
  Param : MibParam
  deriving DecidableEq, Repr

/-- The `Mcps_t` request types used by `lrw_send`. -/
inductive Mcps
  | MCPS_UNCONFIRMED | MCPS_CONFIRMED
  deriving DecidableEq, Repr

/-- The fields of `McpsReq_t` that `lrw_send` assigns.  `lrw_send` declares the
request without an initialiser, so a field it does not assign is indeterminate:
`fPort = none` says that the port was not assigned.  `fBuffer = none` is the
`NULL` pointer, `some b` a pointer to the buffer `b`. -/
structure McpsReq_t where
  type : Mcps
  fPort : Option Nat
  fBuffer : Option (List Char)
  fBufferSize : Nat
  deriving DecidableEq, Repr

/-- The encodings `atci_encoding_t` of a payload read. -/
inductive atci_encoding_t
  | ATCI_ENCODING_BIN | ATCI_ENCODING_HEX
  deriving DecidableEq, Repr

/-- How a payload read ended, `atci_data_status_t`. -/
inductive atci_data_status_t
  | ATCI_DATA_OK | ATCI_DATA_ABORTED | ATCI_DATA_ENCODING_ERROR
  deriving DecidableEq, Repr

/-- The seven persisted state groups: the members of the file-scope struct
`nvm` of lrw.c, in the order in which `save_state` and `restore_state` treat
them. -/
inductive Group
  | crypto | mac1 | mac2 | se | region1 | region2 | classb
  deriving DecidableEq, Repr

/-- The fields of `McpsConfirm_t` that lrw.c reads. -/
structure McpsConfirm_t where
  Status : Int
  McpsRequest : Mcps
  AckReceived : Bool
  Channel : Nat
  deriving DecidableEq, Repr

/-- The fields of `McpsIndication_t` that lrw.c reads.  `Buffer` is the memory
the pointer `Buffer` points to. -/
structure McpsIndication_t where
  Status : Int
  Port : Nat
  Buffer : List Nat
  BufferSize : Nat
  RxData : Bool
  RxDatarate : Nat
  Rssi : Int
  Snr : Int
  DownLinkCounter : Nat
  RxSlot : Nat
  IsUplinkTxPending : Bool
  deriving DecidableEq, Repr

/-- The `Mlme_t` request types as far as lrw.c tells them apart. -/
inductive Mlme
  | MLME_JOIN | MLME_OTHER
  deriving DecidableEq, Repr

/-- The fields of `MlmeConfirm_t` that lrw.c reads. -/
structure MlmeConfirm_t where
  MlmeRequest : Mlme
  Status : Int
  deriving DecidableEq, Repr

/-- The fields of `MlmeIndication_t` that lrw.c reads. -/
structure MlmeIndication_t where
  Status : Int
  deriving DecidableEq, Repr

/-- The activation types that `lrw_activate` puts into a join request. -/
inductive ActivationType
  | ACTIVATION_TYPE_ABP | ACTIVATION_TYPE_OTAA
  deriving DecidableEq, Repr

/-- The fields of `MlmeReq_t` that `lrw_activate` assigns: the request type,
`Req.Join.Datarate` and `Req.Join.NetworkActivation`. -/
structure MlmeReq_t where
  type : Mlme
  Datarate : Nat
  NetworkActivation : ActivationType
  deriving DecidableEq, Repr

/-- What a handler does to the outside, in program order. -/
inductive Event
  /-- Text written with `atci_print`, `atci_printf` or `cmd_print`. -/
  | print (s : String)
  /-- `LoRaMacMibSetRequestConfirm(&r)`. -/
  | mibSet (r : MibRequestConfirm_t)
  /-- `LoRaMacMibGetRequestConfirm(&r)` for the attribute `t`. -/
  | mibGet (t : Mib)
  /-- `LoRaMacQueryTxPossible(length, &txInfo)`. -/
  | queryTxPossible (length : Nat)
  /-- `LoRaMacMcpsRequest(&mcpsReq)`. -/
  | mcpsRequest (r : McpsReq_t)
  /-- `TimerInit(&payload_timer, payload_timeout)`. -/
  | timerInit
  /-- `TimerSetValue(&payload_timer, value)`. -/
  | timerSetValue (value : Nat)
  /-- `TimerStart(&payload_timer)`. -/
  | timerStart
  /-- `TimerStop(&payload_timer)`. -/
  | timerStop
  /-- `atci_set_read_next_data(length, encoding, transmit)` and what it
  returned: `true` when the payload read is armed. -/
  | setReadNextData (length : Nat) (encoding : atci_encoding_t) (armed : Bool)
  /-- Raw bytes written with `atci_write`. -/
  | write (data : List Nat)
  /-- `atci_flush()`. -/
  | flush
  /-- `LoRaMacProcess()`. -/
  | LoRaMacProcess
  /-- `LoRaMacStop()` and the status it returned. -/
  | LoRaMacStop (rc : Int)
  /-- `LoRaMacStart()`. -/
  | LoRaMacStart
  /-- `part_write(&nvm.g, 0, &s->G, sizeof(s->G))` for the group `g` and what
  it returned: `true` when the group was written. -/
  | part_write (g : Group) (written : Bool)
  /-- `memcpy(&s->G, p, size)`: the stored blob of the group `g` is copied
  into the live state of the engine. -/
  | memcpy (g : Group) (blob : List Nat)
  /-- An assignment to the file-scope variable `nvm_flags` of lrw.c, with the
  value stored.  The variable is a field of `World` as well; the assignment is
  recorded because its place among the engine calls matters. -/
  | set_nvm_flags (value : Nat)
  /-- `lrw_set_region(region)`. -/
  | lrw_set_region (region : Nat)
  /-- `LoRaMacIsBusy()` and what it returned. -/
  | LoRaMacIsBusy (busy : Bool)
  /-- `LoRaMacMlmeRequest(&mlme)`. -/
  | mlmeRequest (r : MlmeReq_t)
  /-- `nvm_erase()` and what it returned. -/
  | nvm_erase (rc : Int)
  /-- `lrw_set_dwell(uplink, downlink)`. -/
  | lrw_set_dwell (uplink downlink : Bool)
  /-- A read of `param->txt[offset]` by a handler itself. -/
  | read_txt (offset : Nat)
  deriving DecidableEq, Repr

/-- A callback that the engine invokes: a member of `primitives` or of
`callbacks` of lrw.c, with its argument. -/
inductive Callback
  | NvmDataChange (flags : Nat)
  | MacMcpsConfirm (param : McpsConfirm_t)
  | MacMcpsIndication (param : McpsIndication_t)
  | MacMlmeConfirm (param : MlmeConfirm_t)
  | MacMlmeIndication (param : MlmeIndication_t)
  | MacProcessNotify
  deriving DecidableEq, Repr

/-- The fields of the global `sysconf` that the handlers use. -/
structure sysconf_t where
  uart_baudrate : Nat
  uart_timeout : Nat
  default_port : Nat
  data_format : Nat
  sleep : Nat
  unconfirmed_retransmissions : Nat
  confirmed_retransmissions : Nat
  deriving DecidableEq, Repr

/-- The mutable state of the program: the file-scope variables of cmd.c
(`port`, `request_confirmation`, `schedule_reset`), the globals `sysconf` and
`sysconf_modified`, the file-scope variables of lrw.c (`nvm_flags`, `lrw_irq`,
`tx_params`, `rx_params`, `config->mode`), and the trace of everything done so
far. -/
structure World where
  trace : List Event
  port : Nat
  request_confirmation : Bool
  schedule_reset : Bool
  sysconf : sysconf_t
  sysconf_modified : Bool
  nvm_flags : Nat
  lrw_irq : Bool
  tx_params : McpsConfirm_t
  rx_params : McpsIndication_t
  /-- The member `mode` of the configuration `config` points to. -/
  config_mode : Nat
  deriving DecidableEq, Repr

/-- Result of `atci_param_get_uint(param, &v)`: the return value, the value
stored in `v` and the cursor afterwards. -/
structure UintResult where
  ret : Bool
  value : Nat
  param : atci_param_t
  deriving DecidableEq, Repr

/-- Result of `atci_param_is_comma(param)`: the return value and the cursor
afterwards. -/
structure CommaResult where
  ret : Bool
  param : atci_param_t
  deriving DecidableEq, Repr

/-- Result of `atci_param_get_buffer_from_hex(param, buffer, length)`: the
return value (the number of bytes decoded), the bytes stored in the buffer and
the cursor afterwards. -/
structure HexResult where
  ret : Nat
  buffer : List Nat
  param : atci_param_t
  deriving DecidableEq, Repr

/-- The code outside cmd.c and lrw.c.  The LoRaMac engine answers each request
with a status; the answer may depend on everything that happened before, which
is the trace.  The ATCI cursor functions are functions of the cursor. -/
structure Env where
  /-- Numbering of `LoRaMacStatus_t`. -/
  status : LoRaMacStatus
  /-- Whether `__BYTE_ORDER__ == __ORDER_LITTLE_ENDIAN__` on the target. -/
  littleEndian : Bool
  /-- Status returned by `LoRaMacMibSetRequestConfirm`. -/
  LoRaMacMibSetRequestConfirm : List Event → MibRequestConfirm_t → Int
  /-- Status returned by `LoRaMacMibGetRequestConfirm` and the value it stores
  in a scalar member of `r.Param`. -/
  LoRaMacMibGetRequestConfirm : List Event → Mib → Int × Nat
  /-- Status returned by `LoRaMacQueryTxPossible`. -/
  LoRaMacQueryTxPossible : List Event → Nat → Int
  /-- Status returned by `LoRaMacMcpsRequest`. -/
  LoRaMacMcpsRequest : List Event → McpsReq_t → Int
  /-- Return value of `atci_set_read_next_data`. -/
  atci_set_read_next_data : List Event → Nat → atci_encoding_t → Bool
  atci_param_get_uint : atci_param_t → UintResult
  atci_param_is_comma : atci_param_t → CommaResult
  atci_param_get_buffer_from_hex : atci_param_t → Nat → HexResult
  /-- The bit `LORAMAC_NVM_NOTIFY_FLAG_*` of each group (`LoRaMac.h`). -/
  nvmFlag : Group → Nat
  /-- Status returned by `LoRaMacStop`. -/
  LoRaMacStop : List Event → Int
  /-- Return value of `part_write` for a group. -/
  part_write : List Event → Group → Bool
  /-- What `part_mmap` delivers for a group when the program starts: `none`
  for a null pointer, otherwise the bytes of the partition; their number is
  the size stored in `size`. -/
  part_mmap : Group → Option (List Nat)
  /-- `Crc32(buffer, length)` of the LoRaMac utilities, as a function of the
  bytes it is given. -/
  Crc32 : List Nat → Nat
  /-- The callbacks that the engine invokes during one `LoRaMacProcess()`, in
  order. -/
  LoRaMacProcess : List Event → List Callback
  /-- Return value of `lrw_set_region`, which is not in the part of lrw.c at
  hand. -/
  lrw_set_region : List Event → Nat → Int
  /-- Return value of `lrw_get_chmask_length`, which is not in the part of
  lrw.c at hand. -/
  lrw_get_chmask_length : List Event → Nat
  /-- `REGION_NVM_CHANNELS_MASK_SIZE` of the engine. -/
  REGION_NVM_CHANNELS_MASK_SIZE : Nat
  /-- The event numbers declared in cmd.h. -/
  CMD_EVENT_MODULE : Nat
  CMD_MODULE_FACNEW : Nat
  CMD_EVENT_JOIN : Nat
  CMD_JOIN_SUCCEEDED : Nat
  CMD_JOIN_FAILED : Nat
  /-- Return value of `LoRaMacIsBusy`. -/
  LoRaMacIsBusy : List Event → Bool
  /-- Status returned by `LoRaMacMlmeRequest`. -/
  LoRaMacMlmeRequest : List Event → MlmeReq_t → Int
  /-- The member `MaxPossibleApplicationDataSize` that `LoRaMacQueryTxPossible`
  stores in `txInfo`. -/
  MaxPossibleApplicationDataSize : List Event → Nat → Nat
  /-- Return value of `nvm_erase` (nvm.c). -/
  nvm_erase : List Event → Int
  /-- Return value of `lrw_set_dwell`, which is not in the part of lrw.c at
  hand. -/
  lrw_set_dwell : List Event → Bool → Bool → Int
  /-- The value that cmd.c takes as the result of `lrw_set_mode(v)`.  In the
  part of lrw.c at hand the function returns nothing; cmd.c is written for a
  declaration that returns a status. -/
  lrw_set_mode_status : List Event → Nat → Int

/-- Sizes of an EUI and of a key, `SE_EUI_SIZE` and `SE_KEY_SIZE` of the
LoRaMac-node secure element: LoRaWAN EUIs have 8 bytes, AES-128 keys 16. -/
def SE_EUI_SIZE : Nat := 8

/-- See `SE_EUI_SIZE`. -/
def SE_KEY_SIZE : Nat := 16

/-! ## Output and engine calls -/

/-- Appends an event to the trace. -/
def World.emit (w : World) (ev : Event) : World :=
  { w with trace := w.trace ++ [ev] }

/-- `atci_print(s)`; `atci_printf` with its arguments already formatted. -/
def atci_print (s : String) (w : World) : World := w.emit (.print s)

/-- The macro `abort(num)`: prints the error reply; the `return` is the
absence of a continuation. -/
def abort (num : Int) (w : World) : World :=
  atci_print ("+ERR=" ++ toString num ++ "\r\n\r\n") w

/-- The macro `EOL()`. -/
def EOL (w : World) : World := atci_print "\r\n\n" w

/-- The macro `OK(...)` with the formatted values `s`. -/
def OK (s : String) (w : World) : World := EOL (atci_print ("+OK=" ++ s) w)

/-- The macro `OK_()`. -/
def OK_ (w : World) : World := atci_print "+OK\r\n\r\n" w

/-- The macro `abort_on_error(status)`, followed by the rest `k` of the
function: when the translated status is negative the error is printed and the
function returns, otherwise the function goes on. -/
def abort_on_error (c : LoRaMacStatus) (status : Int) (k : World → World)
    (w : World) : World :=
  let rc := status2error c status
  if rc < 0 then abort rc w else k w

/-- `LoRaMacMibSetRequestConfirm(&r)` followed by `abort_on_error` on its
status and the rest `k` of the function. -/
def setRequest (e : Env) (r : MibRequestConfirm_t) (k : World → World)
    (w : World) : World :=
  abort_on_error e.status (e.LoRaMacMibSetRequestConfirm w.trace r) k
    (w.emit (.mibSet r))

/-! ## Byte order (cmd.c:68-75) -/

/-- `static inline uint32_t ntohl(uint32_t v)`; the two branches of the
`#if __BYTE_ORDER__ == __ORDER_LITTLE_ENDIAN__`.  No operand leaves 32 bits:
each shift to the left is applied to a value masked so that the result is
below `2 ^ 32`. -/
def ntohl (littleEndian : Bool) (v : Nat) : Nat :=
  if littleEndian then
    ((v &&& 0xff) <<< 24) ||| ((v &&& 0xff00) <<< 8) |||
      ((v &&& 0xff0000) >>> 8) ||| ((v &&& 0xff000000) >>> 24)
  else v

/-- The value of a `uint32_t` object whose four bytes, in address order, are
`b`: what `set_devaddr` reads from `buf` after the hex decoder has stored the
decoded bytes into it. -/
def load32 (littleEndian : Bool) (b : List Nat) : Nat :=
  if littleEndian then
    b.getD 0 0 + 2 ^ 8 * b.getD 1 0 + 2 ^ 16 * b.getD 2 0 + 2 ^ 24 * b.getD 3 0
  else
    2 ^ 24 * b.getD 0 0 + 2 ^ 16 * b.getD 1 0 + 2 ^ 8 * b.getD 2 0 + b.getD 3 0

/-- The upper-case hexadecimal digit of a value below 16. -/
def hexDigit (n : Nat) : Char :=
  if n < 10 then Char.ofNat (48 + n) else Char.ofNat (55 + n)

/-- The conversion `%08lX` of printf for a 32-bit `unsigned long`: eight
upper-case hexadecimal digits, most significant first, padded with zeros. -/
def fmt_08lX (v : Nat) : String :=
  String.mk ((List.range 8).reverse.map (fun i => hexDigit (v % 2 ^ 32 / 16 ^ i % 16)))

/-- A byte sequence written as text, two upper-case hexadecimal digits for
each byte, in order. -/
def hexOfBytes : List Nat → List Char
  | [] => []
  | b :: bs => hexDigit (b / 16 % 16) :: hexDigit (b % 16) :: hexOfBytes bs

/-! ## Identifier and key handlers (cmd.c:273-477, 1153-1174, 1226-1327) -/

/-- `static void get_devaddr(void)`. -/
def get_devaddr (e : Env) (w : World) : World :=
  let r := e.LoRaMacMibGetRequestConfirm w.trace .MIB_DEV_ADDR
  abort_on_error e.status r.1 (OK (fmt_08lX r.2)) (w.emit (.mibGet .MIB_DEV_ADDR))

/-- `static void set_devaddr(atci_param_t *param)`. -/
def set_devaddr (e : Env) (param : atci_param_t) (w : World) : World :=
  let d := e.atci_param_get_buffer_from_hex param 4
  if d.ret ≠ 4 then abort ERR_PARAM w
  else
    setRequest e ⟨.MIB_DEV_ADDR, .scalar (ntohl e.littleEndian (load32 e.littleEndian d.buffer))⟩
      OK_ w

/-- `static void get_netid(void)`. -/
def get_netid (e : Env) (w : World) : World :=
  let r := e.LoRaMacMibGetRequestConfirm w.trace .MIB_NET_ID
  abort_on_error e.status r.1 (OK (fmt_08lX r.2)) (w.emit (.mibGet .MIB_NET_ID))

/-- `static void set_netid(atci_param_t *param)`. -/
def set_netid (e : Env) (param : atci_param_t) (w : World) : World :=
  let d := e.atci_param_get_buffer_from_hex param 4
  if d.ret ≠ 4 then abort ERR_PARAM w
  else
    setRequest e ⟨.MIB_NET_ID, .scalar (ntohl e.littleEndian (load32 e.littleEndian d.buffer))⟩
      OK_ w

/-- `static void set_deveui(atci_param_t *param)`. -/
def set_deveui (e : Env) (param : atci_param_t) (w : World) : World :=
  let d := e.atci_param_get_buffer_from_hex param SE_EUI_SIZE
  if d.ret ≠ SE_EUI_SIZE then abort ERR_PARAM w
  else setRequest e ⟨.MIB_DEV_EUI, .buffer d.buffer⟩ OK_ w

/-- `static void set_joineui(atci_param_t *param)`. -/
def set_joineui (e : Env) (param : atci_param_t) (w : World) : World :=
  let d := e.atci_param_get_buffer_from_hex param SE_EUI_SIZE
  if d.ret ≠ SE_EUI_SIZE then abort ERR_PARAM w
  else setRequest e ⟨.MIB_JOIN_EUI, .buffer d.buffer⟩ OK_ w

/-- `static void set_nwkskey(atci_param_t *param)`: the same `key` buffer is
handed to the engine three times. -/
def set_nwkskey (e : Env) (param : atci_param_t) (w : World) : World :=
  let d := e.atci_param_get_buffer_from_hex param SE_KEY_SIZE
  if d.ret ≠ SE_KEY_SIZE then abort ERR_PARAM w
  else
    setRequest e ⟨.MIB_F_NWK_S_INT_KEY, .buffer d.buffer⟩
      (setRequest e ⟨.MIB_S_NWK_S_INT_KEY, .buffer d.buffer⟩
        (setRequest e ⟨.MIB_NWK_S_ENC_KEY, .buffer d.buffer⟩ OK_)) w

/-- `static void set_appskey(atci_param_t *param)`. -/
def set_appskey (e : Env) (param : atci_param_t) (w : World) : World :=
  let d := e.atci_param_get_buffer_from_hex param SE_KEY_SIZE
  if d.ret ≠ SE_KEY_SIZE then abort ERR_PARAM w
  else setRequest e ⟨.MIB_APP_S_KEY, .buffer d.buffer⟩ OK_ w

/-- `static void set_appkey_10(atci_param_t *param)`. -/
def set_appkey_10 (e : Env) (param : atci_param_t) (w : World) : World :=
  let d := e.atci_param_get_buffer_from_hex param SE_KEY_SIZE
  if d.ret ≠ SE_KEY_SIZE then abort ERR_PARAM w
  else
    setRequest e ⟨.MIB_NWK_KEY, .buffer d.buffer⟩
      (setRequest e ⟨.MIB_APP_KEY, .buffer d.buffer⟩ OK_) w

/-- `static void set_appkey_11(atci_param_t *param)`. -/
def set_appkey_11 (e : Env) (param : atci_param_t) (w : World) : World :=
  let d := e.atci_param_get_buffer_from_hex param SE_KEY_SIZE
  if d.ret ≠ SE_KEY_SIZE then abort ERR_PARAM w
  else setRequest e ⟨.MIB_APP_KEY, .buffer d.buffer⟩ OK_ w

/-- `static void set_nwkkey(atci_param_t *param)`. -/
def set_nwkkey (e : Env) (param : atci_param_t) (w : World) : World :=
  let d := e.atci_param_get_buffer_from_hex param SE_KEY_SIZE
  if d.ret ≠ SE_KEY_SIZE then abort ERR_PARAM w
  else setRequest e ⟨.MIB_NWK_KEY, .buffer d.buffer⟩ OK_ w

/-- `static void set_fnwksintkey(atci_param_t *param)`. -/
def set_fnwksintkey (e : Env) (param : atci_param_t) (w : World) : World :=
  let d := e.atci_param_get_buffer_from_hex param SE_KEY_SIZE
  if d.ret ≠ SE_KEY_SIZE then abort ERR_PARAM w
  else setRequest e ⟨.MIB_F_NWK_S_INT_KEY, .buffer d.buffer⟩ OK_ w

/-- `static void set_snwksintkey(atci_param_t *param)`. -/
def set_snwksintkey (e : Env) (param : atci_param_t) (w : World) : World :=
  let d := e.atci_param_get_buffer_from_hex param SE_KEY_SIZE
  if d.ret ≠ SE_KEY_SIZE then abort ERR_PARAM w
  else setRequest e ⟨.MIB_S_NWK_S_INT_KEY, .buffer d.buffer⟩ OK_ w

/-- `static void set_nwksenckey(atci_param_t *param)`. -/
def set_nwksenckey (e : Env) (param : atci_param_t) (w : World) : World :=
  let d := e.atci_param_get_buffer_from_hex param SE_KEY_SIZE
  if d.ret ≠ SE_KEY_SIZE then abort ERR_PARAM w
  else setRequest e ⟨.MIB_NWK_S_ENC_KEY, .buffer d.buffer⟩ OK_ w

/-! ## Sending (lrw.c:423-457, cmd.c:122-133, 883-968) -/

/-- `bool lrw_send(uint8_t port, void *buffer, uint8_t length, bool confirmed)`.
The calls of `log_debug` are left out. -/
def lrw_send (e : Env) (port : Nat) (buffer : List Char) (length : Nat)
    (confirmed : Bool) (w : World) : Bool × World :=
  let q := e.LoRaMacQueryTxPossible w.trace length
  let w1 := w.emit (.queryTxPossible length)
  let mcpsReq : McpsReq_t :=
    if q ≠ LORAMAC_STATUS_OK then
      { type := .MCPS_UNCONFIRMED, fPort := none, fBuffer := none, fBufferSize := 0 }
    else if confirmed = false then
      { type := .MCPS_UNCONFIRMED, fPort := some port, fBuffer := some buffer,
        fBufferSize := length }
    else
      { type := .MCPS_CONFIRMED, fPort := some port, fBuffer := some buffer,
        fBufferSize := length }
  let rc := e.LoRaMacMcpsRequest w1.trace mcpsReq
  (decide (rc = LORAMAC_STATUS_OK), w1.emit (.mcpsRequest mcpsReq))

/-- `static int parse_port(atci_param_t *param)`: the return value and the
cursor afterwards. -/
def parse_port (e : Env) (param : atci_param_t) : Int × atci_param_t :=
  let u := e.atci_param_get_uint param
  if u.ret = false then (-1, u.param)
  else if u.value < 1 ∨ u.value > 223 then (-1, u.param)
  else ((u.value : Int), u.param)

/-- The conversion of a C `bool` to `int`. -/
def boolToInt (b : Bool) : Int := if b then 1 else 0

/-- `static void transmit(atci_data_status_t status, atci_param_t *param)`,
the callback of the payload read.  `lrw_send` takes the length as `uint8_t`;
its `bool` result is what `abort_on_error` translates. -/
def transmit (e : Env) (status : atci_data_status_t) (param : atci_param_t)
    (w : World) : World :=
  let w1 := w.emit .timerStop
  if status = .ATCI_DATA_ENCODING_ERROR then abort ERR_PARAM w1
  else
    let r := lrw_send e w1.port param.txt (param.length % 256) w1.request_confirmation w1
    abort_on_error e.status (boolToInt r.1) OK_ r.2

/-- `static void utx(atci_param_t *param)`; `param` is `none` for `NULL`. -/
def utx (e : Env) (param : Option atci_param_t) (w : World) : World :=
  let w1 := { w with port := w.sysconf.default_port }
  match param with
  | none => abort ERR_PARAM w1
  | some p =>
    let u := e.atci_param_get_uint p
    if u.ret = false then abort ERR_PARAM w1
    else
      let mul := if w1.sysconf.data_format = 1 then 2 else 1
      if u.value > 242 * mul then abort ERR_PAYLOAD_LONG w1
      else
        let w2 := ((w1.emit .timerInit).emit (.timerSetValue w1.sysconf.uart_timeout)).emit
          .timerStart
        let w3 := { w2 with request_confirmation := false }
        let enc := if w3.sysconf.data_format = 1 then atci_encoding_t.ATCI_ENCODING_HEX
          else atci_encoding_t.ATCI_ENCODING_BIN
        let armed := e.atci_set_read_next_data w3.trace u.value enc
        let w4 := w3.emit (.setReadNextData u.value enc armed)
        if armed = false then abort ERR_PAYLOAD_LONG w4 else w4

/-- `static void ctx(atci_param_t *param)`. -/
def ctx (e : Env) (param : Option atci_param_t) (w : World) : World :=
  { utx e param w with request_confirmation := true }

/-- `static void putx(atci_param_t *param)`; the assignment `port = p` stores
an `int` into a `uint8_t`. -/
def putx (e : Env) (param : Option atci_param_t) (w : World) : World :=
  match param with
  | none => abort ERR_PARAM w
  | some p0 =>
    let p := parse_port e p0
    if p.1 < 0 then abort ERR_PARAM w
    else
      let c := e.atci_param_is_comma p.2
      if c.ret = false then abort ERR_PARAM w
      else { utx e (some c.param) w with port := (p.1 % 256).toNat }

/-- `static void pctx(atci_param_t *param)`. -/
def pctx (e : Env) (param : Option atci_param_t) (w : World) : World :=
  { putx e param w with request_confirmation := true }

/-! ## Persisted state (lrw.c:27-36, 53-169, 460-464) -/

/-- `LORAMAC_NVM_NOTIFY_FLAG_NONE`, the empty mask. -/
@[reducible] def LORAMAC_NVM_NOTIFY_FLAG_NONE : Nat := 0

/-- The groups in the order of the source. -/
def Group.all : List Group :=
  [.crypto, .mac1, .mac2, .se, .region1, .region2, .classb]

/-- `LoRaMacNvmData_t *lrw_get_state()`: the engine is asked for `MIB_NVM_CTXS`;
the result is a pointer into its live state. -/
def lrw_get_state (w : World) : World := w.emit (.mibGet .MIB_NVM_CTXS)

/-- One block of `save_state`:
`if (nvm_flags & FLAG) { if (!part_write(&nvm.g, 0, &s->G, sizeof(s->G))) log_error(...); }`.
The calls of `log_debug` and `log_error` are left out, so the outcome of the
write only shows in the event. -/
def saveGroup (e : Env) (g : Group) (w : World) : World :=
  if w.nvm_flags &&& e.nvmFlag g ≠ 0 then
    w.emit (.part_write g (e.part_write w.trace g))
  else w

/-- `static void save_state(void)`. -/
def save_state (e : Env) (w : World) : World :=
  if w.nvm_flags = LORAMAC_NVM_NOTIFY_FLAG_NONE then w
  else
    let rc := e.LoRaMacStop w.trace
    let w1 := w.emit (.LoRaMacStop rc)
    if rc ≠ LORAMAC_STATUS_OK then w1
    else
      let w2 := lrw_get_state w1
      let w3 := saveGroup e .crypto w2
      let w4 := saveGroup e .mac1 w3
      let w5 := saveGroup e .mac2 w4
      let w6 := saveGroup e .se w5
      let w7 := saveGroup e .region1 w6
      let w8 := saveGroup e .region2 w7
      let w9 := saveGroup e .classb w8
      let w10 := { w9 with nvm_flags := LORAMAC_NVM_NOTIFY_FLAG_NONE }.emit
        (.set_nvm_flags LORAMAC_NVM_NOTIFY_FLAG_NONE)
      w10.emit .LoRaMacStart

/-- One block of `restore_state`:
`p = part_mmap(&size, &nvm.g);`
`if (p && Crc32(p, size - 4) == *(uint32_t *)(p + size - 4)) memcpy(&s->G, p, size);`.
The partitions are created with the sizes of the engine's structures; for a
size below 4 the C code reads outside the mapping, which is not modelled. -/
def restoreGroup (e : Env) (g : Group) (w : World) : World :=
  match e.part_mmap g with
  | none => w
  | some blob =>
    if e.Crc32 (blob.take (blob.length - 4)) =
        load32 e.littleEndian (blob.drop (blob.length - 4)) then
      w.emit (.memcpy g blob)
    else w

/-- `static void restore_state(void)`. -/
def restore_state (e : Env) (w : World) : World :=
  let w1 := lrw_get_state w
  let w2 := restoreGroup e .crypto w1
  let w3 := restoreGroup e .mac1 w2
  let w4 := restoreGroup e .mac2 w3
  let w5 := restoreGroup e .se w4
  let w6 := restoreGroup e .region1 w5
  let w7 := restoreGroup e .region2 w6
  restoreGroup e .classb w7

/-- `static void nvm_data_change(uint16_t flags)`: `nvm_flags |= flags;`.  Both
operands are `uint16_t`, so the result is one too. -/
def nvm_data_change (flags : Nat) (w : World) : World :=
  { w with nvm_flags := w.nvm_flags ||| flags }.emit (.set_nvm_flags (w.nvm_flags ||| flags))

/-! ## Callbacks of the engine (lrw.c:47-50, 172-266) and events (cmd.c:1611-1614) -/

/-- `LORAMAC_EVENT_INFO_STATUS_OK`, the first enumerator of
`LoRaMacEventInfoStatus_t`. -/
@[reducible] def LORAMAC_EVENT_INFO_STATUS_OK : Int := 0

/-- `cmd_print(s)` of cmd.h writes the text to the AT interface. -/
def cmd_print (s : String) (w : World) : World := atci_print s w

/-- `void cmd_event(unsigned int type, unsigned int subtype)`. -/
def cmd_event (type subtype : Nat) (w : World) : World :=
  atci_print ("+EVENT=" ++ toString type ++ "," ++ toString subtype ++ "\r\n\r\n") w

/-- `static void process_irq(void)`. -/
def process_irq (w : World) : World := { w with lrw_irq := true }

/-- `static void on_ack(bool ack_received)`. -/
def on_ack (ack_received : Bool) (w : World) : World :=
  if ack_received then cmd_print "+ACK\r\n\r\n" w
  else cmd_print "+NOACK\r\n\r\n" w

/-- `static void recv(uint8_t port, uint8_t *buffer, uint8_t length)`. -/
def recv (port : Nat) (buffer : List Nat) (length : Nat) (w : World) : World :=
  (atci_print ("+RECV=" ++ toString port ++ "," ++ toString length ++ "\r\n\r\n") w).emit
    (.write (buffer.take length))

/-- `static void mcps_confirm(McpsConfirm_t *param)`: the argument of `on_ack`
is the constant `true`. -/
def mcps_confirm (param : McpsConfirm_t) (w : World) : World :=
  on_ack true { w with tx_params := param }

/-- `static void mcps_indication(McpsIndication_t *param)`. -/
def mcps_indication (param : McpsIndication_t) (w : World) : World :=
  let w1 := { w with rx_params := { w.rx_params with Status := param.Status } }
  if w1.rx_params.Status ≠ LORAMAC_EVENT_INFO_STATUS_OK then w1
  else if param.RxData then
    let w2 := { w1 with rx_params :=
      { w1.rx_params with RxDatarate := param.RxDatarate, Rssi := param.Rssi,
                          Snr := param.Snr, DownLinkCounter := param.DownLinkCounter,
                          RxSlot := param.RxSlot } }
    recv param.Port param.Buffer param.BufferSize w2
  else w1

/-- `static void mlme_confirm(MlmeConfirm_t *param)`. -/
def mlme_confirm (e : Env) (param : MlmeConfirm_t) (w : World) : World :=
  let w1 := { w with tx_params := { w.tx_params with Status := param.Status } }
  if param.MlmeRequest = .MLME_JOIN then
    if param.Status = LORAMAC_EVENT_INFO_STATUS_OK then
      cmd_event e.CMD_EVENT_JOIN e.CMD_JOIN_SUCCEEDED w1
    else cmd_event e.CMD_EVENT_JOIN e.CMD_JOIN_FAILED w1
  else w1

/-- `static void mlme_indication(MlmeIndication_t *param)`. -/
def mlme_indication (param : MlmeIndication_t) (w : World) : World :=
  { w with rx_params := { w.rx_params with Status := param.Status } }

/-- The function that `primitives` and `callbacks` register for a callback. -/
def runCallback (e : Env) (c : Callback) (w : World) : World :=
  match c with
  | .NvmDataChange flags => nvm_data_change flags w
  | .MacMcpsConfirm param => mcps_confirm param w
  | .MacMcpsIndication param => mcps_indication param w
  | .MacMlmeConfirm param => mlme_confirm e param w
  | .MacMlmeIndication param => mlme_indication param w
  | .MacProcessNotify => process_irq w

/-- The call `LoRaMacProcess()`: the engine runs and invokes its callbacks,
each to completion, before it returns. -/
def LoRaMacProcess (e : Env) (w : World) : World :=
  (e.LoRaMacProcess w.trace).foldl (fun w1 c => runCallback e c w1)
    (w.emit .LoRaMacProcess)

/-- `void lrw_process()`: `LoRaMacProcess(); save_state();`. -/
def lrw_process (e : Env) (w : World) : World :=
  save_state e (LoRaMacProcess e w)

/-! ## Region and radio parameter handlers (cmd.c:214-233, 626-700, 1348-1515) -/

/-- `static void set_band(atci_param_t *param)`. -/
def set_band (e : Env) (param : atci_param_t) (w : World) : World :=
  let u := e.atci_param_get_uint param
  if u.ret = false then abort ERR_PARAM w
  else
    let rv := e.lrw_set_region w.trace u.value
    abort_on_error e.status rv
      (fun w1 =>
        let w2 := OK_ w1
        if rv = 0 then
          { (cmd_event e.CMD_EVENT_MODULE e.CMD_MODULE_FACNEW w2).emit .flush with
            schedule_reset := true }
        else w2)
      (w.emit (.lrw_set_region u.value))

/-- `static void set_dr_comp(atci_param_t *param)`, the handler of `+DR=`. -/
def set_dr_comp (e : Env) (param : atci_param_t) (w : World) : World :=
  let u := e.atci_param_get_uint param
  if u.ret = false then abort ERR_PARAM w
  else if u.value > 15 then abort ERR_PARAM w
  else
    setRequest e ⟨.MIB_CHANNELS_DEFAULT_DATARATE, .scalar u.value⟩
      (setRequest e ⟨.MIB_CHANNELS_DATARATE, .scalar u.value⟩ OK_) w

/-- `static void set_delay(atci_param_t *param)`. -/
def set_delay (e : Env) (param : atci_param_t) (w : World) : World :=
  let join1 := e.atci_param_get_uint param
  if join1.ret = false then abort ERR_PARAM w else
  let c1 := e.atci_param_is_comma join1.param
  if c1.ret = false then abort ERR_PARAM w else
  let join2 := e.atci_param_get_uint c1.param
  if join2.ret = false then abort ERR_PARAM w else
  let c2 := e.atci_param_is_comma join2.param
  if c2.ret = false then abort ERR_PARAM w else
  let rx1 := e.atci_param_get_uint c2.param
  if rx1.ret = false then abort ERR_PARAM w else
  let c3 := e.atci_param_is_comma rx1.param
  if c3.ret = false then abort ERR_PARAM w else
  let rx2 := e.atci_param_get_uint c3.param
  if rx2.ret = false then abort ERR_PARAM w else
  setRequest e ⟨.MIB_JOIN_ACCEPT_DELAY_1, .scalar join1.value⟩
    (setRequest e ⟨.MIB_JOIN_ACCEPT_DELAY_2, .scalar join2.value⟩
      (setRequest e ⟨.MIB_RECEIVE_DELAY_1, .scalar rx1.value⟩
        (setRequest e ⟨.MIB_RECEIVE_DELAY_2, .scalar rx2.value⟩ OK_))) w

/-- The bytes of a `uint16_t` array of `n` elements that was cleared with
`memset` and then received the decoded bytes `bs` at its start. -/
def maskBytes (n : Nat) (bs : List Nat) : List Nat :=
  bs ++ List.replicate (2 * n - bs.length) 0

/-- `static void set_chmask(atci_param_t *param)`; `sizeof(chmask1[0])` is 2. -/
def set_chmask (e : Env) (param : atci_param_t) (w : World) : World :=
  let len := e.lrw_get_chmask_length w.trace * 2
  let d1 := e.atci_param_get_buffer_from_hex param (2 * e.REGION_NVM_CHANNELS_MASK_SIZE)
  if d1.ret ≠ len then abort ERR_PARAM w else
  let c := e.atci_param_is_comma d1.param
  if c.ret = false then abort ERR_PARAM w else
  let d2 := e.atci_param_get_buffer_from_hex c.param (2 * e.REGION_NVM_CHANNELS_MASK_SIZE)
  if d2.ret ≠ len then abort ERR_PARAM w else
  setRequest e
    ⟨.MIB_CHANNELS_DEFAULT_MASK, .buffer (maskBytes e.REGION_NVM_CHANNELS_MASK_SIZE d2.buffer)⟩
    (setRequest e
      ⟨.MIB_CHANNELS_MASK, .buffer (maskBytes e.REGION_NVM_CHANNELS_MASK_SIZE d1.buffer)⟩
      OK_) w

/-- `static void set_rx2(atci_param_t *param)`. -/
def set_rx2 (e : Env) (param : atci_param_t) (w : World) : World :=
  let freq1 := e.atci_param_get_uint param
  if freq1.ret = false then abort ERR_PARAM w else
  let c1 := e.atci_param_is_comma freq1.param
  if c1.ret = false then abort ERR_PARAM w else
  let dr1 := e.atci_param_get_uint c1.param
  if dr1.ret = false then abort ERR_PARAM w else
  let c2 := e.atci_param_is_comma dr1.param
  if c2.ret = false then abort ERR_PARAM w else
  let freq2 := e.atci_param_get_uint c2.param
  if freq2.ret = false then abort ERR_PARAM w else
  let c3 := e.atci_param_is_comma freq2.param
  if c3.ret = false then abort ERR_PARAM w else
  let dr2 := e.atci_param_get_uint c3.param
  if dr2.ret = false then abort ERR_PARAM w else
  if dr1.value > 15 ∨ dr2.value > 15 then abort ERR_PARAM w else
  setRequest e ⟨.MIB_RX2_DEFAULT_CHANNEL, .rx2 freq2.value dr2.value⟩
    (setRequest e ⟨.MIB_RX2_CHANNEL, .rx2 freq1.value dr1.value⟩ OK_) w

/-- `static void set_dr(atci_param_t *param)`, the handler of `$DR=`. -/
def set_dr (e : Env) (param : atci_param_t) (w : World) : World :=
  let val1 := e.atci_param_get_uint param
  if val1.ret = false then abort ERR_PARAM w else
  if val1.value > 15 then abort ERR_PARAM w else
  let c := e.atci_param_is_comma val1.param
  if c.ret = false then abort ERR_PARAM w else
  let val2 := e.atci_param_get_uint c.param
  if val2.ret = false then abort ERR_PARAM w else
  if val2.value > 15 then abort ERR_PARAM w else
  setRequest e ⟨.MIB_CHANNELS_DEFAULT_DATARATE, .scalar val2.value⟩
    (setRequest e ⟨.MIB_CHANNELS_DATARATE, .scalar val1.value⟩ OK_) w

/-- `static void set_rfpower(atci_param_t *param)`; the calls of `log_warning`
are left out. -/
def set_rfpower (e : Env) (param : atci_param_t) (w : World) : World :=
  let paboost1 := e.atci_param_get_uint param
  if paboost1.ret = false then abort ERR_PARAM w else
  if paboost1.value ≠ 0 then abort ERR_PARAM w else
  let c1 := e.atci_param_is_comma paboost1.param
  if c1.ret = false then abort ERR_PARAM w else
  let val1 := e.atci_param_get_uint c1.param
  if val1.ret = false then abort ERR_PARAM w else
  if val1.value > 15 then abort ERR_PARAM w else
  let c2 := e.atci_param_is_comma val1.param
  if c2.ret = false then abort ERR_PARAM w else
  let paboost2 := e.atci_param_get_uint c2.param
  if paboost2.ret = false then abort ERR_PARAM w else
  if paboost2.value ≠ 0 then abort ERR_PARAM w else
  let c3 := e.atci_param_is_comma paboost2.param
  if c3.ret = false then abort ERR_PARAM w else
  let val2 := e.atci_param_get_uint c3.param
  if val2.ret = false then abort ERR_PARAM w else
  if val2.value > 15 then abort ERR_PARAM w else
  setRequest e ⟨.MIB_CHANNELS_DEFAULT_TX_POWER, .scalar val2.value⟩
    (setRequest e ⟨.MIB_CHANNELS_TX_POWER, .scalar val1.value⟩ OK_) w

/-! ## Activation (lrw.c:522-557, cmd.c:256-270, 480-486) -/

/-- `DR_0` of the region definitions. -/
@[reducible] def DR_0 : Nat := 0

/-- `int lrw_activate()`: the return value and the state afterwards.  The
call of `log_error` is left out. -/
def lrw_activate (e : Env) (w : World) : Int × World :=
  if w.config_mode = 1 then
    let busy := e.LoRaMacIsBusy w.trace
    let w1 := w.emit (.LoRaMacIsBusy busy)
    if busy then (-1, w1)
    else
      let mlme : MlmeReq_t :=
        { type := .MLME_JOIN, Datarate := DR_0, NetworkActivation := .ACTIVATION_TYPE_OTAA }
      let rc := e.LoRaMacMlmeRequest w1.trace mlme
      if rc ≠ LORAMAC_STATUS_OK then (-5, w1.emit (.mlmeRequest mlme))
      else (0, w1.emit (.mlmeRequest mlme))
  else
    let mlme : MlmeReq_t :=
      { type := .MLME_JOIN, Datarate := DR_0, NetworkActivation := .ACTIVATION_TYPE_ABP }
    let rc := e.LoRaMacMlmeRequest w.trace mlme
    if rc ≠ LORAMAC_STATUS_OK then (-5, w.emit (.mlmeRequest mlme))
    else (0, w.emit (.mlmeRequest mlme))

/-- `uint8_t lrw_get_mode(void)`. -/
def lrw_get_mode (w : World) : Nat := w.config_mode

/-- `void lrw_set_mode(uint8_t mode)`. -/
def lrw_set_mode (e : Env) (mode : Nat) (w : World) : World :=
  let w1 := { w with config_mode := mode }
  if w1.config_mode = 0 then (lrw_activate e w1).2 else w1

/-- `static void get_mode(void)`. -/
def get_mode (w : World) : World := OK (toString (lrw_get_mode w)) w

/-- `static void set_mode(atci_param_t *param)`.  The argument of
`lrw_set_mode` is a `uint8_t`; the status that `abort_on_error` receives is
`Env.lrw_set_mode_status`. -/
def set_mode (e : Env) (param : atci_param_t) (w : World) : World :=
  let u := e.atci_param_get_uint param
  if u.ret = false then abort ERR_PARAM w
  else if u.value > 1 then abort ERR_PARAM w
  else
    abort_on_error e.status (e.lrw_set_mode_status w.trace u.value) OK_
      (lrw_set_mode e (u.value % 256) w)

/-- Modelled from the spec: `lrw_join` of lrw.c, which is not in the part of
lrw.c at hand.  The command sends an OTAA join request; every engine call
returns a status, and the join fails when the engine reports that it is busy.
So the join request is handed to the engine and the status of the engine is
the result. -/
def lrw_join (e : Env) (w : World) : Int × World :=
  let mlme : MlmeReq_t :=
    { type := .MLME_JOIN, Datarate := DR_0, NetworkActivation := .ACTIVATION_TYPE_OTAA }
  (e.LoRaMacMlmeRequest w.trace mlme, w.emit (.mlmeRequest mlme))

/-- `static void join(atci_param_t *param)`. -/
def join (e : Env) (w : World) : World :=
  let r := lrw_join e w
  abort_on_error e.status r.1 OK_ r.2

/-! ## Further handlers (cmd.c:191-204, 543-567, 727-753, 794-808, 988-1043) -/

/-- `static void facnew(atci_param_t *param)`; the parameter is not used. -/
def facnew (e : Env) (w : World) : World :=
  let rc := e.LoRaMacStop w.trace
  let w1 := w.emit (.LoRaMacStop rc)
  if rc ≠ LORAMAC_STATUS_OK then abort ERR_FACNEW_FAILED w1
  else
    let w2 := OK_ w1
    let er := e.nvm_erase w2.trace
    let w3 := w2.emit (.nvm_erase er)
    if er = 0 then
      ({ cmd_event e.CMD_EVENT_MODULE e.CMD_MODULE_FACNEW w3 with
          schedule_reset := true }).emit .flush
    else w3

/-- `static void set_rfpower_comp(atci_param_t *param)`, the handler of
`+RFPOWER=`. -/
def set_rfpower_comp (e : Env) (param : atci_param_t) (w : World) : World :=
  let paboost := e.atci_param_get_uint param
  if paboost.ret = false then abort ERR_PARAM w else
  if paboost.value ≠ 0 ∧ paboost.value ≠ 1 then abort ERR_PARAM w else
  let c := e.atci_param_is_comma paboost.param
  if c.ret = false then abort ERR_PARAM w else
  let val := e.atci_param_get_uint c.param
  if val.ret = false then abort ERR_PARAM w else
  if val.value > 15 then abort ERR_PARAM w else
  setRequest e ⟨.MIB_CHANNELS_DEFAULT_TX_POWER, .scalar val.value⟩
    (setRequest e ⟨.MIB_CHANNELS_TX_POWER, .scalar val.value⟩ OK_) w

/-- `static void set_rx2_comp(atci_param_t *param)`, the handler of `+RX2=`. -/
def set_rx2_comp (e : Env) (param : atci_param_t) (w : World) : World :=
  let freq := e.atci_param_get_uint param
  if freq.ret = false then abort ERR_PARAM w else
  let c := e.atci_param_is_comma freq.param
  if c.ret = false then abort ERR_PARAM w else
  let dr := e.atci_param_get_uint c.param
  if dr.ret = false then abort ERR_PARAM w else
  if dr.value > 15 then abort ERR_PARAM w else
  setRequest e ⟨.MIB_RX2_DEFAULT_CHANNEL, .rx2 freq.value dr.value⟩
    (setRequest e ⟨.MIB_RX2_CHANNEL, .rx2 freq.value dr.value⟩ OK_) w

/-- `static void get_port(void)`. -/
def get_port (w : World) : World := OK (toString w.sysconf.default_port) w

/-- `static void set_port(atci_param_t *param)`.  The value that is stored
lies between 1 and 223 and fits the member whatever its integer type. -/
def set_port (e : Env) (param : atci_param_t) (w : World) : World :=
  let p := parse_port e param
  if p.1 < 0 then abort ERR_PARAM w
  else
    OK_ { w with sysconf := { w.sysconf with default_port := p.1.toNat },
                 sysconf_modified := true }

/-- `static void get_msize(void)`.  In the `default` case nothing follows
`abort_on_error`. -/
def get_msize (e : Env) (w : World) : World :=
  let rc := e.LoRaMacQueryTxPossible w.trace 0
  let w1 := w.emit (.queryTxPossible 0)
  if rc = LORAMAC_STATUS_OK then
    OK (toString (e.MaxPossibleApplicationDataSize w.trace 0)) w1
  else if rc = e.status.LENGTH_ERROR then OK (toString (0 : Nat)) w1
  else abort_on_error e.status rc (fun w2 => w2) w1

/-- The character that a read of `param->txt[i]` delivers.  `txt` is the
memory behind the pointer, which may hold more than `length` characters; a
read behind its end is taken to deliver the terminating NUL. -/
def atci_param_t.at (p : atci_param_t) (i : Nat) : Char :=
  p.txt.getD i (Char.ofNat 0)

/-- `static void set_dwell(atci_param_t *param)`.  Each `switch` reads
`param->txt[param->offset++]` without a look at `param->length`. -/
def set_dwell (e : Env) (param : atci_param_t) (w : World) : World :=
  let ch1 := param.at param.offset
  let w1 := w.emit (.read_txt param.offset)
  let p1 := { param with offset := param.offset + 1 }
  if ch1 ≠ '0' ∧ ch1 ≠ '1' then abort ERR_PARAM w1 else
  let uplink := decide (ch1 = '1')
  let c := e.atci_param_is_comma p1
  if c.ret = false then abort ERR_PARAM w1 else
  let ch2 := c.param.at c.param.offset
  let w2 := w1.emit (.read_txt c.param.offset)
  if ch2 ≠ '0' ∧ ch2 ≠ '1' then abort ERR_PARAM w2 else
  let downlink := decide (ch2 = '1')
  abort_on_error e.status (e.lrw_set_dwell w2.trace uplink downlink) OK_
    (w2.emit (.lrw_set_dwell uplink downlink))

/-- `static int parse_enabled(atci_param_t *param)`: the return value and the
cursor afterwards. -/
def parse_enabled (param : atci_param_t) : Int × atci_param_t :=
  if param.offset ≥ param.length then (-1, param)
  else if param.length - param.offset ≠ 1 then (-1, param)
  else
    let ch := param.at param.offset
    let p1 := { param with offset := param.offset + 1 }
    if ch = '0' then (0, p1) else if ch = '1' then (1, p1) else (-1, p1)

/-! ## The command table (cmd.c:1538-1602) -/

/-- A descriptor of the command table, by its first five columns: the name,
the handler that runs the command without an argument, the handler for `=`,
the handler for `?`, and a fifth handler.  A handler is given by the
identifier of the function, `none` is `NULL`.  The help text is left out. -/
structure atci_command_t where
  command : String
  action : Option String
  set : Option String
  read : Option String
  help : Option String
  deriving DecidableEq, Repr

/-- `static const atci_command_t cmds[]`: the descriptors that the source
writes out, in its order.  The lines that are commented out are not part of
the table; the two entries `ATCI_COMMAND_CLAC` and `ATCI_COMMAND_HELP` at its
end expand from definitions that are not among the sources. -/
def cmds : List atci_command_t :=
  [
   ⟨"+UART", none, some "set_uart", some "get_uart", none⟩,
   ⟨"+VER", none, none, some "get_version_comp", none⟩,
   ⟨"+DEV", none, none, some "get_model", none⟩,
   ⟨"+REBOOT", some "reboot", none, none, none⟩,
   ⟨"+FACNEW", some "facnew", none, none, none⟩,
   ⟨"+BAND", none, some "set_band", some "get_band", none⟩,
   ⟨"+CLASS", none, some "set_class", some "get_class", none⟩,
   ⟨"+MODE", none, some "set_mode", some "get_mode", none⟩,
   ⟨"+DEVADDR", none, some "set_devaddr", some "get_devaddr", none⟩,
   ⟨"+DEVEUI", none, some "set_deveui", some "get_deveui", none⟩,
   ⟨"+APPEUI", none, some "set_joineui", some "get_joineui", none⟩,
   ⟨"+NWKSKEY", none, some "set_nwkskey", some "get_nwkskey", none⟩,
   ⟨"+APPSKEY", none, some "set_appskey", some "get_appskey", none⟩,
   ⟨"+APPKEY", none, some "set_appkey_10", some "get_appkey", none⟩,
   ⟨"+JOIN", some "join", none, none, none⟩,
   ⟨"+JOINDC", none, some "set_joindc", some "get_joindc", none⟩,
   ⟨"+LNCHECK", some "lncheck", some "lncheck", none, none⟩,
   ⟨"+RFPOWER", none, some "set_rfpower_comp", some "get_rfpower_comp", none⟩,
   ⟨"+NWK", none, some "set_nwk", some "get_nwk", none⟩,
   ⟨"+ADR", none, some "set_adr", some "get_adr", none⟩,
   ⟨"+DR", none, some "set_dr_comp", some "get_dr_comp", none⟩,
   ⟨"+DELAY", none, some "set_delay", some "get_delay", none⟩,
   ⟨"+RX2", none, some "set_rx2_comp", some "get_rx2_comp", none⟩,
   ⟨"+DUTYCYCLE", none, some "set_dutycycle", some "get_dutycycle", none⟩,
   ⟨"+SLEEP", none, some "set_sleep", some "get_sleep", none⟩,
   ⟨"+PORT", none, some "set_port", some "get_port", none⟩,
   ⟨"+REP", none, some "set_rep", some "get_rep", none⟩,
   ⟨"+DFORMAT", none, some "set_dformat", some "get_dformat", none⟩,
   ⟨"+TO", none, some "set_to", some "get_to", none⟩,
   ⟨"+UTX", some "utx", none, none, none⟩,
   ⟨"+CTX", some "ctx", none, none, none⟩,
   ⟨"+PUTX", some "putx", none, none, none⟩,
   ⟨"+PCTX", some "pctx", none, none, none⟩,
   ⟨"+FRMCNT", none, none, some "get_frmcnt", none⟩,
   ⟨"+MSIZE", none, none, some "get_msize", none⟩,
   ⟨"+RFQ", none, none, some "get_rfq", none⟩,
   ⟨"+DWELL", none, some "set_dwell", some "get_dwell", none⟩,
   ⟨"+MAXEIRP", none, some "set_maxeirp", some "get_maxeirp", none⟩,
   ⟨"+CHMASK", none, some "set_chmask_comp", some "get_chmask_comp", none⟩,
   ⟨"+RTYNUM", none, some "set_rtynum", some "get_rtynum", none⟩,
   ⟨"+NETID", none, some "set_netid", some "get_netid", none⟩,
   ⟨"$CHANNELS", none, none, some "get_channels", none⟩,
   ⟨"$VER", none, none, some "get_version", none⟩,
   ⟨"$DBG", some "dbg", none, none, none⟩,
   ⟨"$HALT", some "do_halt", none, none, none⟩,
   ⟨"$JOINEUI", none, some "set_joineui", some "get_joineui", none⟩,
   ⟨"$NWKKEY", none, some "set_nwkkey", some "get_nwkkey", none⟩,
   ⟨"$APPKEY", none, some "set_appkey_11", some "get_appkey", none⟩,
   ⟨"$FNWKSINTKEY", none, some "set_fnwksintkey", some "get_fnwksintkey", none⟩,
   ⟨"$SNWKSINTKEY", none, some "set_snwksintkey", some "get_snwksintkey", none⟩,
   ⟨"$NWKSENCKEY", none, some "set_nwksenckey", some "get_nwksenckey", none⟩,
   ⟨"$CHMASK", none, some "set_chmask", some "get_chmask", none⟩,
   ⟨"$RX2", none, some "set_rx2", some "get_rx2", none⟩,
   ⟨"$DR", none, some "set_dr", some "get_dr", none⟩,
   ⟨"$RFPOWER", none, some "set_rfpower", some "get_rfpower", none⟩,
   ⟨"$LOGLEVEL", none, some "set_loglevel", some "get_loglevel", none⟩]

/-! ## A reference environment

The theorems below hold for every environment.  To evaluate the handlers on
concrete commands an environment is needed; this one lets the engine accept
every request and reads the arguments as the interface describes them. -/

/-- Value of a hexadecimal digit. -/
def hexVal (c : Char) : Option Nat :=
  if '0' ≤ c ∧ c ≤ '9' then some (c.toNat - 48)
  else if 'A' ≤ c ∧ c ≤ 'F' then some (c.toNat - 55)
  else if 'a' ≤ c ∧ c ≤ 'f' then some (c.toNat - 87)
  else none

/-- Decodes at most `n` bytes from pairs of hexadecimal digits and stops at
the first character that is not one. -/
def hexDecode : Nat → List Char → List Nat
  | 0, _ => []
  | _ + 1, [] => []
  | _ + 1, [_] => []
  | n + 1, hi :: lo :: rest =>
    match hexVal hi, hexVal lo with
    | some h, some l => (16 * h + l) :: hexDecode n rest
    | _, _ => []

/-- The unread part of the argument text. -/
def atci_param_t.rest (p : atci_param_t) : List Char :=
  (p.txt.take p.length).drop p.offset

/-- Modelled from the spec: `atci_param_get_uint` of the ATCI interface, which
is not among the sources.  Integers are written in decimal: the digits at the
cursor are read as a `uint32_t` and the cursor moves behind them; there must
be at least one digit. -/
def refGetUint (p : atci_param_t) : UintResult :=
  let ds := p.rest.takeWhile Char.isDigit
  { ret := !ds.isEmpty
    value := ds.foldl (fun a c => (10 * a + (c.toNat - 48)) % 2 ^ 32) 0
    param := { p with offset := p.offset + ds.length } }

/-- Modelled from the spec: `atci_param_is_comma` of the ATCI interface, which
is not among the sources.  A required comma separator is consumed when it is
the next character. -/
def refIsComma (p : atci_param_t) : CommaResult :=
  match p.rest with
  | ',' :: _ => { ret := true, param := { p with offset := p.offset + 1 } }
  | _ => { ret := false, param := p }

/-- Modelled from the spec: `atci_param_get_buffer_from_hex` of the ATCI
interface, which is not among the sources.  Binary material is written in
fixed-width big-endian hex: up to `length` bytes are decoded from the digits
at the cursor, in order. -/
def refGetBufferFromHex (p : atci_param_t) (length : Nat) : HexResult :=
  let bs := hexDecode length p.rest
  { ret := bs.length, buffer := bs, param := { p with offset := p.offset + 2 * bs.length } }

/-- The values of `LORAMAC_NVM_NOTIFY_FLAG_*` in LoRaMac-node: one bit for
each group, from `0x01` for the crypto group to `0x40` for class B. -/
def refNvmFlag : Group → Nat
  | .crypto => 0x01
  | .mac1 => 0x02
  | .mac2 => 0x04
  | .se => 0x08
  | .region1 => 0x10
  | .region2 => 0x20
  | .classb => 0x40

/-- One step of the bitwise CRC-32: the next bit of the register. -/
def crc32Bit (crc : Nat) : Nat :=
  if crc % 2 = 1 then (crc / 2) ^^^ 0xEDB88320 else crc / 2

/-- The register of the CRC-32 after one more byte. -/
def crc32Byte (crc b : Nat) : Nat :=
  crc32Bit (crc32Bit (crc32Bit (crc32Bit (crc32Bit (crc32Bit (crc32Bit (crc32Bit
    (crc ^^^ b))))))))

/-- The CRC-32 of a byte sequence (reflected polynomial `0xEDB88320`, initial
value and final complement `0xFFFFFFFF`), the checksum that `Crc32` of the
LoRaMac utilities computes. -/
def crc32 (bs : List Nat) : Nat :=
  (bs.foldl crc32Byte 0xFFFFFFFF) ^^^ 0xFFFFFFFF

/-- The reference environment: the numbering of LoRaMac-node, a little-endian
target, an engine that accepts every request, reports `devAddr` for every
scalar attribute and invokes no callback, a payload reader that accepts every
length, a store with no partition that accepts every write, and the event
numbers of the modem (`+EVENT=0,1` for a factory reset, `+EVENT=1,1` and
`+EVENT=1,0` for a join that succeeded or failed). -/
def refEnv (devAddr : Nat) : Env where
  status := loramacNode
  littleEndian := true
  LoRaMacMibSetRequestConfirm := fun _ _ => LORAMAC_STATUS_OK
  LoRaMacMibGetRequestConfirm := fun _ _ => (LORAMAC_STATUS_OK, devAddr)
  LoRaMacQueryTxPossible := fun _ _ => LORAMAC_STATUS_OK
  LoRaMacMcpsRequest := fun _ _ => LORAMAC_STATUS_OK
  atci_set_read_next_data := fun _ _ _ => true
  atci_param_get_uint := refGetUint
  atci_param_is_comma := refIsComma
  atci_param_get_buffer_from_hex := refGetBufferFromHex
  nvmFlag := refNvmFlag
  LoRaMacStop := fun _ => LORAMAC_STATUS_OK
  part_write := fun _ _ => true
  part_mmap := fun _ => none
  Crc32 := crc32
  LoRaMacProcess := fun _ => []
  lrw_set_region := fun _ _ => 0
  lrw_get_chmask_length := fun _ => 1
  REGION_NVM_CHANNELS_MASK_SIZE := 6
  CMD_EVENT_MODULE := 0
  CMD_MODULE_FACNEW := 1
  CMD_EVENT_JOIN := 1
  CMD_JOIN_SUCCEEDED := 1
  CMD_JOIN_FAILED := 0
  LoRaMacIsBusy := fun _ => false
  LoRaMacMlmeRequest := fun _ _ => LORAMAC_STATUS_OK
  MaxPossibleApplicationDataSize := fun _ _ => 51
  nvm_erase := fun _ => 0
  lrw_set_dwell := fun _ _ _ => 0
  lrw_set_mode_status := fun _ _ => 0

/-- The cursor over a fresh argument text. -/
def mkParam (s : String) : atci_param_t :=
  { txt := s.toList, length := s.length, offset := 0 }

/-- A state to start from: nothing has happened yet, the default port is 2 and
payloads are binary. -/
def World.start : World where
  trace := []
  port := 0
  request_confirmation := false
  schedule_reset := false
  sysconf := { uart_baudrate := 19200, uart_timeout := 1000, default_port := 2,
               data_format := 0, sleep := 1, unconfirmed_retransmissions := 1,
               confirmed_retransmissions := 8 }
  sysconf_modified := false
  nvm_flags := 0
  lrw_irq := false
  tx_params := { Status := 0, McpsRequest := .MCPS_UNCONFIRMED, AckReceived := false,
                 Channel := 0 }
  rx_params := { Status := 0, Port := 0, Buffer := [], BufferSize := 0, RxData := false,
                 RxDatarate := 0, Rssi := 0, Snr := 0, DownLinkCounter := 0, RxSlot := 0,
                 IsUplinkTxPending := false }
  config_mode := 1

/-- The send command was accepted: the last thing the handler did was to arm
the payload read, with success. -/
def World.accepted (w : World) : Bool :=
  match w.trace.getLast? with
  | some (.setReadNextData _ _ true) => true
  | _ => false

/-- The fixed-width hex setters of cmd.c, each with the width it passes to
`atci_param_get_buffer_from_hex`: `sizeof(uint32_t)`, `SE_EUI_SIZE` or
`SE_KEY_SIZE`. -/
def hexSetters : List (Nat × (Env → atci_param_t → World → World)) :=
  [(4, set_devaddr), (4, set_netid),
   (SE_EUI_SIZE, set_deveui), (SE_EUI_SIZE, set_joineui),
   (SE_KEY_SIZE, set_nwkskey), (SE_KEY_SIZE, set_appskey),
   (SE_KEY_SIZE, set_appkey_10), (SE_KEY_SIZE, set_appkey_11),
   (SE_KEY_SIZE, set_nwkkey), (SE_KEY_SIZE, set_fnwksintkey),
   (SE_KEY_SIZE, set_snwksintkey), (SE_KEY_SIZE, set_nwksenckey)]

/-! ## Notions used in the statements -/

/-- The events that happened between the state `w0` and the later state `w`. -/
def World.since (w0 w : World) : List Event := w.trace.drop w0.trace.length

/-- The groups for which a write was attempted, in the order of the attempts. -/
def writtenGroups (tr : List Event) : List Group :=
  tr.filterMap (fun ev => match ev with
    | .part_write g _ => some g
    | _ => none)

/-- The bitwise OR of the flags that the engine notified through
`NvmDataChange` among the callbacks `cs`. -/
def notified : List Callback → Nat
  | [] => 0
  | .NvmDataChange flags :: cs => flags ||| notified cs
  | _ :: cs => notified cs

/-- The blocks of `save_state` for the groups `gs`, one after the other. -/
def saveGroups (e : Env) (gs : List Group) (w : World) : World :=
  gs.foldl (fun w1 g => saveGroup e g w1) w

/-- What the block of `restore_state` for the group `g` does: the copy of the
stored blob, or nothing. -/
def restoredEvents (e : Env) (g : Group) : List Event :=
  match e.part_mmap g with
  | none => []
  | some blob =>
    if e.Crc32 (blob.take (blob.length - 4)) =
        load32 e.littleEndian (blob.drop (blob.length - 4)) then
      [Event.memcpy g blob]
    else []

/-- The argument of `+DELAY=` is well formed: four decimal values separated
by three commas. -/
def set_delay_valid (e : Env) (p : atci_param_t) (_w : World) : Bool :=
  let join1 := e.atci_param_get_uint p
  let c1 := e.atci_param_is_comma join1.param
  let join2 := e.atci_param_get_uint c1.param
  let c2 := e.atci_param_is_comma join2.param
  let rx1 := e.atci_param_get_uint c2.param
  let c3 := e.atci_param_is_comma rx1.param
  let rx2 := e.atci_param_get_uint c3.param
  join1.ret && (c1.ret && (join2.ret && (c2.ret && (rx1.ret && (c3.ret && rx2.ret)))))

/-- The argument of `$CHMASK=` is well formed: two hex masks of the length of
the region's channel mask, separated by a comma. -/
def set_chmask_valid (e : Env) (p : atci_param_t) (w : World) : Bool :=
  let len := e.lrw_get_chmask_length w.trace * 2
  let d1 := e.atci_param_get_buffer_from_hex p (2 * e.REGION_NVM_CHANNELS_MASK_SIZE)
  let c := e.atci_param_is_comma d1.param
  let d2 := e.atci_param_get_buffer_from_hex c.param (2 * e.REGION_NVM_CHANNELS_MASK_SIZE)
  decide (d1.ret = len) && (c.ret && decide (d2.ret = len))

/-- The argument of `$RX2=` is well formed: frequency, data rate, frequency,
data rate, separated by commas, with both data rates at most 15. -/
def set_rx2_valid (e : Env) (p : atci_param_t) (_w : World) : Bool :=
  let freq1 := e.atci_param_get_uint p
  let c1 := e.atci_param_is_comma freq1.param
  let dr1 := e.atci_param_get_uint c1.param
  let c2 := e.atci_param_is_comma dr1.param
  let freq2 := e.atci_param_get_uint c2.param
  let c3 := e.atci_param_is_comma freq2.param
  let dr2 := e.atci_param_get_uint c3.param
  freq1.ret && (c1.ret && (dr1.ret && (c2.ret && (freq2.ret && (c3.ret && (dr2.ret &&
    (decide (dr1.value ≤ 15) && decide (dr2.value ≤ 15))))))))

/-- The argument of `$DR=` is well formed: two data rates of at most 15,
separated by a comma. -/
def set_dr_valid (e : Env) (p : atci_param_t) (_w : World) : Bool :=
  let val1 := e.atci_param_get_uint p
  let c := e.atci_param_is_comma val1.param
  let val2 := e.atci_param_get_uint c.param
  val1.ret && (decide (val1.value ≤ 15) && (c.ret && (val2.ret && decide (val2.value ≤ 15))))

/-- The argument of `$RFPOWER=` is well formed: PA boost 0, power of at most
15, PA boost 0, power of at most 15, separated by commas. -/
def set_rfpower_valid (e : Env) (p : atci_param_t) (_w : World) : Bool :=
  let paboost1 := e.atci_param_get_uint p
  let c1 := e.atci_param_is_comma paboost1.param
  let val1 := e.atci_param_get_uint c1.param
  let c2 := e.atci_param_is_comma val1.param
  let paboost2 := e.atci_param_get_uint c2.param
  let c3 := e.atci_param_is_comma paboost2.param
  let val2 := e.atci_param_get_uint c3.param
  paboost1.ret && (decide (paboost1.value = 0) && (c1.ret && (val1.ret &&
    (decide (val1.value ≤ 15) && (c2.ret && (paboost2.ret && (decide (paboost2.value = 0) &&
    (c3.ret && (val2.ret && decide (val2.value ≤ 15))))))))))

/-- What the check of the fields has to achieve for a handler that ends in the
state `B` when `v` tells whether the fields are well formed: with a field that
is not, `B` is the error reply `+ERR=-3` and nothing else; with all fields
well formed, the first thing that happened is an engine set request. -/
def Checked (w : World) (v : Bool) (B : World) : Prop :=
  (v = false → B = abort ERR_PARAM w) ∧
  (v = true → ∃ r xs, w.since B = Event.mibSet r :: xs)

/-- The setters with several fields, each with the condition that all its
fields are well formed. -/
def multiFieldSetters :
    List ((Env → atci_param_t → World → World) × (Env → atci_param_t → World → Bool)) :=
  [(set_dr, set_dr_valid), (set_rfpower, set_rfpower_valid), (set_rx2, set_rx2_valid),
   (set_chmask, set_chmask_valid), (set_delay, set_delay_valid)]

/-- The event is a success reply: output that starts with `+OK`. -/
def isOkReply : Event → Bool
  | .print s => "+OK".toList.isPrefixOf s.toList
  | _ => false

/-- The event is a failure reply: output that starts with `+ERR=`. -/
def isErrReply : Event → Bool
  | .print s => "+ERR=".toList.isPrefixOf s.toList
  | _ => false

/-- The number of success replies among the events. -/
def okReplies (tr : List Event) : Nat := tr.countP isOkReply

/-- The number of failure replies among the events. -/
def errReplies (tr : List Event) : Nat := tr.countP isErrReply

/-- The payload timer runs: among `TimerStart` and `TimerStop` the last call
was `TimerStart`. -/
def timerRunning (tr : List Event) : Bool :=
  tr.foldl (fun b ev => match ev with
    | .timerStart => true
    | .timerStop => false
    | _ => b) false

/-- A payload read is armed: the last call of `atci_set_read_next_data`
succeeded. -/
def readArmed (tr : List Event) : Bool :=
  tr.foldl (fun b ev => match ev with
    | .setReadNextData _ _ armed => armed
    | _ => b) false

/-- The offsets at which a handler itself read `param->txt`. -/
def inspected (tr : List Event) : List Nat :=
  tr.filterMap (fun ev => match ev with
    | .read_txt i => some i
    | _ => none)

/-- The calls of `lrw_set_dwell`, with their arguments. -/
def dwellCalls (tr : List Event) : List (Bool × Bool) :=
  tr.filterMap (fun ev => match ev with
    | .lrw_set_dwell u d => some (u, d)
    | _ => none)

/-- The join requests that were handed to the engine. -/
def joinRequests (tr : List Event) : List MlmeReq_t :=
  tr.filterMap (fun ev => match ev with
    | .mlmeRequest r => some r
    | _ => none)

/-- The argument of `+RFPOWER=` is well formed: PA boost 0 or 1 and a power of
at most 15, separated by a comma. -/
def set_rfpower_comp_valid (e : Env) (p : atci_param_t) (_w : World) : Bool :=
  let paboost := e.atci_param_get_uint p
  let c := e.atci_param_is_comma paboost.param
  let val := e.atci_param_get_uint c.param
  paboost.ret && (decide (paboost.value ≤ 1) && (c.ret && (val.ret && decide (val.value ≤ 15))))

/-- The argument of `+RX2=` is well formed: a frequency and a data rate of at
most 15, separated by a comma. -/
def set_rx2_comp_valid (e : Env) (p : atci_param_t) (_w : World) : Bool :=
  let freq := e.atci_param_get_uint p
  let c := e.atci_param_is_comma freq.param
  let dr := e.atci_param_get_uint c.param
  freq.ret && (c.ret && (dr.ret && decide (dr.value ≤ 15)))

/-- The error codes that the handlers of this development put into a reply:
the codes of the status table, `ERR_PARAM` and `ERR_FACNEW_FAILED`. -/
def replyCodes : List Int :=
  [ERR_BUSY, ERR_UNKNOWN_CMD, ERR_NO_JOIN, ERR_DUTYCYCLE, ERR_BAND, ERR_UNSUPPORTED,
   ERR_PAYLOAD_LONG, ERR_NO_CHANNEL, ERR_PARAM, ERR_FACNEW_FAILED]

/-- None of the events is a reply. -/
def Neutral (evs : List Event) : Prop :=
  ∀ ev ∈ evs, isOkReply ev = false ∧ isErrReply ev = false

/-- The events hold one reply, and it is not the reply `+ERR=-2`. -/
def OneReply (xs : List Event) : Prop :=
  okReplies xs + errReplies xs = 1 ∧ Event.print "+ERR=-2\r\n\r\n" ∉ xs

/-- From the state `w` to the state `B` one reply was given, and not the reply
`+ERR=-2`. -/
def Replied (w B : World) : Prop :=
  ∃ xs, B.trace = w.trace ++ xs ∧ OneReply xs

/-- From the state `w` to the state `B` nothing happened that is a reply. -/
def Quiet (w B : World) : Prop :=
  ∃ evs, B.trace = w.trace ++ evs ∧ Neutral evs

/-- What `set_dwell` requires of its argument: the character at the cursor is
`0` or `1`, a comma follows, and the character at the cursor behind the comma
is `0` or `1`. -/
def set_dwell_valid (e : Env) (p : atci_param_t) : Bool :=
  let ch1 := p.at p.offset
  let c := e.atci_param_is_comma { p with offset := p.offset + 1 }
  let ch2 := c.param.at c.param.offset
  (decide (ch1 = '0') || decide (ch1 = '1')) &&
    (c.ret && (decide (ch2 = '0') || decide (ch2 = '1')))

/-- The setters that take several fields separated by commas, each with the
condition that all its fields and separators are there and in range. -/
def commaSetters :
    List ((Env → atci_param_t → World → World) × (Env → atci_param_t → World → Bool)) :=
  [(set_delay, set_delay_valid), (set_rfpower_comp, set_rfpower_comp_valid),
   (set_rx2_comp, set_rx2_comp_valid), (set_dr, set_dr_valid), (set_rx2, set_rx2_valid),
   (set_rfpower, set_rfpower_valid), (set_chmask, set_chmask_valid)]

/-- The handlers of this development that reply before they return; `st` is
the status with which the payload read calls `transmit`.  The send commands
are not among them: when they accept a command the reply follows later, from
`transmit`. -/
def syncHandlers (st : atci_data_status_t) : List (Env → atci_param_t → World → World) :=
  [set_nwkskey, set_rfpower, set_band, (fun e _ w => facnew e w),
   (fun e p w => transmit e st p w), (fun e _ w => get_msize e w),
   set_devaddr, set_netid, set_deveui, set_joineui, set_appskey, set_appkey_10,
   set_appkey_11, set_nwkkey, set_fnwksintkey, set_snwksintkey, set_nwksenckey,
   (fun e _ w => get_devaddr e w), (fun e _ w => get_netid e w),
   set_dr_comp, set_delay, set_chmask, set_rx2, set_dr, set_rfpower_comp, set_rx2_comp,
   set_mode, (fun _ _ w => get_mode w), (fun e _ w => join e w),
   set_port, (fun _ _ w => get_port w), set_dwell]

/-! # Theorems -/

/-! ## The status table -/

theorem wellFormed_facts (c : LoRaMacStatus) (h : c.WellFormed) :
    c.recognised.Nodup ∧ ∀ s ∈ c.recognised, 0 < s :=
  ⟨h.1, h.2.1⟩

/-- C1: `status2error` reproduces the status-to-error table: BUSY gives -7,
SERVICE_UNKNOWN -1, NO_NETWORK_JOINED -5, DUTYCYCLE_RESTRICTED -18,
REGION_NOT_SUPPORTED -15, FREQUENCY_INVALID, DATARATE_INVALID and
FREQ_AND_DR_INVALID -17, LENGTH_ERROR -12, NO_CHANNEL_FOUND and
NO_FREE_CHANNEL_FOUND -19, and the OK status 0 gives 0. -/
theorem status2error_table (c : LoRaMacStatus) (h : c.WellFormed) :
    status2error c c.BUSY = -7 ∧
    status2error c c.SERVICE_UNKNOWN = -1 ∧
    status2error c c.NO_NETWORK_JOINED = -5 ∧
    status2error c c.DUTYCYCLE_RESTRICTED = -18 ∧
    status2error c c.REGION_NOT_SUPPORTED = -15 ∧
    status2error c c.FREQUENCY_INVALID = -17 ∧
    status2error c c.DATARATE_INVALID = -17 ∧
    status2error c c.FREQ_AND_DR_INVALID = -17 ∧
    status2error c c.LENGTH_ERROR = -12 ∧
    status2error c c.NO_CHANNEL_FOUND = -19 ∧
    status2error c c.NO_FREE_CHANNEL_FOUND = -19 ∧
    status2error c LORAMAC_STATUS_OK = 0 := by
  obtain ⟨hd, hp⟩ := wellFormed_facts c h
  have hr := List.nodup_reverse.mpr hd
  simp only [LoRaMacStatus.recognised, List.reverse_cons, List.reverse_nil, List.nil_append,
    List.cons_append, List.nodup_cons, List.mem_cons, List.mem_singleton,
    not_or, List.not_mem_nil, not_false_eq_true, List.nodup_nil, and_true] at hr
  simp only [LoRaMacStatus.recognised, List.mem_cons, List.mem_singleton,
    List.not_mem_nil, forall_eq_or_imp, forall_eq, false_implies, implies_true, and_true,
    ← not_le] at hp
  unfold status2error
  refine ⟨?_, ?_, ?_, ?_, ?_, ?_, ?_, ?_, ?_, ?_, ?_, ?_⟩ <;>
    simp only [hr, hp, if_false, if_true, le_refl, neg_zero]

/-- Witness of C1 for the numbering of LoRaMac-node. -/
theorem status2error_table_witness :
    loramacNode.WellFormed ∧
    (status2error loramacNode 1 = -7 ∧ status2error loramacNode 2 = -1 ∧
     status2error loramacNode 7 = -5 ∧ status2error loramacNode 11 = -18 ∧
     status2error loramacNode 9 = -15 ∧ status2error loramacNode 4 = -17 ∧
     status2error loramacNode 5 = -17 ∧ status2error loramacNode 6 = -17 ∧
     status2error loramacNode 8 = -12 ∧ status2error loramacNode 12 = -19 ∧
     status2error loramacNode 13 = -19 ∧ status2error loramacNode 0 = 0) :=
  ⟨by decide, status2error_table loramacNode (by decide)⟩

/-- C2, as the claim states it, fails: the status -1 is neither OK nor one of
the eleven recognised statuses, yet `status2error` returns 1 and not -3, and
`abort_on_error` lets the handler go on to its `+OK`. -/
theorem status2error_negative_counterexample :
    (-1 : Int) ≠ LORAMAC_STATUS_OK ∧ (-1 : Int) ∉ loramacNode.recognised ∧
    status2error loramacNode (-1) = 1 ∧ status2error loramacNode (-1) ≠ ERR_PARAM ∧
    (abort_on_error loramacNode (-1) OK_ World.start).trace =
      [Event.print "+OK\r\n\r\n"] := by
  decide

/-- C2 (amended): for every positive status that is not one of the eleven
recognised statuses, `status2error` returns -3 (ERR_PARAM), and
`abort_on_error` prints `+ERR=-3` and does not run the rest of the handler.
A status that is not positive is returned negated, which is not negative, and
`abort_on_error` lets the handler go on. -/
theorem status2error_unrecognised (c : LoRaMacStatus) (status : Int)
    (hpos : 0 < status) (hun : status ∉ c.recognised)
    (k : World → World) (w : World) :
    status2error c status = -3 ∧
    abort_on_error c status k w =
      { w with trace := w.trace ++ [Event.print "+ERR=-3\r\n\r\n"] } ∧
    (∀ s : Int, s ≤ 0 → status2error c s = -s ∧ abort_on_error c s k w = k w) := by
  simp only [LoRaMacStatus.recognised, List.mem_cons, List.mem_singleton, not_or,
    List.not_mem_nil, not_false_eq_true, and_true] at hun
  have hs : status2error c status = -3 := by
    unfold status2error
    repeat (first | rfl | rw [if_neg (by omega)])
  refine ⟨hs, ?_, ?_⟩
  · unfold abort_on_error
    rw [hs]
    rfl
  · intro s hle
    have h0 : status2error c s = -s := by
      unfold status2error
      rw [if_pos hle]
    refine ⟨h0, ?_⟩
    unfold abort_on_error
    rw [h0]
    exact if_neg (by omega)

/-- Witness of C2 (amended): the status PARAMETER_INVALID (3) of LoRaMac-node. -/
theorem status2error_unrecognised_witness :
    (0 : Int) < 3 ∧ (3 : Int) ∉ loramacNode.recognised ∧
    status2error loramacNode 3 = -3 ∧
    abort_on_error loramacNode 3 OK_ World.start =
      { World.start with
        trace := World.start.trace ++ [Event.print "+ERR=-3\r\n\r\n"] } ∧
    status2error loramacNode (-5) = 5 :=
  ⟨by decide, by decide,
    (status2error_unrecognised loramacNode 3 (by decide) (by decide) OK_ World.start).1,
    (status2error_unrecognised loramacNode 3 (by decide) (by decide) OK_ World.start).2.1,
    ((status2error_unrecognised loramacNode 3 (by decide) (by decide) OK_ World.start).2.2
      (-5) (by decide)).1⟩

/-! ## Engine writes of the setters -/

theorem status2error_ok (c : LoRaMacStatus) : status2error c LORAMAC_STATUS_OK = 0 := by
  unfold status2error
  rfl

theorem abort_on_error_ok (c : LoRaMacStatus) (k : World → World) (w : World) :
    abort_on_error c LORAMAC_STATUS_OK k w = k w := by
  unfold abort_on_error
  rw [status2error_ok]
  rfl

theorem setRequest_ok (e : Env) (r : MibRequestConfirm_t) (k : World → World) (w : World)
    (h : e.LoRaMacMibSetRequestConfirm w.trace r = LORAMAC_STATUS_OK) :
    setRequest e r k w = k (w.emit (.mibSet r)) := by
  unfold setRequest
  rw [h, abort_on_error_ok]

theorem abort_eq (num : Int) (w : World) :
    abort num w =
      { w with trace := w.trace ++ [Event.print ("+ERR=" ++ toString num ++ "\r\n\r\n")] } :=
  rfl

theorem OK__eq (w : World) :
    OK_ w = { w with trace := w.trace ++ [Event.print "+OK\r\n\r\n"] } :=
  rfl

/-- C3: when the hex decoder delivers the 16 bytes `k` and every engine set
request succeeds, `set_nwkskey` issues exactly three engine writes, to the
forwarding, serving and encryption network session key slots, each carrying
`k`, then replies `+OK`, and does nothing else. -/
theorem set_nwkskey_three_slots (e : Env) (param : atci_param_t) (w : World) (k : List Nat)
    (hret : (e.atci_param_get_buffer_from_hex param SE_KEY_SIZE).ret = 16)
    (hk : (e.atci_param_get_buffer_from_hex param SE_KEY_SIZE).buffer = k)
    (hset : ∀ t r, e.LoRaMacMibSetRequestConfirm t r = LORAMAC_STATUS_OK) :
    set_nwkskey e param w =
      { w with trace := w.trace ++
          [Event.mibSet ⟨.MIB_F_NWK_S_INT_KEY, .buffer k⟩,
           Event.mibSet ⟨.MIB_S_NWK_S_INT_KEY, .buffer k⟩,
           Event.mibSet ⟨.MIB_NWK_S_ENC_KEY, .buffer k⟩,
           Event.print "+OK\r\n\r\n"] } := by
  unfold set_nwkskey
  rw [if_neg (by rw [hret]; decide), hk]
  rw [setRequest_ok e _ _ _ (hset _ _), setRequest_ok e _ _ _ (hset _ _),
    setRequest_ok e _ _ _ (hset _ _), OK__eq]
  simp [World.emit]

/-- Witness of C3: `+NWKSKEY=000102030405060708090A0B0C0D0E0F`. -/
theorem set_nwkskey_three_slots_witness :
    set_nwkskey (refEnv 0) (mkParam "000102030405060708090A0B0C0D0E0F") World.start =
      { World.start with trace := World.start.trace ++
          [Event.mibSet ⟨.MIB_F_NWK_S_INT_KEY,
            .buffer [0, 1, 2, 3, 4, 5, 6, 7, 8, 9, 10, 11, 12, 13, 14, 15]⟩,
           Event.mibSet ⟨.MIB_S_NWK_S_INT_KEY,
            .buffer [0, 1, 2, 3, 4, 5, 6, 7, 8, 9, 10, 11, 12, 13, 14, 15]⟩,
           Event.mibSet ⟨.MIB_NWK_S_ENC_KEY,
            .buffer [0, 1, 2, 3, 4, 5, 6, 7, 8, 9, 10, 11, 12, 13, 14, 15]⟩,
           Event.print "+OK\r\n\r\n"] } :=
  set_nwkskey_three_slots (refEnv 0) (mkParam "000102030405060708090A0B0C0D0E0F") World.start
    [0, 1, 2, 3, 4, 5, 6, 7, 8, 9, 10, 11, 12, 13, 14, 15] (by decide) (by decide)
    (fun _ _ => rfl)

/-- C4: when the hex decoder delivers the 16 bytes `k` and every engine set
request succeeds, the legacy `set_appkey_10` issues exactly two engine writes,
to the NwkKey slot and to the AppKey slot, both carrying `k`, and replies
`+OK`; `set_appkey_11` issues one write, to the AppKey slot, and replies
`+OK`. -/
theorem set_appkey_slots (e : Env) (param : atci_param_t) (w : World) (k : List Nat)
    (hret : (e.atci_param_get_buffer_from_hex param SE_KEY_SIZE).ret = 16)
    (hk : (e.atci_param_get_buffer_from_hex param SE_KEY_SIZE).buffer = k)
    (hset : ∀ t r, e.LoRaMacMibSetRequestConfirm t r = LORAMAC_STATUS_OK) :
    set_appkey_10 e param w =
      { w with trace := w.trace ++
          [Event.mibSet ⟨.MIB_NWK_KEY, .buffer k⟩,
           Event.mibSet ⟨.MIB_APP_KEY, .buffer k⟩,
           Event.print "+OK\r\n\r\n"] } ∧
    set_appkey_11 e param w =
      { w with trace := w.trace ++
          [Event.mibSet ⟨.MIB_APP_KEY, .buffer k⟩,
           Event.print "+OK\r\n\r\n"] } := by
  constructor
  · unfold set_appkey_10
    rw [if_neg (by rw [hret]; decide), hk]
    rw [setRequest_ok e _ _ _ (hset _ _), setRequest_ok e _ _ _ (hset _ _), OK__eq]
    simp [World.emit]
  · unfold set_appkey_11
    rw [if_neg (by rw [hret]; decide), hk]
    rw [setRequest_ok e _ _ _ (hset _ _), OK__eq]
    simp [World.emit]

/-- Witness of C4: `+APPKEY=` and `$APPKEY=` with the key
`2B7E151628AED2A6ABF7158809CF4F3C`. -/
theorem set_appkey_slots_witness :
    set_appkey_10 (refEnv 0) (mkParam "2B7E151628AED2A6ABF7158809CF4F3C") World.start =
      { World.start with trace := World.start.trace ++
          [Event.mibSet ⟨.MIB_NWK_KEY,
            .buffer [43, 126, 21, 22, 40, 174, 210, 166, 171, 247, 21, 136, 9, 207, 79, 60]⟩,
           Event.mibSet ⟨.MIB_APP_KEY,
            .buffer [43, 126, 21, 22, 40, 174, 210, 166, 171, 247, 21, 136, 9, 207, 79, 60]⟩,
           Event.print "+OK\r\n\r\n"] } ∧
    set_appkey_11 (refEnv 0) (mkParam "2B7E151628AED2A6ABF7158809CF4F3C") World.start =
      { World.start with trace := World.start.trace ++
          [Event.mibSet ⟨.MIB_APP_KEY,
            .buffer [43, 126, 21, 22, 40, 174, 210, 166, 171, 247, 21, 136, 9, 207, 79, 60]⟩,
           Event.print "+OK\r\n\r\n"] } :=
  set_appkey_slots (refEnv 0) (mkParam "2B7E151628AED2A6ABF7158809CF4F3C") World.start
    [43, 126, 21, 22, 40, 174, 210, 166, 171, 247, 21, 136, 9, 207, 79, 60]
    (by decide) (by decide) (fun _ _ => rfl)

/-- C5: for each fixed-width hex setter (`set_devaddr` and `set_netid`: 4
bytes; `set_deveui` and `set_joineui`: 8 bytes; the eight key setters: 16
bytes), when the hex decoder does not return exactly the width of the field,
the handler replies `+ERR=-3` and does nothing else: the trace gains the error
reply only, hence no engine set request. -/
theorem hex_setter_rejects (e : Env) (param : atci_param_t) (w : World)
    (s : Nat × (Env → atci_param_t → World → World)) (hs : s ∈ hexSetters)
    (hbad : (e.atci_param_get_buffer_from_hex param s.1).ret ≠ s.1) :
    s.2 e param w = { w with trace := w.trace ++ [Event.print "+ERR=-3\r\n\r\n"] } := by
  simp only [hexSetters, List.mem_cons, List.mem_singleton, List.not_mem_nil, or_false] at hs
  rcases hs with h | h | h | h | h | h | h | h | h | h | h | h <;> subst h <;>
    simp only [set_devaddr, set_netid, set_deveui, set_joineui, set_nwkskey, set_appskey,
      set_appkey_10, set_appkey_11, set_nwkkey, set_fnwksintkey, set_snwksintkey,
      set_nwksenckey] <;>
    rw [if_pos hbad] <;> rfl

/-- Witness of C5: `+DEVADDR=26011BD` has seven hex digits. -/
theorem hex_setter_rejects_witness :
    set_devaddr (refEnv 0) (mkParam "26011BD") World.start =
      { World.start with
        trace := World.start.trace ++ [Event.print "+ERR=-3\r\n\r\n"] } :=
  hex_setter_rejects (refEnv 0) (mkParam "26011BD") World.start (4, set_devaddr)
    (List.Mem.head _) (by decide)

/-! ## Byte order of the 4-byte identifiers -/

theorem and_shiftLeft_mask (v m k : Nat) : v &&& (m <<< k) = ((v >>> k) &&& m) <<< k := by
  apply Nat.eq_of_testBit_eq
  intro i
  simp only [Nat.testBit_and, Nat.testBit_shiftLeft, Nat.testBit_shiftRight]
  by_cases h : k ≤ i
  · have : k + (i - k) = i := by omega
    simp [h, this]
  · simp [h]

theorem or_bytes (a b c d : Nat) (hb : b < 256) (hc : c < 256) (hd : d < 256) :
    a * 2 ^ 24 ||| b * 2 ^ 16 ||| c * 2 ^ 8 ||| d = a * 2 ^ 24 + b * 2 ^ 16 + c * 2 ^ 8 + d := by
  have h1 : a * 2 ^ 24 ||| b * 2 ^ 16 = a * 2 ^ 24 + b * 2 ^ 16 := by
    have h := @Nat.mul_add_lt_is_or 24 (b * 2 ^ 16) (by omega) a
    rw [Nat.mul_comm (2 ^ 24) a] at h
    exact h.symm
  have h2 : a * 2 ^ 24 + b * 2 ^ 16 ||| c * 2 ^ 8 = a * 2 ^ 24 + b * 2 ^ 16 + c * 2 ^ 8 := by
    have h := @Nat.mul_add_lt_is_or 16 (c * 2 ^ 8) (by omega) (a * 2 ^ 8 + b)
    have e : 2 ^ 16 * (a * 2 ^ 8 + b) = a * 2 ^ 24 + b * 2 ^ 16 := by omega
    rw [e] at h
    exact h.symm
  have h3 : a * 2 ^ 24 + b * 2 ^ 16 + c * 2 ^ 8 ||| d = a * 2 ^ 24 + b * 2 ^ 16 + c * 2 ^ 8 + d := by
    have h := @Nat.mul_add_lt_is_or 8 d (by omega) (a * 2 ^ 16 + b * 2 ^ 8 + c)
    have e : 2 ^ 8 * (a * 2 ^ 16 + b * 2 ^ 8 + c) = a * 2 ^ 24 + b * 2 ^ 16 + c * 2 ^ 8 := by omega
    rw [e] at h
    exact h.symm
  rw [h1, h2, h3]

theorem ntohl_little (v : Nat) :
    ntohl true v = v % 256 * 2 ^ 24 + v / 2 ^ 8 % 256 * 2 ^ 16 + v / 2 ^ 16 % 256 * 2 ^ 8
      + v / 2 ^ 24 % 256 := by
  have m0 : v &&& 0xff = v % 256 := Nat.and_pow_two_sub_one_eq_mod v 8
  have m1 : v &&& 0xff00 = (v / 2 ^ 8 % 256) * 2 ^ 8 := by
    have h := and_shiftLeft_mask v 0xff 8
    rw [show (0xff : Nat) <<< 8 = 0xff00 from rfl] at h
    rw [h, Nat.shiftLeft_eq, Nat.shiftRight_eq_div_pow]
    rw [show (v / 2 ^ 8 &&& 0xff) = v / 2 ^ 8 % 256 from Nat.and_pow_two_sub_one_eq_mod _ 8]
  have m2 : v &&& 0xff0000 = (v / 2 ^ 16 % 256) * 2 ^ 16 := by
    have h := and_shiftLeft_mask v 0xff 16
    rw [show (0xff : Nat) <<< 16 = 0xff0000 from rfl] at h
    rw [h, Nat.shiftLeft_eq, Nat.shiftRight_eq_div_pow]
    rw [show (v / 2 ^ 16 &&& 0xff) = v / 2 ^ 16 % 256 from Nat.and_pow_two_sub_one_eq_mod _ 8]
  have m3 : v &&& 0xff000000 = (v / 2 ^ 24 % 256) * 2 ^ 24 := by
    have h := and_shiftLeft_mask v 0xff 24
    rw [show (0xff : Nat) <<< 24 = 0xff000000 from rfl] at h
    rw [h, Nat.shiftLeft_eq, Nat.shiftRight_eq_div_pow]
    rw [show (v / 2 ^ 24 &&& 0xff) = v / 2 ^ 24 % 256 from Nat.and_pow_two_sub_one_eq_mod _ 8]
  unfold ntohl
  rw [if_pos rfl, m0, m1, m2, m3]
  simp only [Nat.shiftLeft_eq, Nat.shiftRight_eq_div_pow]
  have e1 : v / 2 ^ 8 % 256 * 2 ^ 8 * 2 ^ 8 = v / 2 ^ 8 % 256 * 2 ^ 16 := by omega
  have e2 : v / 2 ^ 16 % 256 * 2 ^ 16 / 2 ^ 8 = v / 2 ^ 16 % 256 * 2 ^ 8 := by omega
  have e3 : v / 2 ^ 24 % 256 * 2 ^ 24 / 2 ^ 24 = v / 2 ^ 24 % 256 := by omega
  rw [e1, e2, e3]
  exact or_bytes _ _ _ _ (Nat.mod_lt _ (by decide)) (Nat.mod_lt _ (by decide))
    (Nat.mod_lt _ (by decide))

theorem bytes_split (a b c d : Nat) (hb : b < 256) (hc : c < 256) (hd : d < 256) :
    (a * 2 ^ 24 + b * 2 ^ 16 + c * 2 ^ 8 + d) % 256 = d ∧
    (a * 2 ^ 24 + b * 2 ^ 16 + c * 2 ^ 8 + d) / 2 ^ 8 = a * 2 ^ 16 + b * 2 ^ 8 + c ∧
    (a * 2 ^ 24 + b * 2 ^ 16 + c * 2 ^ 8 + d) / 2 ^ 16 = a * 2 ^ 8 + b ∧
    (a * 2 ^ 24 + b * 2 ^ 16 + c * 2 ^ 8 + d) / 2 ^ 24 = a := by
  refine ⟨?_, ?_, ?_, ?_⟩ <;> omega

theorem ntohl_bytes (a b c d : Nat) (ha : a < 256) (hb : b < 256) (hc : c < 256)
    (hd : d < 256) :
    ntohl true (a * 2 ^ 24 + b * 2 ^ 16 + c * 2 ^ 8 + d) =
      d * 2 ^ 24 + c * 2 ^ 16 + b * 2 ^ 8 + a := by
  obtain ⟨e0, e1, e2, e3⟩ := bytes_split a b c d hb hc hd
  rw [ntohl_little, e0, e1, e2, e3]
  have f1 : (a * 2 ^ 16 + b * 2 ^ 8 + c) % 256 = c := by omega
  have f2 : (a * 2 ^ 8 + b) % 256 = b := by omega
  have f3 : a % 256 = a := by omega
  rw [f1, f2, f3]

theorem ntohl_ntohl (le : Bool) (v : Nat) (hv : v < 2 ^ 32) : ntohl le (ntohl le v) = v := by
  cases le
  · rfl
  · have la : v / 2 ^ 24 < 256 := by omega
    have hsum : v = v / 2 ^ 24 * 2 ^ 24 + v / 2 ^ 16 % 256 * 2 ^ 16 + v / 2 ^ 8 % 256 * 2 ^ 8
        + v % 256 := by omega
    have h1 := ntohl_bytes (v / 2 ^ 24) (v / 2 ^ 16 % 256) (v / 2 ^ 8 % 256) (v % 256) la
      (Nat.mod_lt _ (by decide)) (Nat.mod_lt _ (by decide)) (Nat.mod_lt _ (by decide))
    rw [← hsum] at h1
    rw [h1]
    have h2 := ntohl_bytes (v % 256) (v / 2 ^ 8 % 256) (v / 2 ^ 16 % 256) (v / 2 ^ 24)
      (Nat.mod_lt _ (by decide)) (Nat.mod_lt _ (by decide)) (Nat.mod_lt _ (by decide)) la
    rw [h2]
    exact hsum.symm

theorem ntohl_load32 (le : Bool) (b0 b1 b2 b3 : Nat) (h0 : b0 < 256) (h1 : b1 < 256)
    (h2 : b2 < 256) (h3 : b3 < 256) :
    ntohl le (load32 le [b0, b1, b2, b3]) = 2 ^ 24 * b0 + 2 ^ 16 * b1 + 2 ^ 8 * b2 + b3 := by
  cases le
  · simp [ntohl, load32]
  · have h := ntohl_bytes b3 b2 b1 b0 h3 h2 h1 h0
    have e : load32 true [b0, b1, b2, b3] = b3 * 2 ^ 24 + b2 * 2 ^ 16 + b1 * 2 ^ 8 + b0 := by
      simp only [load32, if_true, List.getD_cons_zero, List.getD_cons_succ]
      omega
    rw [e, h]
    omega

theorem fmt_08lX_bytes (b0 b1 b2 b3 : Nat) (h0 : b0 < 256) (h1 : b1 < 256)
    (h2 : b2 < 256) (h3 : b3 < 256) :
    fmt_08lX (2 ^ 24 * b0 + 2 ^ 16 * b1 + 2 ^ 8 * b2 + b3) =
      String.mk (hexOfBytes [b0, b1, b2, b3]) := by
  have e : (List.range 8).reverse = [7, 6, 5, 4, 3, 2, 1, 0] := by decide
  unfold fmt_08lX
  rw [e]
  simp only [List.map_cons, List.map_nil, hexOfBytes]
  have d7 : (2 ^ 24 * b0 + 2 ^ 16 * b1 + 2 ^ 8 * b2 + b3) % 2 ^ 32 / 16 ^ 7 % 16 = b0 / 16 % 16 := by
    omega
  have d6 : (2 ^ 24 * b0 + 2 ^ 16 * b1 + 2 ^ 8 * b2 + b3) % 2 ^ 32 / 16 ^ 6 % 16 = b0 % 16 := by
    omega
  have d5 : (2 ^ 24 * b0 + 2 ^ 16 * b1 + 2 ^ 8 * b2 + b3) % 2 ^ 32 / 16 ^ 5 % 16 = b1 / 16 % 16 := by
    omega
  have d4 : (2 ^ 24 * b0 + 2 ^ 16 * b1 + 2 ^ 8 * b2 + b3) % 2 ^ 32 / 16 ^ 4 % 16 = b1 % 16 := by
    omega
  have d3 : (2 ^ 24 * b0 + 2 ^ 16 * b1 + 2 ^ 8 * b2 + b3) % 2 ^ 32 / 16 ^ 3 % 16 = b2 / 16 % 16 := by
    omega
  have d2 : (2 ^ 24 * b0 + 2 ^ 16 * b1 + 2 ^ 8 * b2 + b3) % 2 ^ 32 / 16 ^ 2 % 16 = b2 % 16 := by
    omega
  have d1 : (2 ^ 24 * b0 + 2 ^ 16 * b1 + 2 ^ 8 * b2 + b3) % 2 ^ 32 / 16 ^ 1 % 16 = b3 / 16 % 16 := by
    omega
  have d0 : (2 ^ 24 * b0 + 2 ^ 16 * b1 + 2 ^ 8 * b2 + b3) % 2 ^ 32 / 16 ^ 0 % 16 = b3 % 16 := by
    omega
  rw [d7, d6, d5, d4, d3, d2, d1, d0]

/-- C6: when the hex decoder delivers the four bytes `b0 b1 b2 b3` and the
engine accepts the write, `set_devaddr` hands the engine the 32-bit integer
whose big-endian byte sequence is `b0 b1 b2 b3` (the load of `buf` followed by
`ntohl`, on a little-endian and on a big-endian target), and replies `+OK`;
when the engine reports that value, `get_devaddr` replies `+OK=` followed by
the eight upper-case hex digits of `b0 b1 b2 b3` in order; and `ntohl` applied
twice is the identity on every 32-bit value. -/
theorem devaddr_roundtrip (e : Env) (param : atci_param_t) (w : World)
    (b0 b1 b2 b3 : Nat) (h0 : b0 < 256) (h1 : b1 < 256) (h2 : b2 < 256) (h3 : b3 < 256)
    (hret : (e.atci_param_get_buffer_from_hex param 4).ret = 4)
    (hbuf : (e.atci_param_get_buffer_from_hex param 4).buffer = [b0, b1, b2, b3])
    (hset : ∀ t r, e.LoRaMacMibSetRequestConfirm t r = LORAMAC_STATUS_OK) :
    set_devaddr e param w =
      { w with trace := w.trace ++
          [Event.mibSet ⟨.MIB_DEV_ADDR, .scalar (2 ^ 24 * b0 + 2 ^ 16 * b1 + 2 ^ 8 * b2 + b3)⟩,
           Event.print "+OK\r\n\r\n"] } ∧
    (∀ w1 : World,
      e.LoRaMacMibGetRequestConfirm w1.trace .MIB_DEV_ADDR =
        (LORAMAC_STATUS_OK, 2 ^ 24 * b0 + 2 ^ 16 * b1 + 2 ^ 8 * b2 + b3) →
      get_devaddr e w1 =
        { w1 with trace := w1.trace ++
            [Event.mibGet .MIB_DEV_ADDR,
             Event.print ("+OK=" ++ String.mk (hexOfBytes [b0, b1, b2, b3])),
             Event.print "\r\n\n"] }) ∧
    (∀ v : Nat, v < 2 ^ 32 → ntohl e.littleEndian (ntohl e.littleEndian v) = v) := by
  refine ⟨?_, ?_, fun v hv => ntohl_ntohl _ v hv⟩
  · unfold set_devaddr
    rw [if_neg (by rw [hret]; decide), hbuf, ntohl_load32 _ b0 b1 b2 b3 h0 h1 h2 h3,
      setRequest_ok e _ _ _ (hset _ _), OK__eq]
    simp [World.emit]
  · intro w1 hget
    unfold get_devaddr
    rw [hget]
    simp only []
    rw [abort_on_error_ok, fmt_08lX_bytes b0 b1 b2 b3 h0 h1 h2 h3]
    simp [OK, EOL, atci_print, World.emit]

/-- Witness of C6: `+DEVADDR=26011BDA` followed by `+DEVADDR?`. -/
theorem devaddr_roundtrip_witness :
    set_devaddr (refEnv 0x26011BDA) (mkParam "26011BDA") World.start =
      { World.start with trace :=
          [Event.mibSet ⟨.MIB_DEV_ADDR, .scalar 0x26011BDA⟩, Event.print "+OK\r\n\r\n"] } ∧
    get_devaddr (refEnv 0x26011BDA) World.start =
      { World.start with trace :=
          [Event.mibGet .MIB_DEV_ADDR, Event.print "+OK=26011BDA", Event.print "\r\n\n"] } ∧
    ntohl true (ntohl true 0x26011BDA) = 0x26011BDA := by
  have h := devaddr_roundtrip (refEnv 0x26011BDA) (mkParam "26011BDA") World.start
    0x26 0x01 0x1B 0xDA (by decide) (by decide) (by decide) (by decide) (by decide) (by decide)
    (fun _ _ => rfl)
  exact ⟨h.1, h.2.1 World.start rfl, h.2.2 0x26011BDA (by decide)⟩


/-! ## Sending -/

theorem abort_param (w : World) :
    abort ERR_PARAM w = { w with trace := w.trace ++ [Event.print "+ERR=-3\r\n\r\n"] } :=
  rfl

theorem abort_payload_long (w : World) :
    abort ERR_PAYLOAD_LONG w =
      { w with trace := w.trace ++ [Event.print "+ERR=-12\r\n\r\n"] } :=
  rfl

/-- C7: when `utx` has read the declared size, a size above 242 in binary
format (`data_format != 1`) or above 484 in hex format (`data_format == 1`) is
answered with `+ERR=-12` and nothing else happens: the payload timer is not
touched and the payload read is not requested.  Every size up to and including
the limit passes the check: the timer is initialised, set and started and the
payload read is requested with that size. -/
theorem utx_size_check (e : Env) (p : atci_param_t) (w : World)
    (hret : (e.atci_param_get_uint p).ret = true) :
    ((if w.sysconf.data_format = 1 then 484 else 242) < (e.atci_param_get_uint p).value →
      utx e (some p) w =
        { w with port := w.sysconf.default_port,
                 trace := w.trace ++ [Event.print "+ERR=-12\r\n\r\n"] }) ∧
    ((e.atci_param_get_uint p).value ≤ (if w.sysconf.data_format = 1 then 484 else 242) →
      ∃ armed : Bool,
        (utx e (some p) w).trace =
          w.trace ++
            [Event.timerInit, Event.timerSetValue w.sysconf.uart_timeout, Event.timerStart,
             Event.setReadNextData (e.atci_param_get_uint p).value
               (if w.sysconf.data_format = 1 then atci_encoding_t.ATCI_ENCODING_HEX
                else atci_encoding_t.ATCI_ENCODING_BIN) armed] ++
            (if armed = true then [] else [Event.print "+ERR=-12\r\n\r\n"])) := by
  constructor
  · intro hbig
    have hgt : (e.atci_param_get_uint p).value >
        242 * (if w.sysconf.data_format = 1 then 2 else 1) := by
      split_ifs at hbig ⊢ <;> omega
    simp only [utx, hret, Bool.true_eq_false, if_false, if_pos hgt]
    rfl
  · intro hle
    have hng : ¬ (e.atci_param_get_uint p).value >
        242 * (if w.sysconf.data_format = 1 then 2 else 1) := by
      split_ifs at hle ⊢ <;> omega
    simp only [utx, hret, Bool.true_eq_false, if_false, if_neg hng]
    generalize e.atci_set_read_next_data _ _ _ = a
    refine ⟨a, ?_⟩
    cases a <;> simp [World.emit, abort_payload_long]

/-- Witness of C7: `+UTX=243` is refused, `+UTX=242` passes the size check. -/
theorem utx_size_check_witness :
    utx (refEnv 0) (some (mkParam "243")) World.start =
      { World.start with port := 2, trace := [Event.print "+ERR=-12\r\n\r\n"] } ∧
    ∃ armed : Bool,
      (utx (refEnv 0) (some (mkParam "242")) World.start).trace =
        [Event.timerInit, Event.timerSetValue 1000, Event.timerStart,
         Event.setReadNextData 242 atci_encoding_t.ATCI_ENCODING_BIN armed] ++
        (if armed = true then [] else [Event.print "+ERR=-12\r\n\r\n"]) :=
  ⟨(utx_size_check (refEnv 0) (mkParam "243") World.start (by decide)).1 (by decide),
   (utx_size_check (refEnv 0) (mkParam "242") World.start (by decide)).2 (by decide)⟩

theorem ite_neg_of_neg {p : Prop} [Decidable p] {a b : Int} (ha : a < 0) (hb : b < 0) :
    (if p then a else b) < 0 := by
  split <;> assumption

theorem status2error_neg_of_pos (c : LoRaMacStatus) (s : Int) (h : 0 < s) :
    status2error c s < 0 := by
  unfold status2error
  rw [if_neg (by omega)]
  repeat (first | decide | apply ite_neg_of_neg)

theorem status2error_one_neg (c : LoRaMacStatus) : status2error c 1 < 0 :=
  status2error_neg_of_pos c 1 (by decide)

/-- C8: the reply of `transmit` is the opposite of what the claim says.  For
a payload read that ended by timeout (or normally), `transmit` hands the bytes
received so far to `lrw_send`; when `lrw_send` reports success (`true`, which
`abort_on_error` reads as the status 1) the reply is `+ERR=` with a negative
code, and when `lrw_send` reports failure the reply is `+OK`. -/
theorem transmit_reply_inverted (e : Env) (st : atci_data_status_t) (d : atci_param_t)
    (w : World) (hst : st ≠ .ATCI_DATA_ENCODING_ERROR) :
    ((lrw_send e w.port d.txt (d.length % 256) w.request_confirmation
        (w.emit .timerStop)).1 = true →
      status2error e.status 1 < 0 ∧
      transmit e st d w =
        abort (status2error e.status 1)
          (lrw_send e w.port d.txt (d.length % 256) w.request_confirmation
            (w.emit .timerStop)).2) ∧
    ((lrw_send e w.port d.txt (d.length % 256) w.request_confirmation
        (w.emit .timerStop)).1 = false →
      transmit e st d w =
        OK_ (lrw_send e w.port d.txt (d.length % 256) w.request_confirmation
              (w.emit .timerStop)).2) := by
  constructor
  · intro h
    refine ⟨status2error_one_neg _, ?_⟩
    have hw : (w.emit .timerStop).port = w.port ∧
        (w.emit .timerStop).request_confirmation = w.request_confirmation := ⟨rfl, rfl⟩
    simp only [transmit, if_neg hst, hw.1, hw.2, h, boolToInt, if_true, abort_on_error,
      if_pos (status2error_one_neg e.status)]
  · intro h
    have hw : (w.emit .timerStop).port = w.port ∧
        (w.emit .timerStop).request_confirmation = w.request_confirmation := ⟨rfl, rfl⟩
    simp only [transmit, if_neg hst, hw.1, hw.2, h, boolToInt, Bool.false_eq_true, if_false]
    exact abort_on_error_ok _ _ _

/-- Witness of C8: after a timeout with the two bytes `ab` received, on the
default port 2, an engine that accepts the frame gets `+ERR=-7`, and an engine
that refuses it with status 1 gets `+OK`; with no byte received the accepted
empty frame gets `+ERR=-7` as well. -/
theorem transmit_reply_inverted_witness :
    (transmit (refEnv 0) .ATCI_DATA_ABORTED (mkParam "ab") { World.start with port := 2 }).trace =
      [Event.timerStop, Event.queryTxPossible 2,
       Event.mcpsRequest ⟨.MCPS_UNCONFIRMED, some 2, some ['a', 'b'], 2⟩,
       Event.print "+ERR=-7\r\n\r\n"] ∧
    (transmit { refEnv 0 with LoRaMacMcpsRequest := fun _ _ => 1 } .ATCI_DATA_ABORTED
        (mkParam "ab") { World.start with port := 2 }).trace =
      [Event.timerStop, Event.queryTxPossible 2,
       Event.mcpsRequest ⟨.MCPS_UNCONFIRMED, some 2, some ['a', 'b'], 2⟩,
       Event.print "+OK\r\n\r\n"] ∧
    (transmit (refEnv 0) .ATCI_DATA_ABORTED (mkParam "") { World.start with port := 2 }).trace =
      [Event.timerStop, Event.queryTxPossible 0,
       Event.mcpsRequest ⟨.MCPS_UNCONFIRMED, some 2, some [], 0⟩,
       Event.print "+ERR=-7\r\n\r\n"] :=
  ⟨congrArg World.trace
    ((transmit_reply_inverted (refEnv 0) .ATCI_DATA_ABORTED (mkParam "ab")
      { World.start with port := 2 } (by decide)).1 (by decide)).2,
   congrArg World.trace
    ((transmit_reply_inverted { refEnv 0 with LoRaMacMcpsRequest := fun _ _ => 1 }
      .ATCI_DATA_ABORTED (mkParam "ab") { World.start with port := 2 } (by decide)).2
      (by decide)),
   congrArg World.trace
    ((transmit_reply_inverted (refEnv 0) .ATCI_DATA_ABORTED (mkParam "")
      { World.start with port := 2 } (by decide)).1 (by decide)).2⟩

/-- C9: `lrw_send` asks the engine whether `length` bytes can be sent and then
submits one request.  When the answer is not OK the request is an unconfirmed
frame with no buffer and size 0, whatever the confirmed flag is; when the
answer is OK the request is of confirmed type exactly when the confirmed flag
is set and carries the port, the length and the buffer.  In both cases the
result is `true` exactly when the engine answers the request with OK. -/
theorem lrw_send_request (e : Env) (port : Nat) (buffer : List Char) (length : Nat)
    (confirmed : Bool) (w : World) :
    ∃ req : McpsReq_t,
      (lrw_send e port buffer length confirmed w).2 =
        { w with trace := w.trace ++ [Event.queryTxPossible length, Event.mcpsRequest req] } ∧
      (e.LoRaMacQueryTxPossible w.trace length ≠ LORAMAC_STATUS_OK →
        req = ⟨.MCPS_UNCONFIRMED, none, none, 0⟩) ∧
      (e.LoRaMacQueryTxPossible w.trace length = LORAMAC_STATUS_OK →
        (req.type = .MCPS_CONFIRMED ↔ confirmed = true) ∧ req.fPort = some port ∧
        req.fBufferSize = length ∧ req.fBuffer = some buffer) ∧
      ((lrw_send e port buffer length confirmed w).1 = true ↔
        e.LoRaMacMcpsRequest (w.trace ++ [Event.queryTxPossible length]) req =
          LORAMAC_STATUS_OK) := by
  by_cases hq : e.LoRaMacQueryTxPossible w.trace length = LORAMAC_STATUS_OK
  · cases confirmed
    · refine ⟨⟨.MCPS_UNCONFIRMED, some port, some buffer, length⟩, ?_, ?_, ?_, ?_⟩
      · simp [lrw_send, hq, World.emit]
      · intro h; exact absurd hq h
      · intro _; simp
      · simp [lrw_send, hq, World.emit]
    · refine ⟨⟨.MCPS_CONFIRMED, some port, some buffer, length⟩, ?_, ?_, ?_, ?_⟩
      · simp [lrw_send, hq, World.emit]
      · intro h; exact absurd hq h
      · intro _; simp
      · simp [lrw_send, hq, World.emit]
  · refine ⟨⟨.MCPS_UNCONFIRMED, none, none, 0⟩, ?_, ?_, ?_, ?_⟩
    · simp [lrw_send, hq, World.emit]
    · intro _; rfl
    · intro h; exact absurd h hq
    · simp [lrw_send, hq, World.emit]

theorem accepted_abort (num : Int) (w : World) : (abort num w).accepted = false := by
  simp [World.accepted, abort, atci_print, World.emit]

theorem utx_accepted (e : Env) (p : Option atci_param_t) (w : World)
    (h : (utx e p w).accepted = true) :
    (utx e p w).port = w.sysconf.default_port ∧ (utx e p w).request_confirmation = false := by
  unfold utx at h ⊢
  cases p with
  | none => simp [accepted_abort] at h
  | some p =>
    simp only at h ⊢
    split_ifs at h ⊢
    all_goals first
      | exact ⟨rfl, rfl⟩
      | (exfalso; simp [accepted_abort] at h)

theorem parse_port_spec (e : Env) (q : atci_param_t) :
    (parse_port e q).2 = (e.atci_param_get_uint q).param ∧
    (((e.atci_param_get_uint q).ret = true ∧ 1 ≤ (e.atci_param_get_uint q).value ∧
        (e.atci_param_get_uint q).value ≤ 223 ∧
        (parse_port e q).1 = ((e.atci_param_get_uint q).value : Int)) ∨
     (((e.atci_param_get_uint q).ret = false ∨ (e.atci_param_get_uint q).value < 1 ∨
        223 < (e.atci_param_get_uint q).value) ∧ (parse_port e q).1 = -1)) := by
  unfold parse_port
  simp only
  by_cases h1 : (e.atci_param_get_uint q).ret = false
  · rw [if_pos h1]
    exact ⟨rfl, Or.inr ⟨Or.inl h1, rfl⟩⟩
  · rw [if_neg h1]
    by_cases h2 : (e.atci_param_get_uint q).value < 1 ∨ (e.atci_param_get_uint q).value > 223
    · rw [if_pos h2]
      exact ⟨rfl, Or.inr ⟨Or.inr h2, rfl⟩⟩
    · rw [if_neg h2]
      refine ⟨rfl, Or.inl ⟨?_, ?_, ?_, rfl⟩⟩
      · simpa using h1
      · omega
      · omega

theorem putx_accepted (e : Env) (q : atci_param_t) (w : World)
    (h : (putx e (some q) w).accepted = true) :
    1 ≤ (e.atci_param_get_uint q).value ∧ (e.atci_param_get_uint q).value ≤ 223 ∧
    (putx e (some q) w).port = (e.atci_param_get_uint q).value ∧
    (putx e (some q) w).request_confirmation = false := by
  unfold putx at h ⊢
  simp only at h ⊢
  obtain ⟨h2, hcase⟩ := parse_port_spec e q
  rcases hcase with ⟨_, hlo, hhi, hv⟩ | ⟨_, hv⟩
  · rw [hv, h2] at h ⊢
    rw [if_neg (by omega)] at h ⊢
    by_cases hc : (e.atci_param_is_comma (e.atci_param_get_uint q).param).ret = false
    · rw [if_pos hc] at h
      simp [accepted_abort] at h
    · rw [if_neg hc] at h ⊢
      have hu := utx_accepted e _ w h
      refine ⟨hlo, hhi, ?_, hu.2⟩
      show (((e.atci_param_get_uint q).value : Int) % 256).toNat = _
      omega
  · rw [hv] at h
    rw [if_pos (by decide)] at h
    simp [accepted_abort] at h

theorem putx_rejected (e : Env) (r : atci_param_t) (w : World)
    (hR : (e.atci_param_get_uint r).ret = false ∨ (e.atci_param_get_uint r).value < 1 ∨
      223 < (e.atci_param_get_uint r).value ∨
      (e.atci_param_is_comma (e.atci_param_get_uint r).param).ret = false) :
    putx e (some r) w = abort ERR_PARAM w := by
  unfold putx
  simp only
  obtain ⟨h2, hcase⟩ := parse_port_spec e r
  rcases hcase with ⟨hr, hlo, hhi, hv⟩ | ⟨_, hv⟩
  · rw [hv, h2, if_neg (by omega)]
    rcases hR with h | h | h | h
    · rw [hr] at h; exact absurd h (by decide)
    · omega
    · omega
    · rw [if_pos h]
  · rw [hv, if_pos (by decide)]

theorem transmit_request (e : Env) (st : atci_data_status_t) (d : atci_param_t) (w : World)
    (hst : st ≠ .ATCI_DATA_ENCODING_ERROR)
    (hq : e.LoRaMacQueryTxPossible (w.trace ++ [Event.timerStop]) (d.length % 256) =
      LORAMAC_STATUS_OK) :
    Event.mcpsRequest
      ⟨if w.request_confirmation = true then .MCPS_CONFIRMED else .MCPS_UNCONFIRMED,
       some w.port, some d.txt, d.length % 256⟩ ∈ (transmit e st d w).trace := by
  have hmem : ∀ (k : World → World) (s : Int) (w1 : World) (ev : Event),
      (∀ w2, ev ∈ w2.trace → ev ∈ (k w2).trace) → ev ∈ w1.trace →
      ev ∈ (abort_on_error e.status s k w1).trace := by
    intro k s w1 ev hk hin
    unfold abort_on_error
    simp only
    split
    · simp [abort, atci_print, World.emit, hin]
    · exact hk _ hin
  unfold transmit
  simp only [if_neg hst]
  apply hmem
  · intro w2 h2
    simp [OK_, atci_print, World.emit, h2]
  · cases hc : w.request_confirmation <;>
      simp [lrw_send, World.emit, hq, hc]

/-- C10: the port and the confirmation flag that `transmit` puts into the
request are the file-scope variables `port` and `request_confirmation`.  After
an accepted `+UTX` they are (default port, false), after an accepted `+CTX`
(default port, true), after an accepted `+PUTX=p,size` (p, false) and after an
accepted `+PCTX=p,size` (p, true), where p is the port read from the argument
and lies in 1..223.  When the port cannot be read, is outside 1..223, or is
not followed by a comma, `putx` and `pctx` reply `+ERR=-3` and request no
payload read. -/
theorem send_variants_pending (e : Env) (w : World) (p q r : atci_param_t)
    (hU : (utx e (some p) w).accepted = true)
    (hP : (putx e (some q) w).accepted = true)
    (hR : (e.atci_param_get_uint r).ret = false ∨ (e.atci_param_get_uint r).value < 1 ∨
      223 < (e.atci_param_get_uint r).value ∨
      (e.atci_param_is_comma (e.atci_param_get_uint r).param).ret = false) :
    ((utx e (some p) w).port = w.sysconf.default_port ∧
      (utx e (some p) w).request_confirmation = false) ∧
    ((ctx e (some p) w).accepted = true ∧
      (ctx e (some p) w).port = w.sysconf.default_port ∧
      (ctx e (some p) w).request_confirmation = true) ∧
    (1 ≤ (e.atci_param_get_uint q).value ∧ (e.atci_param_get_uint q).value ≤ 223 ∧
      (putx e (some q) w).port = (e.atci_param_get_uint q).value ∧
      (putx e (some q) w).request_confirmation = false) ∧
    ((pctx e (some q) w).accepted = true ∧
      (pctx e (some q) w).port = (e.atci_param_get_uint q).value ∧
      (pctx e (some q) w).request_confirmation = true) ∧
    (putx e (some r) w =
        { w with trace := w.trace ++ [Event.print "+ERR=-3\r\n\r\n"] } ∧
      pctx e (some r) w =
        { w with request_confirmation := true,
                 trace := w.trace ++ [Event.print "+ERR=-3\r\n\r\n"] }) ∧
    (∀ (w1 : World) (st : atci_data_status_t) (d : atci_param_t),
      st ≠ .ATCI_DATA_ENCODING_ERROR →
      e.LoRaMacQueryTxPossible (w1.trace ++ [Event.timerStop]) (d.length % 256) =
        LORAMAC_STATUS_OK →
      Event.mcpsRequest
        ⟨if w1.request_confirmation = true then .MCPS_CONFIRMED else .MCPS_UNCONFIRMED,
         some w1.port, some d.txt, d.length % 256⟩ ∈ (transmit e st d w1).trace) := by
  have hu := utx_accepted e (some p) w hU
  have hp := putx_accepted e q w hP
  have hr := putx_rejected e r w hR
  refine ⟨hu, ⟨hU, hu.1, rfl⟩, hp, ⟨hP, hp.2.2.1, rfl⟩, ⟨?_, ?_⟩,
    fun w1 st d hst hq => transmit_request e st d w1 hst hq⟩
  · rw [hr]; rfl
  · unfold pctx
    rw [hr]; rfl

/-- Witness of C10: `+UTX=5`, `+PUTX=12,5` and the refused `+PUTX=224,5`. -/
theorem send_variants_pending_witness :
    (utx (refEnv 0) (some (mkParam "5")) World.start).port = 2 ∧
    (ctx (refEnv 0) (some (mkParam "5")) World.start).request_confirmation = true ∧
    (putx (refEnv 0) (some (mkParam "12,5")) World.start).port = 12 ∧
    (pctx (refEnv 0) (some (mkParam "12,5")) World.start).request_confirmation = true ∧
    putx (refEnv 0) (some (mkParam "224,5")) World.start =
      { World.start with trace := [Event.print "+ERR=-3\r\n\r\n"] } := by
  have h := send_variants_pending (refEnv 0) World.start (mkParam "5") (mkParam "12,5")
    (mkParam "224,5") (by decide) (by decide) (by decide)
  exact ⟨h.1.1, h.2.1.2.2, h.2.2.1.2.2.1, h.2.2.2.1.2.2, h.2.2.2.2.1.1⟩
/-! ## Persisted state -/

theorem since_append (w : World) (w1 : World) (xs : List Event)
    (h : w1.trace = w.trace ++ xs) : w.since w1 = xs := by
  unfold World.since
  rw [h, List.drop_left]

theorem saveGroup_eq (e : Env) (g : Group) (w : World) :
    saveGroup e g w =
      { w with trace := w.trace ++
          (if w.nvm_flags &&& e.nvmFlag g ≠ 0 then
            [Event.part_write g (e.part_write w.trace g)] else []) } := by
  unfold saveGroup
  split
  · rfl
  · simp

theorem saveGroups_spec (e : Env) (gs : List Group) (w : World) :
    ∃ ws : List Event,
      saveGroups e gs w = { w with trace := w.trace ++ ws } ∧
      (∀ ev ∈ ws, ∃ g r, ev = Event.part_write g r) ∧
      writtenGroups ws = gs.filter (fun g => decide (w.nvm_flags &&& e.nvmFlag g ≠ 0)) := by
  induction gs generalizing w with
  | nil => exact ⟨[], by simp [saveGroups], by simp, by simp [writtenGroups]⟩
  | cons g gs ih =>
    obtain ⟨ws, h1, h2, h3⟩ := ih (saveGroup e g w)
    have hg := saveGroup_eq e g w
    by_cases hf : w.nvm_flags &&& e.nvmFlag g ≠ 0
    · rw [if_pos hf] at hg
      refine ⟨Event.part_write g (e.part_write w.trace g) :: ws, ?_, ?_, ?_⟩
      · show saveGroups e gs (saveGroup e g w) = _
        rw [h1, hg]
        simp
      · intro ev hev
        rcases List.mem_cons.mp hev with h | h
        · exact ⟨g, _, h⟩
        · exact h2 ev h
      · rw [hg] at h3
        simp only [writtenGroups, List.filterMap_cons] at h3 ⊢
        rw [h3]
        simp [hf]
    · rw [if_neg hf] at hg
      refine ⟨ws, ?_, h2, ?_⟩
      · show saveGroups e gs (saveGroup e g w) = _
        rw [h1, hg]
        simp
      · rw [hg] at h3
        rw [h3]
        simp [hf]

theorem save_state_ok (e : Env) (w : World) (hm : w.nvm_flags ≠ 0)
    (hstop : e.LoRaMacStop w.trace = LORAMAC_STATUS_OK) :
    ∃ ws : List Event,
      save_state e w =
        { w with nvm_flags := 0
                 trace := w.trace ++
                   ([Event.LoRaMacStop LORAMAC_STATUS_OK, Event.mibGet .MIB_NVM_CTXS] ++ ws ++
                    [Event.set_nvm_flags 0, Event.LoRaMacStart]) } ∧
      (∀ ev ∈ ws, ∃ g r, ev = Event.part_write g r) ∧
      writtenGroups ws =
        Group.all.filter (fun g => decide (w.nvm_flags &&& e.nvmFlag g ≠ 0)) := by
  obtain ⟨ws, h1, h2, h3⟩ :=
    saveGroups_spec e Group.all (lrw_get_state (w.emit (.LoRaMacStop LORAMAC_STATUS_OK)))
  refine ⟨ws, ?_, h2, h3⟩
  have hs : save_state e w =
      ({ saveGroups e Group.all (lrw_get_state (w.emit (.LoRaMacStop LORAMAC_STATUS_OK))) with
          nvm_flags := LORAMAC_NVM_NOTIFY_FLAG_NONE }.emit
        (.set_nvm_flags LORAMAC_NVM_NOTIFY_FLAG_NONE)).emit .LoRaMacStart := by
    unfold save_state
    rw [if_neg hm]
    simp only [hstop]
    rfl
  rw [hs, h1]
  simp [World.emit, lrw_get_state]

theorem save_state_empty (e : Env) (w : World) (hm : w.nvm_flags = 0) :
    save_state e w = w := by
  unfold save_state
  rw [if_pos hm]

theorem save_state_stop_failed (e : Env) (w : World) (hm : w.nvm_flags ≠ 0)
    (hstop : e.LoRaMacStop w.trace ≠ LORAMAC_STATUS_OK) :
    save_state e w = w.emit (.LoRaMacStop (e.LoRaMacStop w.trace)) := by
  unfold save_state
  rw [if_neg hm]
  exact if_pos hstop

theorem runCallback_spec (e : Env) (c : Callback) (w : World) :
    ∃ xs : List Event,
      (runCallback e c w).trace = w.trace ++ xs ∧ writtenGroups xs = [] ∧
      (runCallback e c w).nvm_flags = w.nvm_flags ||| notified [c] := by
  cases c with
  | NvmDataChange flags =>
    exact ⟨[Event.set_nvm_flags (w.nvm_flags ||| flags)], rfl, rfl, by
      simp [runCallback, nvm_data_change, World.emit, notified]⟩
  | MacMcpsConfirm param =>
    exact ⟨[Event.print "+ACK\r\n\r\n"], rfl, rfl, by
      simp [runCallback, mcps_confirm, on_ack, cmd_print, atci_print, World.emit, notified]⟩
  | MacMcpsIndication param =>
    simp only [runCallback, mcps_indication, notified, Nat.or_zero]
    split_ifs
    · exact ⟨[], by simp, rfl, rfl⟩
    · exact ⟨[Event.print ("+RECV=" ++ toString param.Port ++ "," ++
          toString param.BufferSize ++ "\r\n\r\n"),
        Event.write (param.Buffer.take param.BufferSize)],
        by simp [recv, atci_print, World.emit], rfl, rfl⟩
    · exact ⟨[], by simp, rfl, rfl⟩
  | MacMlmeConfirm param =>
    simp only [runCallback, mlme_confirm, notified, Nat.or_zero]
    split_ifs
    · exact ⟨_, rfl, rfl, rfl⟩
    · exact ⟨_, rfl, rfl, rfl⟩
    · exact ⟨[], by simp, rfl, rfl⟩
  | MacMlmeIndication param =>
    exact ⟨[], by simp [runCallback, mlme_indication], rfl, by
      simp [runCallback, mlme_indication, notified]⟩
  | MacProcessNotify =>
    exact ⟨[], by simp [runCallback, process_irq], rfl, by
      simp [runCallback, process_irq, notified]⟩

theorem notified_cons (c : Callback) (cs : List Callback) :
    notified (c :: cs) = notified [c] ||| notified cs := by
  cases c <;> simp [notified]

theorem writtenGroups_append (xs ys : List Event) :
    writtenGroups (xs ++ ys) = writtenGroups xs ++ writtenGroups ys := by
  simp [writtenGroups, List.filterMap_append]

theorem runCallbacks_spec (e : Env) (cs : List Callback) (w : World) :
    ∃ xs : List Event,
      (cs.foldl (fun w1 c => runCallback e c w1) w).trace = w.trace ++ xs ∧
      writtenGroups xs = [] ∧
      (cs.foldl (fun w1 c => runCallback e c w1) w).nvm_flags = w.nvm_flags ||| notified cs := by
  induction cs generalizing w with
  | nil => exact ⟨[], by simp, rfl, by simp [notified]⟩
  | cons c cs ih =>
    obtain ⟨xs, h1, h2, h3⟩ := runCallback_spec e c w
    obtain ⟨ys, k1, k2, k3⟩ := ih (runCallback e c w)
    refine ⟨xs ++ ys, ?_, ?_, ?_⟩
    · simp only [List.foldl_cons]
      rw [k1, h1, List.append_assoc]
    · rw [writtenGroups_append, h2, k2]
      rfl
    · simp only [List.foldl_cons]
      rw [k3, h3, Nat.or_assoc, ← notified_cons]

theorem LoRaMacProcess_spec (e : Env) (w : World) :
    ∃ xs : List Event,
      (LoRaMacProcess e w).trace = w.trace ++ xs ∧ writtenGroups xs = [] ∧
      (LoRaMacProcess e w).nvm_flags = w.nvm_flags ||| notified (e.LoRaMacProcess w.trace) := by
  obtain ⟨xs, h1, h2, h3⟩ :=
    runCallbacks_spec e (e.LoRaMacProcess w.trace) (w.emit .LoRaMacProcess)
  refine ⟨Event.LoRaMacProcess :: xs, ?_, ?_, h3⟩
  · unfold LoRaMacProcess
    rw [h1]
    simp [World.emit]
  · have : writtenGroups (Event.LoRaMacProcess :: xs) = writtenGroups xs := rfl
    rw [this, h2]

theorem writtenGroups_save_state (e : Env) (w : World)
    (hstop : e.LoRaMacStop w.trace = LORAMAC_STATUS_OK) :
    writtenGroups (w.since (save_state e w)) =
      Group.all.filter (fun g => decide (w.nvm_flags &&& e.nvmFlag g ≠ 0)) ∧
    (save_state e w).nvm_flags = 0 := by
  by_cases hm : w.nvm_flags = 0
  · rw [save_state_empty e w hm]
    refine ⟨?_, hm⟩
    rw [since_append w w [] (by simp), hm]
    simp [writtenGroups]
  · obtain ⟨ws, h1, _, h3⟩ := save_state_ok e w hm hstop
    rw [h1]
    refine ⟨?_, rfl⟩
    rw [since_append w _ _ rfl, writtenGroups_append, writtenGroups_append, h3]
    simp [writtenGroups]

/-- C11, as the claim states it, fails: with the crypto flag set and an engine
that cannot be stopped (status 1), the tick writes no group and the mask keeps
the flag. -/
theorem tick_stop_failed_counterexample :
    Group.all.filter (fun g => decide ((1 : Nat) &&& refNvmFlag g ≠ 0)) = [Group.crypto] ∧
    writtenGroups
      (World.since { World.start with nvm_flags := 1 }
        (lrw_process { refEnv 0 with LoRaMacStop := fun _ => 1 }
          { World.start with nvm_flags := 1 })) = [] ∧
    (lrw_process { refEnv 0 with LoRaMacStop := fun _ => 1 }
      { World.start with nvm_flags := 1 }).nvm_flags = 1 := by
  decide

/-- C11 (amended): in a tick in which the engine can be stopped, the mask that
`save_state` finds is the old mask together with the flags notified during
`LoRaMacProcess`; the tick attempts a write for exactly the groups whose bit
is set in that mask, each once and in the order of the source, and for no
other group, and leaves the mask empty. -/
theorem tick_rewrites_flagged (e : Env) (w : World)
    (hstop : e.LoRaMacStop (LoRaMacProcess e w).trace = LORAMAC_STATUS_OK) :
    (LoRaMacProcess e w).nvm_flags = w.nvm_flags ||| notified (e.LoRaMacProcess w.trace) ∧
    writtenGroups (w.since (lrw_process e w)) =
      Group.all.filter (fun g =>
        decide ((w.nvm_flags ||| notified (e.LoRaMacProcess w.trace)) &&& e.nvmFlag g ≠ 0)) ∧
    (lrw_process e w).nvm_flags = 0 := by
  obtain ⟨xs, h1, h2, h3⟩ := LoRaMacProcess_spec e w
  obtain ⟨k1, k2⟩ := writtenGroups_save_state e (LoRaMacProcess e w) hstop
  refine ⟨h3, ?_, k2⟩
  have hsince : w.since (lrw_process e w) =
      xs ++ (LoRaMacProcess e w).since (lrw_process e w) := by
    unfold World.since lrw_process
    by_cases hm : (LoRaMacProcess e w).nvm_flags = 0
    · rw [save_state_empty e _ hm, h1]
      simp
    · obtain ⟨ws, hs, _, _⟩ := save_state_ok e (LoRaMacProcess e w) hm hstop
      rw [hs, h1]
      simp
  rw [hsince, writtenGroups_append, h2]
  unfold lrw_process
  rw [k1, h3]
  rfl

/-- Witness of C11 (amended): the engine notifies the secure-element flag
during the tick while the crypto flag is pending. -/
theorem tick_rewrites_flagged_witness :
    writtenGroups
      (World.since { World.start with nvm_flags := 1 }
        (lrw_process { refEnv 0 with LoRaMacProcess := fun _ => [.NvmDataChange 8] }
          { World.start with nvm_flags := 1 })) = [Group.crypto, Group.se] ∧
    (lrw_process { refEnv 0 with LoRaMacProcess := fun _ => [.NvmDataChange 8] }
      { World.start with nvm_flags := 1 }).nvm_flags = 0 :=
  (tick_rewrites_flagged { refEnv 0 with LoRaMacProcess := fun _ => [.NvmDataChange 8] }
    { World.start with nvm_flags := 1 } rfl).2

theorem nvm_data_changes_flags (fs : List Nat) (w : World) :
    (fs.foldl (fun w1 f => nvm_data_change f w1) w).nvm_flags =
      fs.foldl (fun m f => m ||| f) w.nvm_flags := by
  induction fs generalizing w with
  | nil => rfl
  | cons f fs ih =>
    simp only [List.foldl_cons]
    rw [ih]
    rfl

theorem restoreGroup_frame (e : Env) (g : Group) (w : World) :
    (restoreGroup e g w).nvm_flags = w.nvm_flags := by
  unfold restoreGroup
  split
  · rfl
  · split <;> rfl

/-- C12: `nvm_data_change` sets the mask to the bitwise OR of its old value
and the notified flags, so after the notifications `fs` with no save pass in
between the mask is the old value ORed with all of them; `save_state` leaves
the mask as it was or empties it; a save pass with an empty mask does nothing
at all (no stop, no restart, no write); and no other function of lrw.c
changes the mask. -/
theorem dirty_mask_changes (e : Env) (w : World) :
    (∀ flags : Nat, (nvm_data_change flags w).nvm_flags = w.nvm_flags ||| flags) ∧
    (∀ fs : List Nat,
      (fs.foldl (fun w1 f => nvm_data_change f w1) w).nvm_flags =
        fs.foldl (fun m f => m ||| f) w.nvm_flags) ∧
    ((save_state e w).nvm_flags = w.nvm_flags ∨ (save_state e w).nvm_flags = 0) ∧
    (w.nvm_flags = 0 → save_state e w = w) ∧
    (∀ param, (mcps_confirm param w).nvm_flags = w.nvm_flags) ∧
    (∀ param, (mcps_indication param w).nvm_flags = w.nvm_flags) ∧
    (∀ param, (mlme_confirm e param w).nvm_flags = w.nvm_flags) ∧
    (∀ param, (mlme_indication param w).nvm_flags = w.nvm_flags) ∧
    (process_irq w).nvm_flags = w.nvm_flags ∧
    (lrw_get_state w).nvm_flags = w.nvm_flags ∧
    (restore_state e w).nvm_flags = w.nvm_flags ∧
    (∀ port buffer length confirmed,
      (lrw_send e port buffer length confirmed w).2.nvm_flags = w.nvm_flags) := by
  refine ⟨fun _ => rfl, fun fs => nvm_data_changes_flags fs w, ?_, save_state_empty e w,
    fun _ => ?_, fun _ => ?_, fun _ => ?_, fun _ => rfl, rfl, rfl, ?_, fun _ _ _ _ => rfl⟩
  · by_cases hm : w.nvm_flags = 0
    · left
      rw [save_state_empty e w hm]
    · by_cases hstop : e.LoRaMacStop w.trace = LORAMAC_STATUS_OK
      · right
        obtain ⟨ws, h1, _, _⟩ := save_state_ok e w hm hstop
        rw [h1]
      · left
        rw [save_state_stop_failed e w hm hstop]
        rfl
  · simp only [mcps_confirm, on_ack]
    rfl
  · simp only [mcps_indication]
    split_ifs <;> rfl
  · simp only [mlme_confirm]
    split_ifs <;> rfl
  · simp only [restore_state, restoreGroup_frame]
    rfl

/-- Witness of C12: two notifications, then a save pass on the empty mask. -/
theorem dirty_mask_changes_witness :
    ([2, 8].foldl (fun w1 f => nvm_data_change f w1) { World.start with nvm_flags := 1 }).nvm_flags
      = 11 ∧
    save_state (refEnv 0) World.start = World.start :=
  ⟨(dirty_mask_changes (refEnv 0) { World.start with nvm_flags := 1 }).2.1 [2, 8],
   (dirty_mask_changes (refEnv 0) World.start).2.2.2.1 rfl⟩

theorem writtenGroups_eq_nil (ws : List Event)
    (h : ∀ g r, Event.part_write g r ∉ ws) : writtenGroups ws = [] := by
  induction ws with
  | nil => rfl
  | cons ev ws ih =>
    have ht := ih (fun g r hm => h g r (List.mem_cons_of_mem _ hm))
    cases ev with
    | part_write g r => exact absurd (List.mem_cons_self _ _) (h g r)
    | _ => simpa [writtenGroups] using ht

theorem groups_nodup : Group.all.Nodup := by decide

/-- C13, as the claim states it, fails: with the crypto and class B flags set
and an engine that cannot be stopped, no flagged group is attempted, the mask
is not cleared and the engine is not restarted, whatever the writes would have
returned. -/
theorem save_pass_stop_failed_counterexample :
    Group.all.filter (fun g => decide ((0x41 : Nat) &&& refNvmFlag g ≠ 0)) =
      [Group.crypto, Group.classb] ∧
    save_state { refEnv 0 with LoRaMacStop := fun _ => 1, part_write := fun _ _ => false }
        { World.start with nvm_flags := 0x41 } =
      { World.start with nvm_flags := 0x41, trace := [Event.LoRaMacStop 1] } := by
  decide

/-- C13 (amended): in a save pass that finds a non-empty mask and stops the
engine, the groups for which a write is attempted are the groups flagged in
the mask, whatever the writes return: for every outcome function `pw` of
`part_write` every flagged group is attempted exactly once, the mask is
cleared, the last action is the restart of the engine, nothing is printed, and
nothing else of the state changes. -/
theorem save_pass_ignores_write_failures (e : Env) (w : World)
    (pw : List Event → Group → Bool) (hm : w.nvm_flags ≠ 0)
    (hstop : e.LoRaMacStop w.trace = LORAMAC_STATUS_OK) :
    writtenGroups (w.since (save_state { e with part_write := pw } w)) =
      Group.all.filter (fun g => decide (w.nvm_flags &&& e.nvmFlag g ≠ 0)) ∧
    (writtenGroups (w.since (save_state { e with part_write := pw } w))).Nodup ∧
    (save_state { e with part_write := pw } w).nvm_flags = 0 ∧
    (w.since (save_state { e with part_write := pw } w)).getLast? = some Event.LoRaMacStart ∧
    (∀ s, Event.print s ∉ w.since (save_state { e with part_write := pw } w)) ∧
    save_state { e with part_write := pw } w =
      { w with nvm_flags := 0, trace := (save_state { e with part_write := pw } w).trace } := by
  obtain ⟨ws, h1, h2, h3⟩ := save_state_ok { e with part_write := pw } w hm hstop
  have hw := (writtenGroups_save_state { e with part_write := pw } w hstop).1
  have hs : w.since (save_state { e with part_write := pw } w) =
      [Event.LoRaMacStop LORAMAC_STATUS_OK, Event.mibGet .MIB_NVM_CTXS] ++ ws ++
        [Event.set_nvm_flags 0, Event.LoRaMacStart] := by
    rw [h1]
    exact since_append w _ _ rfl
  refine ⟨hw, ?_, ?_, ?_, ?_, ?_⟩
  · rw [hw]
    exact groups_nodup.filter _
  · exact (congrArg World.nvm_flags h1).trans rfl
  · have e2 : [Event.LoRaMacStop LORAMAC_STATUS_OK, Event.mibGet .MIB_NVM_CTXS] ++ ws ++
        [Event.set_nvm_flags 0, Event.LoRaMacStart] =
        ([Event.LoRaMacStop LORAMAC_STATUS_OK, Event.mibGet .MIB_NVM_CTXS] ++ ws ++
          [Event.set_nvm_flags 0]) ++ [Event.LoRaMacStart] := by simp
    rw [hs, e2, List.getLast?_concat]
  · intro s hmem
    rw [hs] at hmem
    simp only [List.mem_append, List.mem_cons, List.mem_singleton, List.not_mem_nil,
      or_false, false_or] at hmem
    rcases hmem with (h | h) | h
    · rcases h with h | h <;> cases h
    · obtain ⟨g, r, hg⟩ := h2 _ h
      cases hg
    · rcases h with h | h <;> cases h
  · rw [h1]

/-- Witness of C13 (amended): the crypto and class B flags are set and every
write fails. -/
theorem save_pass_ignores_write_failures_witness :
    writtenGroups
      (World.since { World.start with nvm_flags := 0x41 }
        (save_state { refEnv 0 with part_write := fun _ _ => false }
          { World.start with nvm_flags := 0x41 })) = [Group.crypto, Group.classb] ∧
    (save_state { refEnv 0 with part_write := fun _ _ => false }
      { World.start with nvm_flags := 0x41 }).nvm_flags = 0 := by
  have h := save_pass_ignores_write_failures (refEnv 0) { World.start with nvm_flags := 0x41 }
    (fun _ _ => false) (by decide) rfl
  exact ⟨h.1, h.2.2.1⟩

/-- C14: in every save pass that writes anything, what `save_state` does is,
in this order: the engine stop, which succeeded, the query of the live state,
the group writes, the clearing of the mask, and the restart of the engine.  So
no `part_write` comes before the stop or after the restart, the mask is
cleared before the restart, and the restart is issued exactly once. -/
theorem save_pass_order (e : Env) (w : World)
    (hw : ∃ g r, Event.part_write g r ∈ w.since (save_state e w)) :
    ∃ ws : List Event,
      w.since (save_state e w) =
        [Event.LoRaMacStop LORAMAC_STATUS_OK, Event.mibGet .MIB_NVM_CTXS] ++ ws ++
          [Event.set_nvm_flags 0, Event.LoRaMacStart] ∧
      (∀ ev ∈ ws, ∃ g r, ev = Event.part_write g r) := by
  obtain ⟨g, r, hmem⟩ := hw
  by_cases hm : w.nvm_flags = 0
  · rw [save_state_empty e w hm, since_append w w [] (by simp)] at hmem
    cases hmem
  · by_cases hstop : e.LoRaMacStop w.trace = LORAMAC_STATUS_OK
    · obtain ⟨ws, h1, h2, _⟩ := save_state_ok e w hm hstop
      refine ⟨ws, ?_, h2⟩
      rw [h1]
      exact since_append w _ _ rfl
    · rw [save_state_stop_failed e w hm hstop,
        since_append w _ [Event.LoRaMacStop (e.LoRaMacStop w.trace)] rfl] at hmem
      simp at hmem

/-- Witness of C14: a save pass with the flags of the two MAC groups. -/
theorem save_pass_order_witness :
    ∃ ws : List Event,
      World.since { World.start with nvm_flags := 6 }
        (save_state (refEnv 0) { World.start with nvm_flags := 6 }) =
        [Event.LoRaMacStop LORAMAC_STATUS_OK, Event.mibGet .MIB_NVM_CTXS] ++ ws ++
          [Event.set_nvm_flags 0, Event.LoRaMacStart] ∧
      (∀ ev ∈ ws, ∃ g r, ev = Event.part_write g r) :=
  save_pass_order (refEnv 0) { World.start with nvm_flags := 6 }
    ⟨Group.mac1, true, by decide⟩

theorem restoreGroup_eq (e : Env) (g : Group) (w : World) :
    restoreGroup e g w = { w with trace := w.trace ++ restoredEvents e g } := by
  unfold restoreGroup restoredEvents
  split
  · simp
  · split
    · rfl
    · simp

theorem mem_restoredEvents (e : Env) (g g1 : Group) (blob : List Nat) :
    Event.memcpy g blob ∈ restoredEvents e g1 ↔
      (g1 = g ∧ e.part_mmap g = some blob ∧
        e.Crc32 (blob.take (blob.length - 4)) =
          load32 e.littleEndian (blob.drop (blob.length - 4))) := by
  unfold restoredEvents
  constructor
  · intro h
    split at h
    · cases h
    · rename_i b hb
      split at h
      · rename_i hc
        simp only [List.mem_singleton, Event.memcpy.injEq] at h
        obtain ⟨hg, hbl⟩ := h
        subst hg
        subst hbl
        exact ⟨rfl, hb, hc⟩
      · cases h
  · rintro ⟨hg, hb, hc⟩
    subst hg
    rw [hb]
    simp only
    rw [if_pos hc]
    exact List.mem_singleton.mpr rfl

theorem restore_state_eq (e : Env) (w : World) :
    restore_state e w =
      { w with trace := w.trace ++
          (Event.mibGet .MIB_NVM_CTXS ::
            (restoredEvents e .crypto ++ restoredEvents e .mac1 ++ restoredEvents e .mac2 ++
              restoredEvents e .se ++ restoredEvents e .region1 ++ restoredEvents e .region2 ++
              restoredEvents e .classb)) } := by
  unfold restore_state
  simp only [restoreGroup_eq, lrw_get_state, World.emit]
  simp

/-- C15: `restore_state` asks the engine for its live state and then, for
each of the seven groups, copies the stored blob into the live state if and
only if the partition is mapped and the CRC32 of its first size-4 bytes equals
the 32-bit value stored in its last 4 bytes; the condition for a group only
involves that group.  It does nothing else, so a group that is not copied
keeps the state the engine gave it. -/
theorem restore_state_groups (e : Env) (w : World)
    (hsize : ∀ g blob, e.part_mmap g = some blob → 4 ≤ blob.length) :
    (∀ g blob, Event.memcpy g blob ∈ w.since (restore_state e w) ↔
      (e.part_mmap g = some blob ∧
        e.Crc32 (blob.take (blob.length - 4)) =
          load32 e.littleEndian (blob.drop (blob.length - 4)))) ∧
    (∀ g blob, e.part_mmap g = some blob →
      (blob.take (blob.length - 4)).length + 4 = blob.length ∧
      (blob.drop (blob.length - 4)).length = 4) ∧
    (∀ ev ∈ w.since (restore_state e w),
      ev = Event.mibGet .MIB_NVM_CTXS ∨ ∃ g blob, ev = Event.memcpy g blob) ∧
    restore_state e w = { w with trace := (restore_state e w).trace } := by
  have hs := since_append w (restore_state e w) _ (congrArg World.trace (restore_state_eq e w))
  refine ⟨?_, ?_, ?_, ?_⟩
  · intro g blob
    rw [hs]
    simp only [List.mem_cons, List.mem_append, mem_restoredEvents, reduceCtorEq, false_or]
    constructor
    · intro h
      rcases h with (((((h | h) | h) | h) | h) | h) | h <;> exact h.2
    · intro h
      cases g
      · exact Or.inl (Or.inl (Or.inl (Or.inl (Or.inl (Or.inl ⟨rfl, h⟩)))))
      · exact Or.inl (Or.inl (Or.inl (Or.inl (Or.inl (Or.inr ⟨rfl, h⟩)))))
      · exact Or.inl (Or.inl (Or.inl (Or.inl (Or.inr ⟨rfl, h⟩))))
      · exact Or.inl (Or.inl (Or.inl (Or.inr ⟨rfl, h⟩)))
      · exact Or.inl (Or.inl (Or.inr ⟨rfl, h⟩))
      · exact Or.inl (Or.inr ⟨rfl, h⟩)
      · exact Or.inr ⟨rfl, h⟩
  · intro g blob hb
    have h4 := hsize g blob hb
    simp only [List.length_take, List.length_drop]
    omega
  · intro ev hev
    rw [hs] at hev
    have hre : ∀ g1, ev ∈ restoredEvents e g1 → ∃ g blob, ev = Event.memcpy g blob := by
      intro g1 h
      unfold restoredEvents at h
      split at h
      · cases h
      · split at h
        · exact ⟨g1, _, List.mem_singleton.mp h⟩
        · cases h
    simp only [List.mem_cons, List.mem_append] at hev
    rcases hev with h | (((((h | h) | h) | h) | h) | h) | h
    · exact Or.inl h
    all_goals exact Or.inr (hre _ h)
  · rw [restore_state_eq]

/-- Witness of C15: the partition of the first MAC group holds the bytes 1, 2
and their CRC32 `0xB6CC4292`, the partition of the secure element holds five
bytes with a wrong checksum, and no other partition is mapped. -/
theorem restore_state_groups_witness :
    World.since World.start
      (restore_state
        { refEnv 0 with part_mmap := fun g =>
            if g = .mac1 then some [1, 2, 0x92, 0x42, 0xCC, 0xB6]
            else if g = .se then some [1, 2, 3, 4, 5] else none }
        World.start) =
      [Event.mibGet .MIB_NVM_CTXS, Event.memcpy .mac1 [1, 2, 0x92, 0x42, 0xCC, 0xB6]] ∧
    Event.memcpy .mac1 [1, 2, 0x92, 0x42, 0xCC, 0xB6] ∈
      World.since World.start
        (restore_state
          { refEnv 0 with part_mmap := fun g =>
              if g = .mac1 then some [1, 2, 0x92, 0x42, 0xCC, 0xB6]
              else if g = .se then some [1, 2, 3, 4, 5] else none }
          World.start) :=
  ⟨by decide,
   ((restore_state_groups
      { refEnv 0 with part_mmap := fun g =>
          if g = .mac1 then some [1, 2, 0x92, 0x42, 0xCC, 0xB6]
          else if g = .se then some [1, 2, 3, 4, 5] else none }
      World.start
      (by
        intro g blob h
        cases g <;> simp at h <;> subst h <;> decide)).1 .mac1 _).mpr
    ⟨rfl, by decide⟩⟩

/-! ## Callbacks of the engine -/

/-- C17: `mcps_confirm` does not look at the outcome in the confirmation.  For
every confirmation, also one with `AckReceived` false, it stores the
confirmation in `tx_params` and prints `+ACK`; it never prints `+NOACK`. -/
theorem mcps_confirm_always_ack (param : McpsConfirm_t) (w : World) :
    mcps_confirm param w =
      { w with tx_params := param, trace := w.trace ++ [Event.print "+ACK\r\n\r\n"] } ∧
    Event.print "+NOACK\r\n\r\n" ∉ w.since (mcps_confirm param w) ∧
    mcps_confirm { param with AckReceived := false } w =
      { w with tx_params := { param with AckReceived := false },
               trace := w.trace ++ [Event.print "+ACK\r\n\r\n"] } := by
  refine ⟨rfl, ?_, rfl⟩
  rw [since_append w (mcps_confirm param w) [Event.print "+ACK\r\n\r\n"] rfl]
  decide

/-- C18: `mcps_indication` prints the line `+RECV=<port>,<length>` followed by
the first `<length>` bytes of the buffer of the indication if and only if the
status of the indication is OK and it carries downlink data; in every other
case it prints nothing.  When the buffer holds at least `<length>` bytes,
exactly `<length>` bytes are written. -/
theorem mcps_indication_recv (param : McpsIndication_t) (w : World) :
    (mcps_indication param w).trace =
      w.trace ++
        (if param.Status = LORAMAC_EVENT_INFO_STATUS_OK ∧ param.RxData = true then
          [Event.print ("+RECV=" ++ toString param.Port ++ "," ++
             toString param.BufferSize ++ "\r\n\r\n"),
           Event.write (param.Buffer.take param.BufferSize)]
         else []) ∧
    (param.BufferSize ≤ param.Buffer.length →
      (param.Buffer.take param.BufferSize).length = param.BufferSize) := by
  constructor
  · unfold mcps_indication
    simp only
    by_cases hst : param.Status = LORAMAC_EVENT_INFO_STATUS_OK
    · rw [if_neg (by simpa using hst)]
      by_cases hrx : param.RxData = true
      · rw [if_pos hrx, if_pos ⟨hst, hrx⟩]
        simp [recv, atci_print, World.emit]
      · rw [if_neg hrx, if_neg (fun h => hrx h.2)]
        simp
    · rw [if_pos (by simpa using hst), if_neg (fun h => hst h.1)]
      simp
  · intro h
    rw [List.length_take]
    omega

/-- Witness of C18: a downlink of three bytes on port 7, and an indication
without data. -/
theorem mcps_indication_recv_witness :
    (mcps_indication ⟨0, 7, [1, 2, 3], 3, true, 5, -80, 7, 12, 1, false⟩ World.start).trace =
      [Event.print "+RECV=7,3\r\n\r\n", Event.write [1, 2, 3]] ∧
    (mcps_indication ⟨0, 7, [], 0, false, 5, -80, 7, 12, 1, false⟩ World.start).trace = [] ∧
    ([1, 2, 3].take 3).length = 3 :=
  ⟨(mcps_indication_recv ⟨0, 7, [1, 2, 3], 3, true, 5, -80, 7, 12, 1, false⟩ World.start).1,
   (mcps_indication_recv ⟨0, 7, [], 0, false, 5, -80, 7, 12, 1, false⟩ World.start).1,
   (mcps_indication_recv ⟨0, 7, [1, 2, 3], 3, true, 5, -80, 7, 12, 1, false⟩ World.start).2
     (by decide)⟩

/-! ## Region and radio parameters -/

theorem setRequest_trace (e : Env) (r : MibRequestConfirm_t) (k : World → World)
    (hk : ∀ w1 : World, ∃ xs, (k w1).trace = w1.trace ++ xs) (w : World) :
    ∃ xs, (setRequest e r k w).trace = w.trace ++ Event.mibSet r :: xs := by
  unfold setRequest abort_on_error
  simp only
  split
  · exact ⟨[Event.print _], List.append_assoc _ _ _⟩
  · obtain ⟨xs, h⟩ := hk (w.emit (.mibSet r))
    exact ⟨xs, by rw [h]; simp [World.emit]⟩

theorem setRequest_appends (e : Env) (r : MibRequestConfirm_t) (k : World → World)
    (hk : ∀ w1 : World, ∃ xs, (k w1).trace = w1.trace ++ xs) (w : World) :
    ∃ xs, (setRequest e r k w).trace = w.trace ++ xs := by
  obtain ⟨xs, h⟩ := setRequest_trace e r k hk w
  exact ⟨_, h⟩

theorem OK__appends (w : World) : ∃ xs, (OK_ w).trace = w.trace ++ xs :=
  ⟨_, rfl⟩

theorem setRequest_since (e : Env) (r : MibRequestConfirm_t) (k : World → World)
    (hk : ∀ w1 : World, ∃ xs, (k w1).trace = w1.trace ++ xs) (w : World) :
    ∃ r1 xs, w.since (setRequest e r k w) = Event.mibSet r1 :: xs := by
  obtain ⟨xs, h⟩ := setRequest_trace e r k hk w
  exact ⟨r, xs, since_append w _ _ h⟩

/-- C16, as the claim states it, fails: when `lrw_set_region` returns -1, the
handler replies `+OK`, yet it emits no event and leaves `schedule_reset` as it
was. -/
theorem set_band_negative_counterexample :
    set_band { refEnv 0 with lrw_set_region := fun _ _ => -1 } (mkParam "5") World.start =
      { World.start with
        trace := [Event.lrw_set_region 5, Event.print "+OK\r\n\r\n"] } ∧
    (set_band { refEnv 0 with lrw_set_region := fun _ _ => -1 } (mkParam "5")
      World.start).schedule_reset = false := by
  decide

/-- C16 (amended): when `lrw_set_region` returns 0, `set_band` replies `+OK`,
emits the module-reset event, flushes and sets `schedule_reset`.  When the
handler replies `+ERR`, because the argument cannot be read or because
`lrw_set_region` returns a positive status, it emits no event and leaves
`schedule_reset` unchanged.  When `lrw_set_region` returns a negative value,
the handler replies `+OK` and neither emits the event nor sets
`schedule_reset`. -/
theorem set_band_outcomes (e : Env) (param : atci_param_t) (w : World) :
    ((e.atci_param_get_uint param).ret = true →
      e.lrw_set_region w.trace (e.atci_param_get_uint param).value = 0 →
      set_band e param w =
        { w with
          schedule_reset := true
          trace := w.trace ++
            [Event.lrw_set_region (e.atci_param_get_uint param).value,
             Event.print "+OK\r\n\r\n",
             Event.print ("+EVENT=" ++ toString e.CMD_EVENT_MODULE ++ "," ++
               toString e.CMD_MODULE_FACNEW ++ "\r\n\r\n"),
             Event.flush] }) ∧
    ((e.atci_param_get_uint param).ret = false →
      set_band e param w =
        { w with trace := w.trace ++ [Event.print "+ERR=-3\r\n\r\n"] }) ∧
    ((e.atci_param_get_uint param).ret = true →
      0 < e.lrw_set_region w.trace (e.atci_param_get_uint param).value →
      status2error e.status
        (e.lrw_set_region w.trace (e.atci_param_get_uint param).value) < 0 ∧
      set_band e param w =
        { w with trace := w.trace ++
            [Event.lrw_set_region (e.atci_param_get_uint param).value,
             Event.print ("+ERR=" ++ toString (status2error e.status
               (e.lrw_set_region w.trace (e.atci_param_get_uint param).value)) ++
               "\r\n\r\n")] }) ∧
    ((e.atci_param_get_uint param).ret = true →
      e.lrw_set_region w.trace (e.atci_param_get_uint param).value < 0 →
      set_band e param w =
        { w with trace := w.trace ++
            [Event.lrw_set_region (e.atci_param_get_uint param).value,
             Event.print "+OK\r\n\r\n"] }) := by
  refine ⟨?_, ?_, ?_, ?_⟩
  · intro hret hrv
    unfold set_band
    simp only
    rw [if_neg (by simp [hret]), hrv, abort_on_error_ok]
    simp [OK_, cmd_event, atci_print, World.emit]
  · intro hret
    unfold set_band
    simp only
    rw [if_pos hret]
    rfl
  · intro hret hrv
    have hneg := status2error_neg_of_pos e.status _ hrv
    refine ⟨hneg, ?_⟩
    unfold set_band abort_on_error
    simp only
    rw [if_neg (by simp [hret]), if_pos hneg]
    simp [abort, atci_print, World.emit]
  · intro hret hrv
    have hs : status2error e.status
        (e.lrw_set_region w.trace (e.atci_param_get_uint param).value) =
        -(e.lrw_set_region w.trace (e.atci_param_get_uint param).value) := by
      unfold status2error
      rw [if_pos (by omega)]
    unfold set_band abort_on_error
    simp only
    rw [if_neg (by simp [hret]), hs, if_neg (by omega), if_neg (by omega)]
    simp [OK_, atci_print, World.emit]

/-- Witness of C16 (amended): `+BAND=5` with a region change, with the region
refused (status 9) and with an argument that is not a number. -/
theorem set_band_outcomes_witness :
    set_band (refEnv 0) (mkParam "5") World.start =
      { World.start with
        schedule_reset := true
        trace := [Event.lrw_set_region 5, Event.print "+OK\r\n\r\n",
                  Event.print "+EVENT=0,1\r\n\r\n", Event.flush] } ∧
    set_band { refEnv 0 with lrw_set_region := fun _ _ => 9 } (mkParam "5") World.start =
      { World.start with
        trace := [Event.lrw_set_region 5, Event.print "+ERR=-15\r\n\r\n"] } ∧
    set_band (refEnv 0) (mkParam "x") World.start =
      { World.start with trace := [Event.print "+ERR=-3\r\n\r\n"] } :=
  ⟨(set_band_outcomes (refEnv 0) (mkParam "5") World.start).1 (by decide) (by decide),
   ((set_band_outcomes { refEnv 0 with lrw_set_region := fun _ _ => 9 } (mkParam "5")
      World.start).2.2.1 (by decide) (by decide)).2,
   (set_band_outcomes (refEnv 0) (mkParam "x") World.start).2.1 (by decide)⟩

/-- C19: when `set_dr_comp` has read the leading decimal value v of its
argument (`5` of `5,5`): for v at most 15 and an engine that accepts the
writes, the default data rate and then the current data rate are set to v and
the reply is `+OK`; for v above 15 the reply is `+ERR=-3` and nothing else
happens, so no engine write is issued. -/
theorem set_dr_comp_legacy (e : Env) (param : atci_param_t) (w : World)
    (hret : (e.atci_param_get_uint param).ret = true) :
    ((e.atci_param_get_uint param).value ≤ 15 →
      (∀ t r, e.LoRaMacMibSetRequestConfirm t r = LORAMAC_STATUS_OK) →
      set_dr_comp e param w =
        { w with trace := w.trace ++
            [Event.mibSet ⟨.MIB_CHANNELS_DEFAULT_DATARATE,
              .scalar (e.atci_param_get_uint param).value⟩,
             Event.mibSet ⟨.MIB_CHANNELS_DATARATE,
              .scalar (e.atci_param_get_uint param).value⟩,
             Event.print "+OK\r\n\r\n"] }) ∧
    (15 < (e.atci_param_get_uint param).value →
      set_dr_comp e param w =
        { w with trace := w.trace ++ [Event.print "+ERR=-3\r\n\r\n"] }) := by
  constructor
  · intro hle hset
    unfold set_dr_comp
    simp only
    rw [if_neg (by simp [hret]), if_neg (by omega), setRequest_ok e _ _ _ (hset _ _),
      setRequest_ok e _ _ _ (hset _ _), OK__eq]
    simp [World.emit]
  · intro hgt
    unfold set_dr_comp
    simp only
    rw [if_neg (by simp [hret]), if_pos hgt]
    rfl

/-- Witness of C19: `+DR=5,5` and `+DR=16,5`. -/
theorem set_dr_comp_legacy_witness :
    set_dr_comp (refEnv 0) (mkParam "5,5") World.start =
      { World.start with trace :=
          [Event.mibSet ⟨.MIB_CHANNELS_DEFAULT_DATARATE, .scalar 5⟩,
           Event.mibSet ⟨.MIB_CHANNELS_DATARATE, .scalar 5⟩,
           Event.print "+OK\r\n\r\n"] } ∧
    set_dr_comp (refEnv 0) (mkParam "16,5") World.start =
      { World.start with trace := [Event.print "+ERR=-3\r\n\r\n"] } :=
  ⟨(set_dr_comp_legacy (refEnv 0) (mkParam "5,5") World.start (by decide)).1 (by decide)
      (fun _ _ => rfl),
   (set_dr_comp_legacy (refEnv 0) (mkParam "16,5") World.start (by decide)).2 (by decide)⟩

theorem checked_ret (w : World) (b v : Bool) (B : World)
    (h : b = true → Checked w v B) :
    Checked w (b && v) (if b = false then abort ERR_PARAM w else B) := by
  cases b
  · exact ⟨fun _ => rfl, fun h1 => by simp at h1⟩
  · exact h rfl

theorem checked_le (w : World) (n k : Nat) (v : Bool) (B : World)
    (h : n ≤ k → Checked w v B) :
    Checked w (decide (n ≤ k) && v) (if n > k then abort ERR_PARAM w else B) := by
  by_cases hn : n ≤ k
  · rw [if_neg (by omega), decide_eq_true hn]
    exact h hn
  · rw [if_pos (by omega), decide_eq_false hn]
    exact ⟨fun _ => rfl, fun h1 => by simp at h1⟩

theorem checked_eq (w : World) (x y : Nat) (v : Bool) (B : World)
    (h : x = y → Checked w v B) :
    Checked w (decide (x = y) && v) (if x ≠ y then abort ERR_PARAM w else B) := by
  by_cases hn : x = y
  · rw [if_neg (by simpa using hn), decide_eq_true hn]
    exact h hn
  · rw [if_pos hn, decide_eq_false hn]
    exact ⟨fun _ => rfl, fun h1 => by simp at h1⟩

theorem checked_true (w : World) (B : World)
    (h : ∃ r xs, w.since B = Event.mibSet r :: xs) : Checked w true B :=
  ⟨fun h1 => by simp at h1, fun _ => h⟩

theorem checked_ret_end (w : World) (b : Bool) (B : World)
    (h : b = true → ∃ r xs, w.since B = Event.mibSet r :: xs) :
    Checked w b (if b = false then abort ERR_PARAM w else B) := by
  have h1 := checked_ret w b true B (fun hb => checked_true w B (h hb))
  rw [Bool.and_true] at h1
  exact h1

theorem checked_le_end (w : World) (n k : Nat) (B : World)
    (h : n ≤ k → ∃ r xs, w.since B = Event.mibSet r :: xs) :
    Checked w (decide (n ≤ k)) (if n > k then abort ERR_PARAM w else B) := by
  have h1 := checked_le w n k true B (fun hb => checked_true w B (h hb))
  rw [Bool.and_true] at h1
  exact h1

theorem checked_eq_end (w : World) (x y : Nat) (B : World)
    (h : x = y → ∃ r xs, w.since B = Event.mibSet r :: xs) :
    Checked w (decide (x = y)) (if x ≠ y then abort ERR_PARAM w else B) := by
  have h1 := checked_eq w x y true B (fun hb => checked_true w B (h hb))
  rw [Bool.and_true] at h1
  exact h1

theorem checked_le2_end (w : World) (a b k : Nat) (B : World)
    (h : a ≤ k → b ≤ k → ∃ r xs, w.since B = Event.mibSet r :: xs) :
    Checked w (decide (a ≤ k) && decide (b ≤ k))
      (if a > k ∨ b > k then abort ERR_PARAM w else B) := by
  by_cases ha : a ≤ k
  · by_cases hb : b ≤ k
    · rw [if_neg (by omega), decide_eq_true ha, decide_eq_true hb]
      exact checked_true w B (h ha hb)
    · rw [if_pos (by omega), decide_eq_false hb]
      exact ⟨fun _ => rfl, fun h1 => by simp at h1⟩
  · rw [if_pos (by omega), decide_eq_false ha]
    exact ⟨fun _ => rfl, fun h1 => by simp at h1⟩

theorem set_dr_checks (e : Env) (p : atci_param_t) (w : World) :
    Checked w (set_dr_valid e p w) (set_dr e p w) := by
  unfold set_dr set_dr_valid
  simp only
  apply checked_ret
  intro _
  apply checked_le
  intro _
  apply checked_ret
  intro _
  apply checked_ret
  intro _
  apply checked_le_end
  intro _
  exact setRequest_since e _ _ (setRequest_appends e _ _ OK__appends) w

theorem set_rfpower_checks (e : Env) (p : atci_param_t) (w : World) :
    Checked w (set_rfpower_valid e p w) (set_rfpower e p w) := by
  unfold set_rfpower set_rfpower_valid
  simp only
  apply checked_ret
  intro _
  apply checked_eq
  intro _
  apply checked_ret
  intro _
  apply checked_ret
  intro _
  apply checked_le
  intro _
  apply checked_ret
  intro _
  apply checked_ret
  intro _
  apply checked_eq
  intro _
  apply checked_ret
  intro _
  apply checked_ret
  intro _
  apply checked_le_end
  intro _
  exact setRequest_since e _ _ (setRequest_appends e _ _ OK__appends) w

theorem set_rx2_checks (e : Env) (p : atci_param_t) (w : World) :
    Checked w (set_rx2_valid e p w) (set_rx2 e p w) := by
  unfold set_rx2 set_rx2_valid
  simp only
  apply checked_ret
  intro _
  apply checked_ret
  intro _
  apply checked_ret
  intro _
  apply checked_ret
  intro _
  apply checked_ret
  intro _
  apply checked_ret
  intro _
  apply checked_ret
  intro _
  apply checked_le2_end
  intro _ _
  exact setRequest_since e _ _ (setRequest_appends e _ _ OK__appends) w

theorem set_chmask_checks (e : Env) (p : atci_param_t) (w : World) :
    Checked w (set_chmask_valid e p w) (set_chmask e p w) := by
  unfold set_chmask set_chmask_valid
  simp only
  apply checked_eq
  intro _
  apply checked_ret
  intro _
  apply checked_eq_end
  intro _
  exact setRequest_since e _ _ (setRequest_appends e _ _ OK__appends) w

theorem set_delay_checks (e : Env) (p : atci_param_t) (w : World) :
    Checked w (set_delay_valid e p w) (set_delay e p w) := by
  unfold set_delay set_delay_valid
  simp only
  apply checked_ret
  intro _
  apply checked_ret
  intro _
  apply checked_ret
  intro _
  apply checked_ret
  intro _
  apply checked_ret
  intro _
  apply checked_ret
  intro _
  apply checked_ret_end
  intro _
  exact setRequest_since e _ _ (setRequest_appends e _ _ (setRequest_appends e _ _ (setRequest_appends e _ _ OK__appends))) w

/-- C20: for each of `set_dr`, `set_rfpower`, `set_rx2`, `set_chmask` and
`set_delay`, every field is read and checked before the first engine write:
when any field is missing, not followed by its comma, or out of range (data
rate or power above 15, PA boost not 0, mask of the wrong length), the handler
replies `+ERR=-3` and does nothing else, so no engine set request is issued;
and when all fields are well formed, the first thing the handler does is an
engine set request. -/
theorem multi_field_setters_validate_first (e : Env) (param : atci_param_t) (w : World)
    (s : (Env → atci_param_t → World → World) × (Env → atci_param_t → World → Bool))
    (hs : s ∈ multiFieldSetters) :
    (s.2 e param w = false →
      s.1 e param w = { w with trace := w.trace ++ [Event.print "+ERR=-3\r\n\r\n"] }) ∧
    (s.2 e param w = true → ∃ r xs, w.since (s.1 e param w) = Event.mibSet r :: xs) := by
  simp only [multiFieldSetters, List.mem_cons, List.mem_singleton, List.not_mem_nil,
    or_false] at hs
  rcases hs with h | h | h | h | h <;> subst h
  · exact set_dr_checks e param w
  · exact set_rfpower_checks e param w
  · exact set_rx2_checks e param w
  · exact set_chmask_checks e param w
  · exact set_delay_checks e param w

/-- Witness of C20: `$DR=5,16` has a data rate above 15, `$RFPOWER=0,5,0,7` is
well formed. -/
theorem multi_field_setters_validate_first_witness :
    set_dr (refEnv 0) (mkParam "5,16") World.start =
      { World.start with trace := [Event.print "+ERR=-3\r\n\r\n"] } ∧
    ∃ r xs, World.since World.start (set_rfpower (refEnv 0) (mkParam "0,5,0,7") World.start) =
      Event.mibSet r :: xs :=
  ⟨(multi_field_setters_validate_first (refEnv 0) (mkParam "5,16") World.start
      (set_dr, set_dr_valid) (List.Mem.head _)).1 (by decide),
   (multi_field_setters_validate_first (refEnv 0) (mkParam "0,5,0,7") World.start
      (set_rfpower, set_rfpower_valid) (List.Mem.tail _ (List.Mem.head _))).2 (by decide)⟩


/-! ## Activation mode, factory reset and the default port -/

theorem OK_trace (s : String) (w : World) :
    (OK s w).trace = w.trace ++ [Event.print ("+OK=" ++ s), Event.print "\r\n\n"] := by
  simp [OK, EOL, atci_print, World.emit]

/-- C24: `lrw_set_mode(m)` stores `m`, so that `lrw_get_mode` returns `m`
afterwards.  For `m = 0` it activates: the one thing that happens is a join
request of ABP activation type.  For every other `m`, 1 among them, nothing
happens besides the store.  `set_mode` answers a value above 1 with `+ERR=-3`
and does nothing else, so the mode stays as it was. -/
theorem activation_mode (e : Env) (m : Nat) (param : atci_param_t) (w : World) :
    lrw_get_mode (lrw_set_mode e m w) = m ∧
    (m = 0 → w.since (lrw_set_mode e m w) =
      [Event.mlmeRequest ⟨.MLME_JOIN, DR_0, .ACTIVATION_TYPE_ABP⟩]) ∧
    (m ≠ 0 → lrw_set_mode e m w = { w with config_mode := m }) ∧
    ((e.atci_param_get_uint param).value > 1 →
      set_mode e param w = { w with trace := w.trace ++ [Event.print "+ERR=-3\r\n\r\n"] } ∧
      lrw_get_mode (set_mode e param w) = lrw_get_mode w) := by
  refine ⟨?_, ?_, ?_, ?_⟩
  · by_cases hm : m = 0
    · subst hm
      simp only [lrw_set_mode, lrw_activate, lrw_get_mode]
      simp only [if_true, Nat.zero_ne_one, if_false]
      split_ifs <;> rfl
    · simp only [lrw_set_mode, lrw_get_mode, if_neg hm]
  · intro hm
    subst hm
    simp only [lrw_set_mode, lrw_activate]
    simp only [if_true, Nat.zero_ne_one, if_false]
    split_ifs <;> exact since_append w _ _ rfl
  · intro hm
    simp only [lrw_set_mode, if_neg hm]
  · intro hv
    have h : set_mode e param w = abort ERR_PARAM w := by
      unfold set_mode
      simp only
      split_ifs
      · rfl
      · rfl
    rw [h]
    exact ⟨abort_param w, rfl⟩

/-- Witness of C24: `+MODE=2` with the mode at 1. -/
theorem activation_mode_witness :
    set_mode (refEnv 0) (mkParam "2") World.start =
      { World.start with trace := [Event.print "+ERR=-3\r\n\r\n"] } ∧
    lrw_get_mode (set_mode (refEnv 0) (mkParam "2") World.start) = 1 ∧
    World.start.since (lrw_set_mode (refEnv 0) 0 World.start) =
      [Event.mlmeRequest ⟨.MLME_JOIN, DR_0, .ACTIVATION_TYPE_ABP⟩] :=
  ⟨((activation_mode (refEnv 0) 0 (mkParam "2") World.start).2.2.2 (by decide)).1,
   ((activation_mode (refEnv 0) 0 (mkParam "2") World.start).2.2.2 (by decide)).2,
   (activation_mode (refEnv 0) 0 (mkParam "2") World.start).2.1 rfl⟩

/-- C25, as the claim states it, fails: the engine stops, the erase fails
(`nvm_erase` returns -1); `facnew` has replied `+OK`, and it neither emits the
event nor schedules a reset. -/
theorem facnew_erase_failed_counterexample :
    World.start.since (facnew { refEnv 0 with nvm_erase := fun _ => -1 } World.start) =
      [Event.LoRaMacStop 0, Event.print "+OK\r\n\r\n", Event.nvm_erase (-1)] ∧
    (facnew { refEnv 0 with nvm_erase := fun _ => -1 } World.start).schedule_reset = false := by
  decide

/-- C25 (amended): when stopping the engine fails, `facnew` replies `+ERR=-4`
and does nothing else: no erase, no event, `schedule_reset` as before.  When
stopping succeeds it replies `+OK` and then calls `nvm_erase`; when that
returns 0 it emits the module event with the factory-reset subtype, sets
`schedule_reset` and flushes; when that returns anything else it does nothing
more. -/
theorem facnew_outcomes (e : Env) (w : World) :
    (e.LoRaMacStop w.trace ≠ LORAMAC_STATUS_OK →
      facnew e w = { w with trace := w.trace ++
        [Event.LoRaMacStop (e.LoRaMacStop w.trace), Event.print "+ERR=-4\r\n\r\n"] }) ∧
    (e.LoRaMacStop w.trace = LORAMAC_STATUS_OK →
      e.nvm_erase (w.trace ++ [Event.LoRaMacStop 0, Event.print "+OK\r\n\r\n"]) = 0 →
      facnew e w = { w with
        schedule_reset := true
        trace := w.trace ++
          [Event.LoRaMacStop 0, Event.print "+OK\r\n\r\n", Event.nvm_erase 0,
           Event.print ("+EVENT=" ++ toString e.CMD_EVENT_MODULE ++ "," ++
             toString e.CMD_MODULE_FACNEW ++ "\r\n\r\n"),
           Event.flush] }) ∧
    (e.LoRaMacStop w.trace = LORAMAC_STATUS_OK →
      e.nvm_erase (w.trace ++ [Event.LoRaMacStop 0, Event.print "+OK\r\n\r\n"]) ≠ 0 →
      facnew e w = { w with trace := w.trace ++
        [Event.LoRaMacStop 0, Event.print "+OK\r\n\r\n",
         Event.nvm_erase
           (e.nvm_erase (w.trace ++ [Event.LoRaMacStop 0, Event.print "+OK\r\n\r\n"]))] }) := by
  refine ⟨?_, ?_, ?_⟩
  · intro hs
    unfold facnew
    simp only
    rw [if_pos hs]
    simp [abort, atci_print, World.emit, ERR_FACNEW_FAILED]
    rfl
  · intro hs he
    have he2 : e.nvm_erase (OK_ (w.emit (.LoRaMacStop (e.LoRaMacStop w.trace)))).trace = 0 := by
      rw [hs]
      simpa [OK_, atci_print, World.emit, LORAMAC_STATUS_OK] using he
    unfold facnew
    simp only
    rw [if_neg (not_not.mpr hs), if_pos he2, he2, hs]
    simp [OK_, cmd_event, atci_print, World.emit, LORAMAC_STATUS_OK]
  · intro hs he
    have he2 : e.nvm_erase (OK_ (w.emit (.LoRaMacStop (e.LoRaMacStop w.trace)))).trace =
        e.nvm_erase (w.trace ++ [Event.LoRaMacStop 0, Event.print "+OK\r\n\r\n"]) := by
      rw [hs]
      simp [OK_, atci_print, World.emit, LORAMAC_STATUS_OK]
    unfold facnew
    simp only
    rw [if_neg (not_not.mpr hs), he2, if_neg he, hs]
    simp [OK_, atci_print, World.emit, LORAMAC_STATUS_OK]

/-- Witness of C25 (amended): the engine cannot be stopped (status 1); the
engine stops and the erase succeeds. -/
theorem facnew_outcomes_witness :
    facnew { refEnv 0 with LoRaMacStop := fun _ => 1 } World.start =
      { World.start with trace := [Event.LoRaMacStop 1, Event.print "+ERR=-4\r\n\r\n"] } ∧
    facnew (refEnv 0) World.start =
      { World.start with
        schedule_reset := true
        trace := [Event.LoRaMacStop 0, Event.print "+OK\r\n\r\n", Event.nvm_erase 0,
          Event.print "+EVENT=0,1\r\n\r\n", Event.flush] } :=
  ⟨(facnew_outcomes { refEnv 0 with LoRaMacStop := fun _ => 1 } World.start).1 (by decide),
   (facnew_outcomes (refEnv 0) World.start).2.1 rfl rfl⟩

/-- C26: when the argument of `+PORT=` reads as a number `p` from 1 to 223,
`set_port` replies `+OK`, stores `p` as the default port and marks the system
configuration as modified, and `get_port` after it replies `+OK=p`; when the
argument does not read as a number, or as one below 1 or above 223, `set_port`
replies `+ERR=-3` and changes nothing else, the default port included. -/
theorem port_roundtrip (e : Env) (param : atci_param_t) (w : World) :
    ((e.atci_param_get_uint param).ret = true →
      1 ≤ (e.atci_param_get_uint param).value → (e.atci_param_get_uint param).value ≤ 223 →
      set_port e param w =
        { w with
          sysconf := { w.sysconf with default_port := (e.atci_param_get_uint param).value }
          sysconf_modified := true
          trace := w.trace ++ [Event.print "+OK\r\n\r\n"] } ∧
      (set_port e param w).since (get_port (set_port e param w)) =
        [Event.print ("+OK=" ++ toString (e.atci_param_get_uint param).value),
         Event.print "\r\n\n"]) ∧
    (((e.atci_param_get_uint param).ret = false ∨ (e.atci_param_get_uint param).value < 1 ∨
        223 < (e.atci_param_get_uint param).value) →
      set_port e param w = { w with trace := w.trace ++ [Event.print "+ERR=-3\r\n\r\n"] } ∧
      (set_port e param w).sysconf.default_port = w.sysconf.default_port) := by
  constructor
  · intro hr h1 h2
    have hp : parse_port e param =
        (((e.atci_param_get_uint param).value : Int), (e.atci_param_get_uint param).param) := by
      unfold parse_port
      simp only
      rw [if_neg (by simp [hr]), if_neg (by omega)]
    have hs : set_port e param w =
        { w with
          sysconf := { w.sysconf with default_port := (e.atci_param_get_uint param).value }
          sysconf_modified := true
          trace := w.trace ++ [Event.print "+OK\r\n\r\n"] } := by
      unfold set_port
      simp only
      rw [hp]
      simp only
      rw [if_neg (by omega)]
      simp [OK_, atci_print, World.emit]
    refine ⟨hs, ?_⟩
    rw [hs]
    exact since_append _ _ _ (OK_trace _ _)
  · intro h
    have hp : (parse_port e param).1 = -1 := by
      unfold parse_port
      simp only
      rcases h with h | h | h
      · rw [if_pos h]
      · split_ifs <;> first | rfl | (exfalso; omega)
      · split_ifs <;> first | rfl | (exfalso; omega)
    have hs : set_port e param w = abort ERR_PARAM w := by
      unfold set_port
      simp only
      rw [hp]
      rfl
    rw [hs]
    exact ⟨abort_param w, rfl⟩

/-- Witness of C26: `+PORT=9` and then `+PORT?`; `+PORT=224`. -/
theorem port_roundtrip_witness :
    World.since (set_port (refEnv 0) (mkParam "9") World.start)
        (get_port (set_port (refEnv 0) (mkParam "9") World.start)) =
      [Event.print "+OK=9", Event.print "\r\n\n"] ∧
    set_port (refEnv 0) (mkParam "224") World.start =
      { World.start with trace := [Event.print "+ERR=-3\r\n\r\n"] } :=
  ⟨((port_roundtrip (refEnv 0) (mkParam "9") World.start).1 (by decide) (by decide)
      (by decide)).2,
   ((port_roundtrip (refEnv 0) (mkParam "224") World.start).2
      (Or.inr (Or.inr (by decide)))).1⟩

/-! ## The command table -/

/-- C27: in the command table `cmds` no two of the descriptors that are
written out have the same name, and each of them has a handler in at least one
of the columns for execution, for `=` and for `?`. -/
theorem cmds_unique_and_handled :
    (cmds.map (fun c => c.command)).Nodup ∧
    ∀ c ∈ cmds, c.action.isSome = true ∨ c.set.isSome = true ∨ c.read.isSome = true := by
  decide

/-! ## A save pass with an engine that cannot be stopped -/

/-- C28: when `save_state` finds a mask that is not empty and `LoRaMacStop`
fails, it attempts no write, does not call `LoRaMacStart` and leaves the mask
as it was; a later pass in which the engine stops attempts the writes for the
groups of that same mask. -/
theorem save_pass_stop_failed_retries (e : Env) (w : World) (hm : w.nvm_flags ≠ 0)
    (hstop : e.LoRaMacStop w.trace ≠ LORAMAC_STATUS_OK) :
    writtenGroups (w.since (save_state e w)) = [] ∧
    Event.LoRaMacStart ∉ w.since (save_state e w) ∧
    (save_state e w).nvm_flags = w.nvm_flags ∧
    (e.LoRaMacStop (save_state e w).trace = LORAMAC_STATUS_OK →
      writtenGroups ((save_state e w).since (save_state e (save_state e w))) =
        Group.all.filter (fun g => decide (w.nvm_flags &&& e.nvmFlag g ≠ 0))) := by
  have h := save_state_stop_failed e w hm hstop
  have hs : w.since (save_state e w) = [Event.LoRaMacStop (e.LoRaMacStop w.trace)] := by
    rw [h]
    exact since_append w _ _ rfl
  have hf : (save_state e w).nvm_flags = w.nvm_flags := (congrArg World.nvm_flags h).trans rfl
  refine ⟨?_, ?_, hf, ?_⟩
  · rw [hs]
    rfl
  · rw [hs]
    simp
  · intro hl
    rw [(writtenGroups_save_state e (save_state e w) hl).1, hf]

/-- Witness of C28: the crypto flag is set; the engine refuses to stop in the
first pass and stops in the second. -/
theorem save_pass_stop_failed_retries_witness :
    writtenGroups
      (World.since
        (save_state { refEnv 0 with LoRaMacStop := fun tr => if tr.isEmpty then 1 else 0 }
          { World.start with nvm_flags := 1 })
        (save_state { refEnv 0 with LoRaMacStop := fun tr => if tr.isEmpty then 1 else 0 }
          (save_state { refEnv 0 with LoRaMacStop := fun tr => if tr.isEmpty then 1 else 0 }
            { World.start with nvm_flags := 1 }))) = [Group.crypto] :=
  (save_pass_stop_failed_retries
    { refEnv 0 with LoRaMacStop := fun tr => if tr.isEmpty then 1 else 0 }
    { World.start with nvm_flags := 1 } (by decide) (by decide)).2.2.2 (by decide)


/-! ## Replies of the handlers -/

theorem ite_mem {p : Prop} [Decidable p] {a b : Int} {l : List Int} (ha : a ∈ l)
    (hb : b ∈ l) : (if p then a else b) ∈ l := by
  split <;> assumption

theorem status2error_mem (c : LoRaMacStatus) (s : Int) (h : status2error c s < 0) :
    status2error c s ∈ replyCodes := by
  by_cases hs : s ≤ 0
  · exfalso
    unfold status2error at h
    rw [if_pos hs] at h
    omega
  · unfold status2error
    rw [if_neg hs]
    repeat (first | decide | apply ite_mem)

theorem oneReply_abort (n : Int) (hn : n ∈ replyCodes) :
    OneReply [Event.print ("+ERR=" ++ toString n ++ "\r\n\r\n")] := by
  simp only [replyCodes, List.mem_cons, List.mem_singleton, List.not_mem_nil, or_false] at hn
  unfold OneReply
  rcases hn with h | h | h | h | h | h | h | h | h | h <;> subst h <;> decide

theorem isOkReply_OK (s : String) : isOkReply (.print ("+OK=" ++ s)) = true := by
  simp [isOkReply, String.toList, List.isPrefixOf]

theorem isErrReply_OK (s : String) : isErrReply (.print ("+OK=" ++ s)) = false := by
  simp [isErrReply, String.toList, List.isPrefixOf]

theorem isOkReply_EVENT (s : String) : isOkReply (.print ("+EVENT=" ++ s)) = false := by
  simp [isOkReply, String.toList, List.isPrefixOf]

theorem isErrReply_EVENT (s : String) : isErrReply (.print ("+EVENT=" ++ s)) = false := by
  simp [isErrReply, String.toList, List.isPrefixOf]

theorem neutral_counts (evs : List Event) (hn : Neutral evs) :
    okReplies evs = 0 ∧ errReplies evs = 0 ∧ Event.print "+ERR=-2\r\n\r\n" ∉ evs := by
  refine ⟨?_, ?_, ?_⟩
  · unfold okReplies
    rw [List.countP_eq_zero]
    intro ev hev
    simp [(hn ev hev).1]
  · unfold errReplies
    rw [List.countP_eq_zero]
    intro ev hev
    simp [(hn ev hev).2]
  · intro hmem
    have h := (hn _ hmem).2
    revert h
    decide

theorem oneReply_pre (evs xs : List Event) (hn : Neutral evs) (h : OneReply xs) :
    OneReply (evs ++ xs) := by
  obtain ⟨n1, n2, n3⟩ := neutral_counts evs hn
  unfold OneReply okReplies errReplies at *
  obtain ⟨h1, h2⟩ := h
  refine ⟨?_, ?_⟩
  · rw [List.countP_append, List.countP_append]
    omega
  · rw [List.mem_append]
    exact fun hm => hm.elim n3 h2

theorem oneReply_post (evs xs : List Event) (hn : Neutral evs) (h : OneReply xs) :
    OneReply (xs ++ evs) := by
  obtain ⟨n1, n2, n3⟩ := neutral_counts evs hn
  unfold OneReply okReplies errReplies at *
  obtain ⟨h1, h2⟩ := h
  refine ⟨?_, ?_⟩
  · rw [List.countP_append, List.countP_append]
    omega
  · rw [List.mem_append]
    exact fun hm => hm.elim h2 n3

theorem quiet_refl (w : World) : Quiet w w :=
  ⟨[], (List.append_nil _).symm, fun _ h => absurd h (List.not_mem_nil _)⟩

theorem quiet_emit (w B : World) (ev : Event)
    (hn : isOkReply ev = false ∧ isErrReply ev = false) (h : Quiet w B) :
    Quiet w (B.emit ev) := by
  obtain ⟨evs, h1, h2⟩ := h
  refine ⟨evs ++ [ev], ?_, ?_⟩
  · show B.trace ++ [ev] = _
    rw [h1, List.append_assoc]
  · intro x hx
    rw [List.mem_append, List.mem_singleton] at hx
    rcases hx with hx | hx
    · exact h2 x hx
    · rw [hx]
      exact hn

theorem quiet_state (w B B1 : World) (h1 : B1.trace = B.trace) (h : Quiet w B) :
    Quiet w B1 := by
  obtain ⟨evs, h2, h3⟩ := h
  exact ⟨evs, h1.trans h2, h3⟩

theorem replied_abort (n : Int) (hn : n ∈ replyCodes) (w : World) : Replied w (abort n w) :=
  ⟨_, rfl, oneReply_abort n hn⟩

theorem replied_OK_ (w : World) : Replied w (OK_ w) :=
  ⟨[Event.print "+OK\r\n\r\n"], rfl, by unfold OneReply; decide⟩

theorem replied_OK (s : String) (w : World) : Replied w (OK s w) := by
  refine ⟨_, OK_trace s w, ?_, ?_⟩
  · have h1 := isOkReply_OK s
    have h2 := isErrReply_OK s
    simp [okReplies, errReplies, List.countP_cons, h1, h2]
    decide
  · intro hm
    simp only [List.mem_cons, List.mem_singleton, List.not_mem_nil, or_false] at hm
    rcases hm with hm | hm
    · have h2 := isErrReply_OK s
      rw [← hm] at h2
      revert h2
      decide
    · revert hm
      decide

theorem replied_pre (w B0 B : World) (h0 : Quiet w B0) (h : Replied B0 B) : Replied w B := by
  obtain ⟨xs, hx, h1⟩ := h
  obtain ⟨evs, he, hn⟩ := h0
  exact ⟨evs ++ xs, by rw [hx, he, List.append_assoc], oneReply_pre evs xs hn h1⟩

theorem replied_post (w B B1 : World) (h : Replied w B) (h1 : Quiet B B1) : Replied w B1 := by
  obtain ⟨xs, hx, h2⟩ := h
  obtain ⟨evs, he, hn⟩ := h1
  exact ⟨xs ++ evs, by rw [he, hx, List.append_assoc], oneReply_post evs xs hn h2⟩

theorem replied_ite (w B : World) (c : Prop) [Decidable c] (n : Int) (hn : n ∈ replyCodes)
    (h : ¬ c → Replied w B) : Replied w (if c then abort n w else B) := by
  split
  · exact replied_abort n hn w
  · next hc => exact h hc

theorem replied_abort_on_error (c : LoRaMacStatus) (s : Int) (k : World → World) (w : World)
    (h : Replied w (k w)) : Replied w (abort_on_error c s k w) := by
  unfold abort_on_error
  simp only
  split
  · next hneg => exact replied_abort _ (status2error_mem c s hneg) w
  · exact h

theorem replied_setRequest (e : Env) (r : MibRequestConfirm_t) (k : World → World)
    (w : World) (h : Replied (w.emit (.mibSet r)) (k (w.emit (.mibSet r)))) :
    Replied w (setRequest e r k w) :=
  replied_pre w (w.emit (.mibSet r)) _ (quiet_emit w w _ ⟨rfl, rfl⟩ (quiet_refl w))
    (replied_abort_on_error _ _ _ _ h)

theorem replied_hexSetters (e : Env) (param : atci_param_t) (w : World)
    (s : Nat × (Env → atci_param_t → World → World)) (hs : s ∈ hexSetters) :
    Replied w (s.2 e param w) := by
  simp only [hexSetters, List.mem_cons, List.mem_singleton, List.not_mem_nil, or_false] at hs
  rcases hs with h | h | h | h | h | h | h | h | h | h | h | h <;> subst h
  all_goals
    simp only [set_devaddr, set_netid, set_deveui, set_joineui, set_nwkskey, set_appskey,
      set_appkey_10, set_appkey_11, set_nwkkey, set_fnwksintkey, set_snwksintkey,
      set_nwksenckey]
    split_ifs
    · exact replied_abort _ (by decide) _
    · repeat (first | exact replied_OK_ _ | apply replied_setRequest)

theorem replied_set_delay (e : Env) (param : atci_param_t) (w : World) :
    Replied w (set_delay e param w) := by
  unfold set_delay
  simp only
  repeat (first
    | exact replied_OK_ _
    | apply replied_setRequest
    | (apply replied_ite _ _ _ _ (by decide); intro _))

theorem replied_set_rfpower_comp (e : Env) (param : atci_param_t) (w : World) :
    Replied w (set_rfpower_comp e param w) := by
  unfold set_rfpower_comp
  simp only
  repeat (first
    | exact replied_OK_ _
    | apply replied_setRequest
    | (apply replied_ite _ _ _ _ (by decide); intro _))

theorem replied_set_rx2_comp (e : Env) (param : atci_param_t) (w : World) :
    Replied w (set_rx2_comp e param w) := by
  unfold set_rx2_comp
  simp only
  repeat (first
    | exact replied_OK_ _
    | apply replied_setRequest
    | (apply replied_ite _ _ _ _ (by decide); intro _))

theorem replied_set_dr (e : Env) (param : atci_param_t) (w : World) :
    Replied w (set_dr e param w) := by
  unfold set_dr
  simp only
  repeat (first
    | exact replied_OK_ _
    | apply replied_setRequest
    | (apply replied_ite _ _ _ _ (by decide); intro _))

theorem replied_set_rx2 (e : Env) (param : atci_param_t) (w : World) :
    Replied w (set_rx2 e param w) := by
  unfold set_rx2
  simp only
  repeat (first
    | exact replied_OK_ _
    | apply replied_setRequest
    | (apply replied_ite _ _ _ _ (by decide); intro _))

theorem replied_set_rfpower (e : Env) (param : atci_param_t) (w : World) :
    Replied w (set_rfpower e param w) := by
  unfold set_rfpower
  simp only
  repeat (first
    | exact replied_OK_ _
    | apply replied_setRequest
    | (apply replied_ite _ _ _ _ (by decide); intro _))

theorem replied_set_chmask (e : Env) (param : atci_param_t) (w : World) :
    Replied w (set_chmask e param w) := by
  unfold set_chmask
  simp only
  repeat (first
    | exact replied_OK_ _
    | apply replied_setRequest
    | (apply replied_ite _ _ _ _ (by decide); intro _))

theorem replied_commaSetters (e : Env) (param : atci_param_t) (w : World)
    (s : (Env → atci_param_t → World → World) × (Env → atci_param_t → World → Bool))
    (hs : s ∈ commaSetters) : Replied w (s.1 e param w) := by
  simp only [commaSetters, List.mem_cons, List.mem_singleton, List.not_mem_nil, or_false] at hs
  rcases hs with h | h | h | h | h | h | h <;> subst h
  · exact replied_set_delay e param w
  · exact replied_set_rfpower_comp e param w
  · exact replied_set_rx2_comp e param w
  · exact replied_set_dr e param w
  · exact replied_set_rx2 e param w
  · exact replied_set_rfpower e param w
  · exact replied_set_chmask e param w

theorem replied_set_dr_comp (e : Env) (param : atci_param_t) (w : World) :
    Replied w (set_dr_comp e param w) := by
  unfold set_dr_comp
  simp only
  repeat (first
    | exact replied_OK_ _
    | apply replied_setRequest
    | (apply replied_ite _ _ _ _ (by decide); intro _))

theorem neutral_cmd_event (t s : Nat) :
    isOkReply (.print ("+EVENT=" ++ toString t ++ "," ++ toString s ++ "\r\n\r\n")) = false ∧
    isErrReply (.print ("+EVENT=" ++ toString t ++ "," ++ toString s ++ "\r\n\r\n")) = false := by
  simp [isOkReply, isErrReply, String.toList, List.isPrefixOf]

theorem replied_set_band (e : Env) (param : atci_param_t) (w : World) :
    Replied w (set_band e param w) := by
  unfold set_band
  simp only
  apply replied_ite _ _ _ _ (by decide)
  intro _
  refine replied_pre w _ _ (quiet_emit w w (.lrw_set_region _) ⟨rfl, rfl⟩ (quiet_refl w))
    (replied_abort_on_error _ _ _ _ ?_)
  split_ifs
  · refine replied_post _ (OK_ _) _ (replied_OK_ _) ?_
    refine quiet_state _ _ _ rfl
      (quiet_emit _ _ .flush ⟨rfl, rfl⟩ (quiet_emit _ _ _ (neutral_cmd_event _ _)
        (quiet_refl _)))
  · exact replied_OK_ _

theorem replied_facnew (e : Env) (w : World) : Replied w (facnew e w) := by
  refine replied_pre w (w.emit (.LoRaMacStop (e.LoRaMacStop w.trace))) _
    (quiet_emit w w _ ⟨rfl, rfl⟩ (quiet_refl w)) ?_
  unfold facnew
  simp only
  apply replied_ite _ _ _ _ (by decide)
  intro _
  split_ifs
  · refine replied_post _ (OK_ _) _ (replied_OK_ _) ?_
    exact quiet_emit _ _ .flush ⟨rfl, rfl⟩ (quiet_state _ _ _ rfl
      (quiet_emit _ _ _ (neutral_cmd_event _ _)
        (quiet_emit _ _ (.nvm_erase _) ⟨rfl, rfl⟩ (quiet_refl _))))
  · exact replied_post _ (OK_ _) _ (replied_OK_ _)
      (quiet_emit _ _ (.nvm_erase _) ⟨rfl, rfl⟩ (quiet_refl _))

theorem lrw_send_snd (e : Env) (port : Nat) (buffer : List Char) (length : Nat)
    (confirmed : Bool) (w : World) :
    ∃ r, (lrw_send e port buffer length confirmed w).2 =
      (w.emit (.queryTxPossible length)).emit (.mcpsRequest r) := by
  unfold lrw_send
  exact ⟨_, rfl⟩

theorem replied_transmit (e : Env) (st : atci_data_status_t) (param : atci_param_t)
    (w : World) : Replied w (transmit e st param w) := by
  refine replied_pre w (w.emit .timerStop) _ (quiet_emit w w _ ⟨rfl, rfl⟩ (quiet_refl w)) ?_
  unfold transmit
  simp only
  apply replied_ite _ _ _ _ (by decide)
  intro _
  obtain ⟨r, hr⟩ := lrw_send_snd e (w.emit .timerStop).port param.txt (param.length % 256)
    (w.emit .timerStop).request_confirmation (w.emit .timerStop)
  refine replied_pre _ _ _ ?_ (replied_abort_on_error _ _ _ _ (replied_OK_ _))
  rw [hr]
  exact quiet_emit _ _ (.mcpsRequest _) ⟨rfl, rfl⟩
    (quiet_emit _ _ (.queryTxPossible _) ⟨rfl, rfl⟩ (quiet_refl _))

theorem replied_get_msize (e : Env) (w : World)
    (hq : 0 ≤ e.LoRaMacQueryTxPossible w.trace 0) : Replied w (get_msize e w) := by
  refine replied_pre w (w.emit (.queryTxPossible 0)) _
    (quiet_emit w w _ ⟨rfl, rfl⟩ (quiet_refl w)) ?_
  unfold get_msize
  simp only
  split_ifs with h1 h2
  · exact replied_OK _ _
  · exact replied_OK _ _
  · have hpos : 0 < e.LoRaMacQueryTxPossible w.trace 0 := by
      have : e.LoRaMacQueryTxPossible w.trace 0 ≠ 0 := h1
      omega
    have hneg := status2error_neg_of_pos e.status _ hpos
    unfold abort_on_error
    simp only
    rw [if_pos hneg]
    exact replied_abort _ (status2error_mem _ _ hneg) _

theorem replied_get (e : Env) (m : Mib) (w : World) :
    Replied w (abort_on_error e.status (e.LoRaMacMibGetRequestConfirm w.trace m).1
      (OK (fmt_08lX (e.LoRaMacMibGetRequestConfirm w.trace m).2)) (w.emit (.mibGet m))) :=
  replied_pre w (w.emit (.mibGet m)) _ (quiet_emit w w _ ⟨rfl, rfl⟩ (quiet_refl w))
    (replied_abort_on_error _ _ _ _ (replied_OK _ _))

theorem quiet_lrw_set_mode (e : Env) (m : Nat) (w : World) : Quiet w (lrw_set_mode e m w) := by
  by_cases hm : m = 0
  · subst hm
    simp only [lrw_set_mode, lrw_activate]
    simp only [if_true, Nat.zero_ne_one, if_false]
    split_ifs <;>
      exact quiet_emit _ _ (.mlmeRequest _) ⟨rfl, rfl⟩ (quiet_state _ _ _ rfl (quiet_refl w))
  · simp only [lrw_set_mode, if_neg hm]
    exact quiet_state _ _ _ rfl (quiet_refl w)

theorem replied_set_mode (e : Env) (param : atci_param_t) (w : World) :
    Replied w (set_mode e param w) := by
  unfold set_mode
  simp only
  apply replied_ite _ _ _ _ (by decide)
  intro _
  apply replied_ite _ _ _ _ (by decide)
  intro _
  exact replied_pre w _ _ (quiet_lrw_set_mode e _ w)
    (replied_abort_on_error _ _ _ _ (replied_OK_ _))

theorem replied_join (e : Env) (w : World) : Replied w (join e w) :=
  replied_pre w (w.emit (.mlmeRequest ⟨.MLME_JOIN, DR_0, .ACTIVATION_TYPE_OTAA⟩)) _
    (quiet_emit w w _ ⟨rfl, rfl⟩ (quiet_refl w))
    (replied_abort_on_error _ _ _ _ (replied_OK_ _))

theorem replied_set_port (e : Env) (param : atci_param_t) (w : World) :
    Replied w (set_port e param w) := by
  unfold set_port
  simp only
  apply replied_ite _ _ _ _ (by decide)
  intro _
  exact replied_pre w _ _ (quiet_state _ _ _ rfl (quiet_refl w)) (replied_OK_ _)

theorem replied_set_dwell_read (e : Env) (param : atci_param_t) (w : World) :
    Replied (w.emit (.read_txt param.offset)) (set_dwell e param w) := by
  unfold set_dwell
  simp only
  apply replied_ite _ _ _ _ (by decide)
  intro _
  apply replied_ite _ _ _ _ (by decide)
  intro _
  split_ifs
  · exact replied_pre _ _ _ (quiet_emit _ _ (.read_txt _) ⟨rfl, rfl⟩ (quiet_refl _))
      (replied_abort _ (by decide) _)
  · exact replied_pre _ _ _
      (quiet_emit _ _ (.lrw_set_dwell _ _) ⟨rfl, rfl⟩
        (quiet_emit _ _ (.read_txt _) ⟨rfl, rfl⟩ (quiet_refl _)))
      (replied_abort_on_error _ _ _ _ (replied_OK_ _))

theorem replied_set_dwell (e : Env) (param : atci_param_t) (w : World) :
    Replied w (set_dwell e param w) :=
  replied_pre w (w.emit (.read_txt param.offset)) _
    (quiet_emit w w _ ⟨rfl, rfl⟩ (quiet_refl w)) (replied_set_dwell_read e param w)

/-- C22: every handler of `syncHandlers`, the six of the claim among them,
appends to what has happened so far, and what it appends holds exactly one
reply: either one that starts with `+OK` and none that starts with `+ERR=`, or
one that starts with `+ERR=` and none that starts with `+OK`.  This holds for
every argument and every status of the engine; of the status of
`LoRaMacQueryTxPossible` it is used that it is an enumerator of
`LoRaMacStatus_t`, none of which is negative. -/
theorem sync_handlers_reply_once (e : Env) (st : atci_data_status_t) (param : atci_param_t)
    (w : World) (h : Env → atci_param_t → World → World) (hh : h ∈ syncHandlers st)
    (hq : ∀ tr n, 0 ≤ e.LoRaMacQueryTxPossible tr n) :
    ∃ xs, (h e param w).trace = w.trace ++ xs ∧
      ((okReplies xs = 1 ∧ errReplies xs = 0) ∨ (okReplies xs = 0 ∧ errReplies xs = 1)) := by
  have key : Replied w (h e param w) := by
    simp only [syncHandlers, List.mem_cons, List.mem_singleton, List.not_mem_nil,
      or_false] at hh
    rcases hh with h1 | h1 | h1 | h1 | h1 | h1 | h1 | h1 | h1 | h1 | h1 | h1 | h1 | h1 | h1 |
      h1 | h1 | h1 | h1 | h1 | h1 | h1 | h1 | h1 | h1 | h1 | h1 | h1 | h1 | h1 | h1 | h1 <;>
      subst h1
    · exact replied_hexSetters e param w (SE_KEY_SIZE, set_nwkskey) (by simp [hexSetters])
    · exact replied_commaSetters e param w (set_rfpower, set_rfpower_valid)
        (by simp [commaSetters])
    · exact replied_set_band e param w
    · exact replied_facnew e w
    · exact replied_transmit e st param w
    · exact replied_get_msize e w (hq _ _)
    · exact replied_hexSetters e param w (4, set_devaddr) (by simp [hexSetters])
    · exact replied_hexSetters e param w (4, set_netid) (by simp [hexSetters])
    · exact replied_hexSetters e param w (SE_EUI_SIZE, set_deveui) (by simp [hexSetters])
    · exact replied_hexSetters e param w (SE_EUI_SIZE, set_joineui) (by simp [hexSetters])
    · exact replied_hexSetters e param w (SE_KEY_SIZE, set_appskey) (by simp [hexSetters])
    · exact replied_hexSetters e param w (SE_KEY_SIZE, set_appkey_10) (by simp [hexSetters])
    · exact replied_hexSetters e param w (SE_KEY_SIZE, set_appkey_11) (by simp [hexSetters])
    · exact replied_hexSetters e param w (SE_KEY_SIZE, set_nwkkey) (by simp [hexSetters])
    · exact replied_hexSetters e param w (SE_KEY_SIZE, set_fnwksintkey) (by simp [hexSetters])
    · exact replied_hexSetters e param w (SE_KEY_SIZE, set_snwksintkey) (by simp [hexSetters])
    · exact replied_hexSetters e param w (SE_KEY_SIZE, set_nwksenckey) (by simp [hexSetters])
    · exact replied_get e .MIB_DEV_ADDR w
    · exact replied_get e .MIB_NET_ID w
    · exact replied_set_dr_comp e param w
    · exact replied_commaSetters e param w (set_delay, set_delay_valid)
        (by simp [commaSetters])
    · exact replied_commaSetters e param w (set_chmask, set_chmask_valid)
        (by simp [commaSetters])
    · exact replied_commaSetters e param w (set_rx2, set_rx2_valid) (by simp [commaSetters])
    · exact replied_commaSetters e param w (set_dr, set_dr_valid) (by simp [commaSetters])
    · exact replied_commaSetters e param w (set_rfpower_comp, set_rfpower_comp_valid)
        (by simp [commaSetters])
    · exact replied_commaSetters e param w (set_rx2_comp, set_rx2_comp_valid)
        (by simp [commaSetters])
    · exact replied_set_mode e param w
    · exact replied_OK _ _
    · exact replied_join e w
    · exact replied_set_port e param w
    · exact replied_OK _ _
    · exact replied_set_dwell e param w
  obtain ⟨xs, hx, h1, _⟩ := key
  refine ⟨xs, hx, ?_⟩
  omega

/-- Witness of C22: `+MSIZE?` with an engine that answers the query with the
status 3, which `status2error` maps to -3. -/
theorem sync_handlers_reply_once_witness :
    ∃ xs, (get_msize { refEnv 0 with LoRaMacQueryTxPossible := fun _ _ => 3 }
        World.start).trace = World.start.trace ++ xs ∧
      ((okReplies xs = 1 ∧ errReplies xs = 0) ∨ (okReplies xs = 0 ∧ errReplies xs = 1)) :=
  sync_handlers_reply_once { refEnv 0 with LoRaMacQueryTxPossible := fun _ _ => 3 }
    .ATCI_DATA_OK (mkParam "") World.start (fun e _ w => get_msize e w)
    (by simp [syncHandlers]) (fun _ _ => (by decide : (0 : Int) ≤ 3))


/-! ## The error code for a wrong number of arguments -/

theorem checked_01 (w : World) (n : Nat) (v : Bool) (B : World)
    (h : n ≤ 1 → Checked w v B) :
    Checked w (decide (n ≤ 1) && v) (if n ≠ 0 ∧ n ≠ 1 then abort ERR_PARAM w else B) := by
  by_cases hn : n ≤ 1
  · rw [if_neg (by omega), decide_eq_true hn]
    exact h hn
  · rw [if_pos (by omega), decide_eq_false hn]
    exact ⟨fun _ => rfl, fun h1 => by simp at h1⟩

theorem set_rfpower_comp_checks (e : Env) (p : atci_param_t) (w : World) :
    Checked w (set_rfpower_comp_valid e p w) (set_rfpower_comp e p w) := by
  unfold set_rfpower_comp set_rfpower_comp_valid
  simp only
  apply checked_ret
  intro _
  apply checked_01
  intro _
  apply checked_ret
  intro _
  apply checked_ret
  intro _
  apply checked_le_end
  intro _
  exact setRequest_since e _ _ (setRequest_appends e _ _ OK__appends) w

theorem set_rx2_comp_checks (e : Env) (p : atci_param_t) (w : World) :
    Checked w (set_rx2_comp_valid e p w) (set_rx2_comp e p w) := by
  unfold set_rx2_comp set_rx2_comp_valid
  simp only
  apply checked_ret
  intro _
  apply checked_ret
  intro _
  apply checked_ret
  intro _
  apply checked_le_end
  intro _
  exact setRequest_since e _ _ (setRequest_appends e _ _ OK__appends) w

theorem commaSetters_checks (e : Env) (param : atci_param_t) (w : World)
    (s : (Env → atci_param_t → World → World) × (Env → atci_param_t → World → Bool))
    (hs : s ∈ commaSetters) : Checked w (s.2 e param w) (s.1 e param w) := by
  simp only [commaSetters, List.mem_cons, List.mem_singleton, List.not_mem_nil, or_false] at hs
  rcases hs with h | h | h | h | h | h | h <;> subst h
  · exact set_delay_checks e param w
  · exact set_rfpower_comp_checks e param w
  · exact set_rx2_comp_checks e param w
  · exact set_dr_checks e param w
  · exact set_rx2_checks e param w
  · exact set_rfpower_checks e param w
  · exact set_chmask_checks e param w

/-- C21, as the claim states it, fails: `+RFPOWER=0` lacks the comma and the
second value, and the reply is `+ERR=-3`, not `+ERR=-2`; `+RFPOWER=0,5,7` has
one value too many, and the handler hands 5 to the engine and replies `+OK`. -/
theorem comma_setters_counterexample :
    World.start.since (set_rfpower_comp (refEnv 0) (mkParam "0") World.start) =
      [Event.print "+ERR=-3\r\n\r\n"] ∧
    World.start.since (set_rfpower_comp (refEnv 0) (mkParam "0,5,7") World.start) =
      [Event.mibSet ⟨.MIB_CHANNELS_DEFAULT_TX_POWER, .scalar 5⟩,
       Event.mibSet ⟨.MIB_CHANNELS_TX_POWER, .scalar 5⟩, Event.print "+OK\r\n\r\n"] := by
  decide

/-- C21 (amended): for each of `set_delay`, `set_rfpower_comp`, `set_rx2_comp`,
`set_dr`, `set_rx2`, `set_rfpower` and `set_chmask`: when a value or a comma
that the handler requires is missing (or a value is out of range), the reply
is `+ERR=-3` and nothing else happens; when the values and commas it requires
are there, the handler goes on to the engine whatever is left behind the last
value; and the reply `+ERR=-2` never occurs. -/
theorem comma_setters_error_code (e : Env) (param : atci_param_t) (w : World)
    (s : (Env → atci_param_t → World → World) × (Env → atci_param_t → World → Bool))
    (hs : s ∈ commaSetters) :
    (s.2 e param w = false →
      s.1 e param w = { w with trace := w.trace ++ [Event.print "+ERR=-3\r\n\r\n"] }) ∧
    (s.2 e param w = true → ∃ r xs, w.since (s.1 e param w) = Event.mibSet r :: xs) ∧
    Event.print "+ERR=-2\r\n\r\n" ∉ w.since (s.1 e param w) := by
  obtain ⟨h1, h2⟩ := commaSetters_checks e param w s hs
  refine ⟨fun hv => (h1 hv).trans (abort_param w), h2, ?_⟩
  obtain ⟨xs, hx, _, h3⟩ := replied_commaSetters e param w s hs
  rw [since_append w _ xs hx]
  exact h3

/-- Witness of C21 (amended): `$DR=5` lacks the comma; `$DR=5,5,7` has a value
too many. -/
theorem comma_setters_error_code_witness :
    set_dr (refEnv 0) (mkParam "5") World.start =
      { World.start with trace := [Event.print "+ERR=-3\r\n\r\n"] } ∧
    ∃ r xs, World.since World.start (set_dr (refEnv 0) (mkParam "5,5,7") World.start) =
      Event.mibSet r :: xs :=
  ⟨(comma_setters_error_code (refEnv 0) (mkParam "5") World.start
      (set_dr, set_dr_valid) (by simp [commaSetters])).1 (by decide),
   (comma_setters_error_code (refEnv 0) (mkParam "5,5,7") World.start
      (set_dr, set_dr_valid) (by simp [commaSetters])).2.1 (by decide)⟩

/-! ## Join -/

theorem status2error_busy (c : LoRaMacStatus) (h : 0 < c.BUSY) :
    status2error c c.BUSY = ERR_BUSY := by
  unfold status2error
  rw [if_neg (by omega), if_pos rfl]

theorem abort_busy (w : World) :
    abort ERR_BUSY w = { w with trace := w.trace ++ [Event.print "+ERR=-7\r\n\r\n"] } :=
  rfl

/-- What `lrw_activate` returns in OTAA mode for a busy engine, and what
`abort_on_error` makes of it: the value -1 is not positive, so it becomes 1
and the handler goes on. -/
theorem lrw_activate_busy (e : Env) (w : World) (hm : w.config_mode = 1)
    (hb : e.LoRaMacIsBusy w.trace = true) :
    (lrw_activate e w).1 = -1 ∧
    ∀ (c : LoRaMacStatus) (k : World → World) (w1 : World),
      abort_on_error c (lrw_activate e w).1 k w1 = k w1 := by
  have h : (lrw_activate e w).1 = -1 := by
    unfold lrw_activate
    simp only
    rw [if_pos hm, hb]
    rfl
  refine ⟨h, ?_⟩
  intro c k w1
  rw [h]
  rfl

/-- C23: when the engine answers the join request with the status BUSY, the
handler of `+JOIN` replies `+ERR=-7` and does not reply `+OK`. -/
theorem join_busy (e : Env) (w : World) (hwf : e.status.WellFormed)
    (hbusy : e.LoRaMacMlmeRequest w.trace
      ⟨.MLME_JOIN, DR_0, .ACTIVATION_TYPE_OTAA⟩ = e.status.BUSY) :
    w.since (join e w) =
      [Event.mlmeRequest ⟨.MLME_JOIN, DR_0, .ACTIVATION_TYPE_OTAA⟩,
       Event.print "+ERR=-7\r\n\r\n"] ∧
    okReplies (w.since (join e w)) = 0 := by
  have hpos : 0 < e.status.BUSY := hwf.2.1 _ (by simp [LoRaMacStatus.recognised])
  have hj : join e w =
      abort ERR_BUSY (w.emit (.mlmeRequest ⟨.MLME_JOIN, DR_0, .ACTIVATION_TYPE_OTAA⟩)) := by
    unfold join lrw_join abort_on_error
    simp only
    rw [hbusy, status2error_busy _ hpos]
    rfl
  have hs : w.since (join e w) =
      [Event.mlmeRequest ⟨.MLME_JOIN, DR_0, .ACTIVATION_TYPE_OTAA⟩,
       Event.print "+ERR=-7\r\n\r\n"] := by
    rw [hj]
    exact since_append w _ _ (by rw [abort_busy]; simp [World.emit])
  refine ⟨hs, ?_⟩
  rw [hs]
  decide

/-- Witness of C23: the engine answers the join request with the status 1,
which is BUSY in the numbering of LoRaMac-node. -/
theorem join_busy_witness :
    World.start.since (join { refEnv 0 with LoRaMacMlmeRequest := fun _ _ => 1 } World.start) =
      [Event.mlmeRequest ⟨.MLME_JOIN, DR_0, .ACTIVATION_TYPE_OTAA⟩,
       Event.print "+ERR=-7\r\n\r\n"] :=
  (join_busy { refEnv 0 with LoRaMacMlmeRequest := fun _ _ => 1 } World.start (by decide)
    rfl).1

/-! ## A send command whose payload read is refused -/

/-- C29: what the code does on the error path of the claim.  The size was
read and is within the limit, and `atci_set_read_next_data` refuses: `utx`
(and with it `ctx`) has initialised, set and started the payload timer, and
replies `+ERR=-12` without a call of `TimerStop`.  After the handler the timer
runs, while no payload read is armed. -/
theorem send_refused_timer_running (e : Env) (p : atci_param_t) (w : World)
    (hret : (e.atci_param_get_uint p).ret = true)
    (hle : (e.atci_param_get_uint p).value ≤ (if w.sysconf.data_format = 1 then 484 else 242))
    (href : (utx e (some p) w).accepted = false) :
    w.since (utx e (some p) w) =
      [Event.timerInit, Event.timerSetValue w.sysconf.uart_timeout, Event.timerStart,
       Event.setReadNextData (e.atci_param_get_uint p).value
         (if w.sysconf.data_format = 1 then atci_encoding_t.ATCI_ENCODING_HEX
          else atci_encoding_t.ATCI_ENCODING_BIN) false,
       Event.print "+ERR=-12\r\n\r\n"] ∧
    timerRunning (utx e (some p) w).trace = true ∧
    readArmed (utx e (some p) w).trace = false ∧
    (ctx e (some p) w).trace = (utx e (some p) w).trace := by
  have hng : ¬ (e.atci_param_get_uint p).value >
      242 * (if w.sysconf.data_format = 1 then 2 else 1) := by
    split_ifs at hle ⊢ <;> omega
  have ht : (utx e (some p) w).trace = w.trace ++
      [Event.timerInit, Event.timerSetValue w.sysconf.uart_timeout, Event.timerStart,
       Event.setReadNextData (e.atci_param_get_uint p).value
         (if w.sysconf.data_format = 1 then atci_encoding_t.ATCI_ENCODING_HEX
          else atci_encoding_t.ATCI_ENCODING_BIN) false,
       Event.print "+ERR=-12\r\n\r\n"] := by
    revert href
    simp only [utx, hret, Bool.true_eq_false, if_false, if_neg hng]
    generalize e.atci_set_read_next_data _ _ _ = a
    cases a
    · intro _
      simp [World.emit, abort_payload_long]
    · intro href
      simp [World.accepted, World.emit] at href
  refine ⟨since_append w _ _ ht, ?_, ?_, rfl⟩
  · rw [ht]
    simp [timerRunning, List.foldl_append]
  · rw [ht]
    simp [readArmed, List.foldl_append]

/-- Witness of C29: `+UTX=10` with a reader that refuses the payload read. -/
theorem send_refused_timer_running_witness :
    timerRunning
      (utx { refEnv 0 with atci_set_read_next_data := fun _ _ _ => false }
        (some (mkParam "10")) World.start).trace = true :=
  (send_refused_timer_running { refEnv 0 with atci_set_read_next_data := fun _ _ _ => false }
    (mkParam "10") World.start (by decide) (by decide) (by decide)).2.1

/-! ## The argument of `+DWELL=` -/

theorem abort_on_error_OK__emit (c : LoRaMacStatus) (s : Int) (w : World) :
    ∃ t, abort_on_error c s OK_ w = w.emit (.print t) := by
  unfold abort_on_error
  simp only
  split
  · exact ⟨_, rfl⟩
  · exact ⟨_, rfl⟩

/-- The cursor `1,` has length 2 and `set_dwell` reads at the offsets 0 and
2; for `1,0x` it calls `lrw_set_dwell` although the text goes on behind the
second digit. -/
theorem set_dwell_truncated :
    (mkParam "1,").length = 2 ∧
    inspected (World.start.since (set_dwell (refEnv 0) (mkParam "1,") World.start)) = [0, 2] ∧
    dwellCalls (World.start.since (set_dwell (refEnv 0) (mkParam "1,0x") World.start)) =
      [(true, false)] := by
  decide

/-- C30: what the code does.  `set_dwell` reads the character at the cursor
first thing, without a look at the length of the argument; so for the empty
argument it reads at offset 0, which is not below the length 0.  It calls
`lrw_set_dwell`, once, when the character it reads at the cursor is `0` or
`1`, a comma follows, and the character it reads at the cursor behind the
comma is `0` or `1`, whatever follows that character; the arguments of the
call tell which of the two characters were `1`.  In every other case it does
not call `lrw_set_dwell` and, beyond reading, only replies `+ERR=-3`. -/
theorem set_dwell_fields (e : Env) (param : atci_param_t) (w : World) :
    (∃ xs, w.since (set_dwell e param w) = Event.read_txt param.offset :: xs) ∧
    (set_dwell_valid e param = true →
      dwellCalls (w.since (set_dwell e param w)) =
        [(decide (param.at param.offset = '1'),
          decide ((e.atci_param_is_comma { param with offset := param.offset + 1 }).param.at
            (e.atci_param_is_comma { param with offset := param.offset + 1 }).param.offset
              = '1'))]) ∧
    (set_dwell_valid e param = false →
      dwellCalls (w.since (set_dwell e param w)) = [] ∧
      ∃ rs : List Nat, w.since (set_dwell e param w) =
        rs.map Event.read_txt ++ [Event.print "+ERR=-3\r\n\r\n"]) := by
  refine ⟨?_, ?_⟩
  · obtain ⟨xs, hx, _⟩ := replied_set_dwell_read e param w
    exact ⟨xs, since_append w _ _ (by rw [hx]; simp [World.emit])⟩
  unfold set_dwell_valid
  simp only
  by_cases h1 : param.at param.offset ≠ '0' ∧ param.at param.offset ≠ '1'
  · have hs : w.since (set_dwell e param w) =
        [Event.read_txt param.offset, Event.print "+ERR=-3\r\n\r\n"] := by
      unfold set_dwell
      simp only
      rw [if_pos h1]
      exact since_append w _ _ (by rw [abort_param]; simp [World.emit])
    constructor
    · intro hv
      simp [h1.1, h1.2] at hv
    · intro _
      rw [hs]
      exact ⟨rfl, [param.offset], rfl⟩
  · by_cases h2 : (e.atci_param_is_comma { param with offset := param.offset + 1 }).ret = false
    · have hs : w.since (set_dwell e param w) =
          [Event.read_txt param.offset, Event.print "+ERR=-3\r\n\r\n"] := by
        unfold set_dwell
        simp only
        rw [if_neg h1, if_pos h2]
        exact since_append w _ _ (by rw [abort_param]; simp [World.emit])
      constructor
      · intro hv
        simp [h2] at hv
      · intro _
        rw [hs]
        exact ⟨rfl, [param.offset], rfl⟩
    · by_cases h3 :
          (e.atci_param_is_comma { param with offset := param.offset + 1 }).param.at
            (e.atci_param_is_comma { param with offset := param.offset + 1 }).param.offset
              ≠ '0' ∧
          (e.atci_param_is_comma { param with offset := param.offset + 1 }).param.at
            (e.atci_param_is_comma { param with offset := param.offset + 1 }).param.offset
              ≠ '1'
      · have hs : w.since (set_dwell e param w) =
            [Event.read_txt param.offset,
             Event.read_txt
               (e.atci_param_is_comma { param with offset := param.offset + 1 }).param.offset,
             Event.print "+ERR=-3\r\n\r\n"] := by
          unfold set_dwell
          simp only
          rw [if_neg h1, if_neg h2, if_pos h3]
          exact since_append w _ _ (by rw [abort_param]; simp [World.emit])
        constructor
        · intro hv
          simp [h3.1, h3.2] at hv
        · intro _
          rw [hs]
          exact ⟨rfl, [param.offset,
            (e.atci_param_is_comma { param with offset := param.offset + 1 }).param.offset],
            rfl⟩
      · constructor
        · intro _
          obtain ⟨t, ht⟩ := abort_on_error_OK__emit e.status
            (e.lrw_set_dwell
              ((w.emit (.read_txt param.offset)).emit (.read_txt
                (e.atci_param_is_comma
                  { param with offset := param.offset + 1 }).param.offset)).trace
              (decide (param.at param.offset = '1'))
              (decide ((e.atci_param_is_comma
                  { param with offset := param.offset + 1 }).param.at
                (e.atci_param_is_comma
                  { param with offset := param.offset + 1 }).param.offset = '1')))
            (((w.emit (.read_txt param.offset)).emit (.read_txt
                (e.atci_param_is_comma
                  { param with offset := param.offset + 1 }).param.offset)).emit
              (.lrw_set_dwell (decide (param.at param.offset = '1'))
                (decide ((e.atci_param_is_comma
                    { param with offset := param.offset + 1 }).param.at
                  (e.atci_param_is_comma
                    { param with offset := param.offset + 1 }).param.offset = '1'))))
          have hs : w.since (set_dwell e param w) =
              [Event.read_txt param.offset,
               Event.read_txt
                 (e.atci_param_is_comma { param with offset := param.offset + 1 }).param.offset,
               Event.lrw_set_dwell (decide (param.at param.offset = '1'))
                 (decide ((e.atci_param_is_comma
                     { param with offset := param.offset + 1 }).param.at
                   (e.atci_param_is_comma
                     { param with offset := param.offset + 1 }).param.offset = '1')),
               Event.print t] := by
            unfold set_dwell
            simp only
            rw [if_neg h1, if_neg h2, if_neg h3, ht]
            exact since_append w _ _ (by simp [World.emit])
          rw [hs]
          rfl
        · intro hv
          exfalso
          have a1 : param.at param.offset = '0' ∨ param.at param.offset = '1' := by
            by_contra hc
            exact h1 ⟨fun h => hc (Or.inl h), fun h => hc (Or.inr h)⟩
          have a3 :
              (e.atci_param_is_comma { param with offset := param.offset + 1 }).param.at
                (e.atci_param_is_comma { param with offset := param.offset + 1 }).param.offset
                  = '0' ∨
              (e.atci_param_is_comma { param with offset := param.offset + 1 }).param.at
                (e.atci_param_is_comma { param with offset := param.offset + 1 }).param.offset
                  = '1' := by
            by_contra hc
            exact h3 ⟨fun h => hc (Or.inl h), fun h => hc (Or.inr h)⟩
          have a2 : (e.atci_param_is_comma { param with offset := param.offset + 1 }).ret =
              true := by
            simpa using h2
          rcases a1 with a1 | a1 <;> rcases a3 with a3 | a3 <;> simp [a1, a2, a3] at hv

/-- Witness of C30: the empty argument `+DWELL=`, then `+DWELL=1,0` and
`+DWELL=2,0`. -/
theorem set_dwell_fields_witness :
    (mkParam "").length = 0 ∧
    (∃ xs, World.start.since (set_dwell (refEnv 0) (mkParam "") World.start) =
      Event.read_txt 0 :: xs) ∧
    dwellCalls (World.start.since (set_dwell (refEnv 0) (mkParam "1,0") World.start)) =
      [(true, false)] ∧
    dwellCalls (World.start.since (set_dwell (refEnv 0) (mkParam "2,0") World.start)) = [] :=
  ⟨rfl, (set_dwell_fields (refEnv 0) (mkParam "") World.start).1,
   (set_dwell_fields (refEnv 0) (mkParam "1,0") World.start).2.1 (by decide),
   ((set_dwell_fields (refEnv 0) (mkParam "2,0") World.start).2.2 (by decide)).1⟩

end LoraModem
